import Mathlib

/-!
# Mentor agent: mastery verification loop

A shallow embedding of `src/mentor-agent/index.js` (class `MentorAgent`),
`src/mentor-agent/prompts.js`, `src/mentor-agent/dry-run.js` and
`src/mentor-agent/test-cli.js`, and of the collaborators around the loop:
`src/search/webSearch.js`, `src/search/buildSearchQueries.js`,
`src/course/lessonPrompt.js`, `src/course/generateLesson.js`,
`src/course/structurePrompt.js`, `src/course/generateStructure.js`,
`src/brain/createBrain.js` (`createBrain`) and
`src/brain/updateCourseStructure.js` (`updateCourseStructure`,
`getCourseStats`).

JavaScript values are the inductive `JsVal`; a thrown exception is a `JsError`
(the `name` and `message` of the error object).  An `async` function is a
state-passing computation `Js W α`: it takes the state of the outside world and
returns either a value or the exception thrown, together with the new state
(effects made before a `throw` are kept).  The outside world (the HTTP
endpoint, the terminal, the engine's `JSON` and `parseInt`) is a `Host W`.
Console output and `rl.close()` are write-only and have no effect on control
flow: they are not modelled, except that expressions evaluated for printing
which can throw are evaluated.  The `while` loop of `runSimulation` is run with
fuel.

Limits of the value model: numbers are integers (a JSON number with a fraction
or an exponent has no counterpart), and a property read sees own data
properties and `length` only, which are the only properties this program reads.

The definitions come first: the embedding of each source file, the vocabulary
in which the properties are stated, and a scripted host with sample data for
concrete runs.  The theorems follow.
-/

namespace MentorAgent

/-! ## JavaScript values and errors -/

/-- JavaScript values as they occur in this program: `undefined`, the JSON
values, and `NaN` (the result of `parseInt` on a non-number).  Numbers are
integers; objects are lists of properties in insertion order. -/
inductive JsVal where
  | undefined : JsVal
  | null : JsVal
  | bool (b : Bool) : JsVal
  | num (n : Int) : JsVal
  | nan : JsVal
  | str (s : String) : JsVal
  | arr (xs : List JsVal) : JsVal
  | obj (kvs : List (String × JsVal)) : JsVal
  deriving Inhabited

/-- A thrown JavaScript error object: its constructor name (`Error`,
`TypeError`, `SyntaxError`, ...) and its message. -/
structure JsError where
  name : String
  message : String
  deriving DecidableEq, Repr, Inhabited

namespace JsVal

/-- JavaScript truthiness (`ToBoolean`). -/
def truthy : JsVal → Bool
  | undefined => false
  | null => false
  | bool b => b
  | num n => n != 0
  | nan => false
  | str s => s != ""
  | arr _ => true
  | obj _ => true

/-- Lookup of an own property in an object's property list. -/
def lookup (k : String) : List (String × JsVal) → JsVal
  | [] => undefined
  | (k', v) :: rest => if k' = k then v else lookup k rest

/-- The `length` of a string: its number of UTF-16 code units. -/
def utf16Length (s : String) : Nat :=
  s.data.foldl (fun n c => n + (if c.val < 0x10000 then 1 else 2)) 0

/-- Property read `v.k` on a value that is neither `undefined` nor `null`,
for `k` the name of a data property or `length` (no other inherited property
is read by this program). -/
def getProp (v : JsVal) (k : String) : JsVal :=
  match v with
  | obj kvs => lookup k kvs
  | arr xs => if k = "length" then num xs.length else undefined
  | str s => if k = "length" then num (utf16Length s) else undefined
  | _ => undefined

/-- Indexed read `v[i]` for a non-negative integer `i` (on a string, the
character at position `i`). -/
def getIdx (v : JsVal) (i : Nat) : JsVal :=
  match v with
  | arr xs => xs.getD i undefined
  | str s => match s.data.get? i with
    | some c => str (String.singleton c)
    | none => undefined
  | obj kvs => lookup (toString i) kvs
  | _ => undefined

/-- Indexed read `xs[k]` on an array, where the key is the result of `parseInt`
(`none` for `NaN`): `undefined` unless `k` is an index within the array. -/
def arrAt (xs : List JsVal) (k : Option Int) : JsVal :=
  match k with
  | some (Int.ofNat i) => xs.getD i undefined
  | _ => undefined

/-- The result of `parseInt` as a value: a number, or `NaN`. -/
def ofParsed : Option Int → JsVal
  | some n => num n
  | none => nan

/-- Whether a value is `undefined` or `null` (property reads on these throw). -/
def isNullish : JsVal → Bool
  | undefined => true
  | null => true
  | _ => false

/-- How the engine prints a nullish value in a `TypeError` message. -/
def nullishName : JsVal → String
  | null => "null"
  | _ => "undefined"

mutual
/-- String conversion of a value, as a template literal or `String(v)` does. -/
def toStr : JsVal → String
  | undefined => "undefined"
  | null => "null"
  | bool b => if b then "true" else "false"
  | num n => toString n
  | nan => "NaN"
  | str s => s
  | arr xs => joinStr xs
  | obj _ => "[object Object]"
termination_by structural v => v
/-- The commas-joined rendering of an array (`Array.prototype.join` with the
separator `,`): `undefined` and `null` elements render as the empty string. -/
def joinStr : List JsVal → String
  | [] => ""
  | x :: rest =>
    (match x with
      | undefined => ""
      | null => ""
      | v => toStr v) ++
    (match rest with
      | [] => ""
      | _ => "," ++ joinStr rest)
termination_by structural xs => xs
end

end JsVal

open JsVal

/-- The `TypeError` the engine throws for a property read on `undefined` or
`null`. -/
def cannotRead (v : JsVal) (k : String) : JsError :=
  ⟨"TypeError", "Cannot read properties of " ++ nullishName v ++ " (reading '" ++ k ++ "')"⟩

/-- The `TypeError` for calling a property that is not a function. -/
def notAFunction (what : String) : JsError :=
  ⟨"TypeError", what ++ " is not a function"⟩

/-- The `TypeError` for iterating a value that is not iterable. -/
def notIterable (what : String) : JsError :=
  ⟨"TypeError", what ++ " is not iterable"⟩

/-- Property read `v.k` as an expression: throws on `undefined` and `null`. -/
def readProp (v : JsVal) (k : String) : Except JsError JsVal :=
  if isNullish v then .error (cannotRead v k) else .ok (getProp v k)

/-- Indexed read `v[i]` as an expression: throws on `undefined` and `null`. -/
def readIdx (v : JsVal) (i : Nat) : Except JsError JsVal :=
  if isNullish v then .error (cannotRead v (toString i)) else .ok (getIdx v i)

/-! ## The outside world -/

/-- The argument of `fetch`: the URL and the `init` object of the call in
`callLLM`. -/
structure Request where
  url : String
  method : String
  headers : List (String × String)
  body : JsVal
  deriving Inhabited

/-- The `Response` object `fetch` resolves to: `ok`, `status`, `statusText`,
and what the body-reading methods `text()` and `json()` resolve to (either may
reject). -/
structure Response where
  ok : Bool
  status : Nat
  statusText : String
  text : Except JsError String
  json : Except JsError JsVal

/-- The collaborators of the program, over a world state `W`:
`fetch` (the generation service behind HTTP; rejects on a transport failure),
`question` (one `readline` prompt and the line typed in reply), and the engine
built-ins `JSON.parse`, `JSON.stringify`, `parseInt` (`none` for `NaN`) and the
comparison `s > 0` of a string with zero. -/
structure Host (W : Type) where
  fetch : Request → W → Except JsError Response × W
  question : String → W → String × W
  jsonParse : JsVal → Except JsError JsVal
  jsonStringify : JsVal → JsVal
  parseInt : String → Option Int
  stringGtZero : String → Bool

/-- A call of one of the three public methods of `MentorAgent`, with its
arguments. -/
inductive Call where
  | generateTests (lessonContext : JsVal) : Call
  | evaluate (lessonContext userAnswers : JsVal) : Call
  | remediate (lessonContext gaps : JsVal) : Call

/-- The state threaded through a run: the world, and two records kept for
specification only, the requests handed to `fetch` and the agent methods
called, both in order. -/
structure St (W : Type) where
  world : W
  sent : List Request
  calls : List Call

/-- An `async` computation: from a state to a value or a thrown error, and the
state reached. -/
def Js (W : Type) (α : Type) : Type := St W → Except JsError α × St W

namespace Js

variable {W : Type} {α β : Type}

/-- Resolve with a value. -/
def ret (a : α) : Js W α := fun s => (.ok a, s)

/-- Throw an error. -/
def throw (e : JsError) : Js W α := fun s => (.error e, s)

/-- Sequencing: the second computation runs only if the first did not throw. -/
def bind (m : Js W α) (f : α → Js W β) : Js W β := fun s =>
  match m s with
  | (.ok a, s') => f a s'
  | (.error e, s') => (.error e, s')

/-- A pure expression that may throw. -/
def lift (r : Except JsError α) : Js W α := fun s => (r, s)

/-- The statement `try { body } catch (error) { handler }`. -/
def tryCatch (body : Js W α) (handler : JsError → Js W α) : Js W α := fun s =>
  match body s with
  | (.ok a, s') => (.ok a, s')
  | (.error e, s') => handler e s'

instance : Monad (Js W) where
  pure := ret
  bind := bind

end Js

namespace Js

variable {W : Type}

/-- The call `await fetch(url, init)`: the world answers, and the request is
recorded as sent. -/
def doFetch (h : Host W) (req : Request) : Js W Response := fun s =>
  let r := h.fetch req s.world
  (r.1, { s with world := r.2, sent := s.sent ++ [req] })

/-- The call `await ask(question)` of `test-cli.js`: the line typed in reply. -/
def ask (h : Host W) (question : String) : Js W String := fun s =>
  let r := h.question question s.world
  (.ok r.1, { s with world := r.2 })

/-- Record that an agent method was entered (specification only). -/
def record (c : Call) : Js W Unit := fun s =>
  (.ok (), { s with calls := s.calls ++ [c] })

end Js

open Js

/-! ## `prompts.js` -/

/-- The constant `TEST_GENERATOR_PROMPT`. -/
def TEST_GENERATOR_PROMPT : String :=
  "You are the \"Test Architect\".\nYour Goal: Generate content for 6 specific mini-games based on the provided Lesson.\n\nINPUT:\n- Lesson Content\n- Mastery Criteria\n\nOUTPUT:\nA JSON object containing configuration for ALL 6 games:\n1. QuizMaster: 3-5 Multiple Choice/True-False questions.\n2. FlashCardHero: 3-5 Term/Definition pairs.\n3. SortItOut: 2 Categories (buckets) and 4-6 items to sort.\n4. MatchMaker: 4-5 pairs of connected concepts.\n5. FillTheGap: A short paragraph with key terms replaced by blanks.\n6. FeynmanBoard: A prompt asking the user to explain a specific core concept in their own words.\n\nCONSTRAINTS:\n- STRICTLY LIMIT questions to information explicitly present in the Lesson Content. DO NOT assume outside knowledge.\n- Questions must directly test the Mastery Criteria.\n- Vary the difficulty.\n- Ensure all answers are unambiguously correct.\n- Return ONLY valid JSON.\n"

/-- The constant `EVALUATOR_PROMPT`. -/
def EVALUATOR_PROMPT : String :=
  "You are the \"Strict Examiner\".\nYour Goal: Analyze user performance and decide if they pass or fail.\n\nINPUT:\n- Mastery Criteria (The standard)\n- User Answers (from the 6 games)\n- User's written explanation (from FeynmanBoard)\n\nOUTPUT:\nJSON Object:\n\x7b\n  \"passed\": boolean, // True ONLY if they meet ALL criteria\n  \"gaps\": string[] // List of SPECIFIC concepts they missed. Empty if passed.\n\x7d\n\nRULES:\n- Be rigorous. If they guessed on the quiz but failed the Feynman explanation, they FAIL.\n- If passed is true, the \"gaps\" array must be empty.\n- If passed is false, \"gaps\" must contain precise descriptions of what is missing (e.g., \"Confused Senate with Assembly\").\n- Return ONLY valid JSON.\n"

/-- The constant `REMEDIATOR_PROMPT`. -/
def REMEDIATOR_PROMPT : String :=
  "You are the \"Remedial Tutor\".\nYour Goal: Teach the user the specific concepts they missed.\n\nINPUT:\n- Original Lesson Context\n- User's Specific Gaps (from Evaluator)\n\nOUTPUT:\nMarkdown text containing:\n1. Targeted explanation of the GAP concepts.\n2. A new analogy or example different from the original lesson.\n\nCONSTRAINTS:\n- DO NOT reteach the entire lesson.\n- FOCUS ONLY on the gaps.\n- Keep it concise.\n"

/-! ## `index.js`: class `MentorAgent` -/

/-- The fields of a `MentorAgent` instance. -/
structure Agent where
  apiKey : JsVal
  model : String

/-- The constructor: `apiKey` is the argument, `envKey` the value of
`process.env.OPENROUTER_API_KEY`. -/
def Agent.new (apiKey envKey : JsVal) : Except JsError Agent :=
  let key := if truthy apiKey then apiKey else envKey
  if !truthy key then .error ⟨"Error", "OPENROUTER_API_KEY is required"⟩
  else .ok { apiKey := key, model := "google/gemini-3-flash-preview" }

/-- The request built by `callLLM`. -/
def llmRequest {W : Type} (h : Host W) (self : Agent) (systemPrompt : String)
    (userContent : JsVal) (jsonMode : Bool) : Request :=
  { url := "https://openrouter.ai/api/v1/chat/completions"
    method := "POST"
    headers :=
      [("Authorization", "Bearer " ++ toStr self.apiKey),
       ("Content-Type", "application/json"),
       ("HTTP-Referer", "https://github.com/your-repo"),
       ("X-Title", "Mentor Agent")]
    body := h.jsonStringify (obj
      [("model", str self.model),
       ("messages", arr
          [obj [("role", str "system"), ("content", str systemPrompt)],
           obj [("role", str "user"), ("content", h.jsonStringify userContent)]]),
       ("response_format",
          if jsonMode then obj [("type", str "json_object")] else undefined)]) }

/-- The error thrown on a response whose `ok` is false. -/
def apiRequestFailed (response : Response) (errorText : String) : JsError :=
  ⟨"Error", "API request failed: " ++ toString response.status ++ " " ++
    response.statusText ++ "\n" ++ errorText⟩

/-- The expression `data.choices[0].message.content`. -/
def messageContent (data : JsVal) : Except JsError JsVal := do
  let choices ← readProp data "choices"
  let first ← readIdx choices 0
  let message ← readProp first "message"
  readProp message "content"

/-- The body of the `try` block of `callLLM`. -/
def callLLMBody {W : Type} (h : Host W) (self : Agent) (systemPrompt : String)
    (userContent : JsVal) (jsonMode : Bool) : Js W JsVal := do
  let response ← doFetch h (llmRequest h self systemPrompt userContent jsonMode)
  if !response.ok then
    let errorText ← lift response.text
    Js.throw (apiRequestFailed response errorText)
  else
    let data ← lift response.json
    let content ← lift (messageContent data)
    if jsonMode then lift (h.jsonParse content) else pure content

/-- The method `callLLM(systemPrompt, userContent, jsonMode)`: the `catch`
clause logs the error and throws it again. -/
def callLLM {W : Type} (h : Host W) (self : Agent) (systemPrompt : String)
    (userContent : JsVal) (jsonMode : Bool) : Js W JsVal :=
  Js.tryCatch (callLLMBody h self systemPrompt userContent jsonMode)
    (fun error => Js.throw error)

/-- The method `generateTests(lessonContext)`. -/
def generateTests {W : Type} (h : Host W) (self : Agent) (lessonContext : JsVal) :
    Js W JsVal := do
  record (.generateTests lessonContext)
  callLLM h self TEST_GENERATOR_PROMPT lessonContext true

/-- The method `evaluate(lessonContext, userAnswers)`. -/
def evaluate {W : Type} (h : Host W) (self : Agent) (lessonContext userAnswers : JsVal) :
    Js W JsVal := do
  record (.evaluate lessonContext userAnswers)
  let criteria ← lift (readProp lessonContext "mastery_criteria")
  let input := obj [("mastery_criteria", criteria), ("user_answers", userAnswers)]
  callLLM h self EVALUATOR_PROMPT input true

/-- The method `remediate(lessonContext, gaps)`. -/
def remediate {W : Type} (h : Host W) (self : Agent) (lessonContext gaps : JsVal) :
    Js W JsVal := do
  record (.remediate lessonContext gaps)
  let input := obj [("original_lesson", lessonContext), ("identified_gaps", gaps)]
  callLLM h self REMEDIATOR_PROMPT input false

/-! ## Helpers for the two scripts -/

/-- The elements a `for (const x of v)` loop visits: those of an array, the
characters of a string; any other JSON value is not iterable. -/
def forOf (what : String) (v : JsVal) : Except JsError (List JsVal) :=
  match v with
  | arr xs => .ok xs
  | str s => .ok (s.data.map (fun c => str (String.singleton c)))
  | _ => .error (notIterable what)

/-- The receiver of an array method call `v.name(...)` (`forEach`, `join`,
`map`): only an array has the method. -/
def arrayMethod (what name : String) (v : JsVal) : Except JsError (List JsVal) :=
  match v with
  | arr xs => .ok xs
  | undefined => .error (cannotRead undefined name)
  | null => .error (cannotRead null name)
  | _ => .error (notAFunction (what ++ "." ++ name))

/-- The receiver of the string method call `v.substring(...)`. -/
def stringMethod (what name : String) (v : JsVal) : Except JsError String :=
  match v with
  | str s => .ok s
  | undefined => .error (cannotRead undefined name)
  | null => .error (cannotRead null name)
  | _ => .error (notAFunction (what ++ "." ++ name))

/-- The comparison `v > 0`. -/
def gtZero {W : Type} (h : Host W) : JsVal → Bool
  | .undefined => false
  | .null => false
  | .bool b => b
  | .num n => decide (0 < n)
  | .nan => false
  | .str s => h.stringGtZero s
  | .arr xs => h.stringGtZero (joinStr xs)
  | .obj _ => h.stringGtZero "[object Object]"

/-- The constant `MOCK_LESSON` (the same in `test-cli.js` and `dry-run.js`). -/
def MOCK_LESSON : JsVal :=
  obj
    [("title", str "Introduction to Photosynthesis"),
     ("content_text", str "Photosynthesis is the process by which plants use sunlight, water, and carbon dioxide to create oxygen and energy in the form of sugar. It takes place in the chloroplasts, which contain chlorophyll."),
     ("mastery_criteria", arr
        [str "Define the inputs and outputs of photosynthesis",
         str "Identify where photosynthesis occurs in the cell"])]

/-! ## `test-cli.js` -/

/-- Game 1, the loop over `games.QuizMaster.questions`. -/
def quizLoop {W : Type} (h : Host W) : List JsVal → Js W (List JsVal)
  | [] => pure []
  | q :: rest => do
    let text ← lift (readProp q "text")
    let _ ← lift (arrayMethod "q.options" "forEach" (getProp q "options"))
    let ans ← ask h "Your Answer (index): "
    let entry := obj
      [("question", text),
       ("selected_index", ofParsed (h.parseInt ans)),
       ("correct_index", getProp q "correct_index")]
    let more ← quizLoop h rest
    pure (entry :: more)

/-- Game 2, the loop over `games.FlashCardHero.cards`. -/
def cardLoop {W : Type} (h : Host W) : List JsVal → Js W (List JsVal)
  | [] => pure []
  | card :: rest => do
    let front ← lift (readProp card "front")
    let ans ← ask h "Your Definition: "
    let entry := obj
      [("front", front),
       ("expected_back", getProp card "back"),
       ("user_input", str ans)]
    let more ← cardLoop h rest
    pure (entry :: more)

/-- Game 3, the loop over `games.SortItOut.items`. -/
def sortLoop {W : Type} (h : Host W) (buckets : List JsVal) : List JsVal → Js W (List JsVal)
  | [] => pure []
  | item :: rest => do
    let text ← lift (readProp item "text")
    let ans ← ask h ("Sort \"" ++ toStr text ++ "\" into which bucket? (0 or 1): ")
    let bucketIndex := h.parseInt ans
    let entry := obj
      [("item", text),
       ("user_bucket", arrAt buckets bucketIndex),
       ("correct_bucket", getProp item "bucket")]
    let more ← sortLoop h buckets rest
    pure (entry :: more)

/-- The callback of `pairs.map(p => p.k)`, applied along the array. -/
def mapProp (k : String) : List JsVal → Except JsError (List JsVal)
  | [] => .ok []
  | p :: rest => do
    let v ← readProp p k
    let more ← mapProp k rest
    pure (v :: more)

/-- Game 4, the loop `for (let i = 0; i < lefts.length; i++)`, from index `i`
on; `pending` are the entries of `lefts` from `i` on. -/
def matchLoop {W : Type} (h : Host W) (pairs rights : List JsVal) :
    Nat → List JsVal → Js W (List JsVal)
  | _, [] => pure []
  | i, left :: pending => do
    let ans ← ask h ("Match term " ++ toString i ++ " to definition index: ")
    let entry := obj
      [("term", left),
       ("user_match", arrAt rights (h.parseInt ans)),
       ("correct_match", getProp (pairs.getD i undefined) "right")]
    let more ← matchLoop h pairs rights (i + 1) pending
    pure (entry :: more)

/-- Game 5, the loop over `games.FillTheGap.blanks`. -/
def blankLoop {W : Type} (h : Host W) : List JsVal → Js W (List JsVal)
  | [] => pure []
  | blank :: rest => do
    let id ← lift (readProp blank "id")
    let ans ← ask h ("Fill in [" ++ toStr id ++ "]: ")
    let entry := obj
      [("id", id),
       ("user_input", str ans),
       ("correct_answer", getProp blank "answer")]
    let more ← blankLoop h rest
    pure (entry :: more)

/-- Game 1, `QuizMaster`: the value of `userAnswers.quiz_master`. -/
def playQuizMaster {W : Type} (h : Host W) (games : JsVal) : Js W (List JsVal) := do
  let quizMaster ← lift (readProp games "QuizMaster")
  if truthy quizMaster && truthy (getProp quizMaster "questions") then do
    let qs ← lift (forOf "games.QuizMaster.questions" (getProp quizMaster "questions"))
    quizLoop h qs
  else pure []

/-- Game 2, `FlashCardHero`: the value of `userAnswers.flash_cards`. -/
def playFlashCardHero {W : Type} (h : Host W) (games : JsVal) : Js W (List JsVal) := do
  let flashCardHero ← lift (readProp games "FlashCardHero")
  if truthy flashCardHero && truthy (getProp flashCardHero "cards") then do
    let cards ← lift (forOf "games.FlashCardHero.cards" (getProp flashCardHero "cards"))
    cardLoop h cards
  else pure []

/-- Game 3, `SortItOut`: the value of `userAnswers.sort_it_out`. -/
def playSortItOut {W : Type} (h : Host W) (games : JsVal) : Js W (List JsVal) := do
  let sortItOut ← lift (readProp games "SortItOut")
  if truthy sortItOut && truthy (getProp sortItOut "items") then do
    let buckets ← lift (arrayMethod "games.SortItOut.buckets" "join" (getProp sortItOut "buckets"))
    let items ← lift (forOf "games.SortItOut.items" (getProp sortItOut "items"))
    sortLoop h buckets items
  else pure []

/-- Game 4, `MatchMaker`: the value of `userAnswers.match_maker`. -/
def playMatchMaker {W : Type} (h : Host W) (games : JsVal) : Js W (List JsVal) := do
  let matchMaker ← lift (readProp games "MatchMaker")
  if truthy matchMaker && truthy (getProp matchMaker "pairs") then do
    let pairs ← lift (arrayMethod "games.MatchMaker.pairs" "map" (getProp matchMaker "pairs"))
    let lefts ← lift (mapProp "left" pairs)
    let rights ← lift (mapProp "right" pairs)
    matchLoop h pairs rights 0 lefts
  else pure []

/-- Game 5, `FillTheGap`: the value of `userAnswers.fill_the_gap`. -/
def playFillTheGap {W : Type} (h : Host W) (games : JsVal) : Js W (List JsVal) := do
  let fillTheGap ← lift (readProp games "FillTheGap")
  if truthy fillTheGap then do
    let blanks ← lift (forOf "games.FillTheGap.blanks" (getProp fillTheGap "blanks"))
    blankLoop h blanks
  else pure []

/-- Game 6, `FeynmanBoard`: the property `feynman_board` added to `userAnswers`,
if any. -/
def playFeynmanBoard {W : Type} (h : Host W) (games : JsVal) :
    Js W (List (String × JsVal)) := do
  let feynmanBoard ← lift (readProp games "FeynmanBoard")
  if truthy feynmanBoard then do
    let explanation ← ask h "Your Explanation: "
    pure [("feynman_board", obj
      [("prompt", getProp feynmanBoard "prompt"),
       ("user_explanation", str explanation)])]
  else pure []

/-- Step 2 of the loop body of `runSimulation`: the six games are played in
order and `userAnswers` is built. -/
def playGames {W : Type} (h : Host W) (games : JsVal) : Js W JsVal := do
  let quiz_master ← playQuizMaster h games
  let flash_cards ← playFlashCardHero h games
  let sort_it_out ← playSortItOut h games
  let match_maker ← playMatchMaker h games
  let fill_the_gap ← playFillTheGap h games
  let feynman_board ← playFeynmanBoard h games
  pure (obj
    ([("quiz_master", arr quiz_master),
      ("flash_cards", arr flash_cards),
      ("sort_it_out", arr sort_it_out),
      ("match_maker", arr match_maker),
      ("fill_the_gap", arr fill_the_gap)] ++ feynman_board))

/-- The body of the loop `while (!mastered) { ... }` of `runSimulation`; the
result is the value of `mastered` at its end.  `currentContext` is declared
before the loop and never assigned. -/
def loopBody {W : Type} (h : Host W) (agent : Agent) (currentContext : JsVal) : Js W Bool := do
  -- 1. Generate Tests
  let games ← generateTests h agent currentContext
  -- 2. Simulate User Playing (Interactive)
  let userAnswers ← playGames h games
  -- 3. Evaluate
  let result ← evaluate h agent currentContext userAnswers
  let passed ← lift (readProp result "passed")
  if truthy passed then
    pure true
  else do
    -- 4. Remediate
    let _remedialContent ← remediate h agent currentContext (getProp result "gaps")
    let _ ← ask h "Press Enter when you are ready to try again..."
    pure false

/-- The loop `while (!mastered) { ... }`, run for at most `fuel` iterations.
The result is the final value of `mastered`: `true` when the loop was left,
`false` when the iterations allowed were used up. -/
def masteryLoop {W : Type} (h : Host W) (agent : Agent) (currentContext : JsVal) :
    Nat → Js W Bool
  | 0 => pure false
  | fuel + 1 => do
    let mastered ← loopBody h agent currentContext
    if mastered then pure true else masteryLoop h agent currentContext fuel

/-- The function `runSimulation` of `test-cli.js`, its loop run for at most
`fuel` iterations; `envKey` is the value of `process.env.OPENROUTER_API_KEY`. -/
def runSimulation {W : Type} (h : Host W) (envKey : JsVal) (fuel : Nat) : Js W Bool := do
  let agent ← lift (Agent.new undefined envKey)
  let _ ← ask h "Press Enter when you are done reading..."
  masteryLoop h agent MOCK_LESSON fuel

/-! ## `dry-run.js` -/

/-- The constant `badAnswers` of `dryRun`. -/
def badAnswers : JsVal :=
  obj
    [("quiz_master", arr
        [obj [("question", str "q1"), ("selected_index", num 0), ("correct_index", num 1)]]),
     ("feynman_board", obj
        [("prompt", str "Explain it"),
         ("user_explanation", str "I don't know, magic?")])]

/-- The error `Object.keys` throws on `undefined` or `null`. -/
def cannotConvert : JsError :=
  ⟨"TypeError", "Cannot convert undefined or null to object"⟩

/-- The error `dryRun` throws when a required game is missing. -/
def missingRequiredGames : JsError :=
  ⟨"Error", "Missing required games in output"⟩

/-- The function `dryRun` of `dry-run.js`. -/
def dryRun {W : Type} (h : Host W) (envKey : JsVal) : Js W Unit := do
  let agent ← lift (Agent.new undefined envKey)
  -- 1. Generate Tests
  let games ← generateTests h agent MOCK_LESSON
  if isNullish games then Js.throw cannotConvert
  else if !truthy (getProp games "QuizMaster") || !truthy (getProp games "FeynmanBoard") then
    Js.throw missingRequiredGames
  else do
    -- 3. Evaluate
    let result ← evaluate h agent MOCK_LESSON badAnswers
    let _passed ← lift (readProp result "passed")
    let gaps := getProp result "gaps"
    if truthy gaps && gtZero h (getProp gaps "length") then do
      -- 4. Remediate
      let remediation ← remediate h agent MOCK_LESSON gaps
      let _ ← lift (stringMethod "remediation" "substring" remediation)
      pure ()
    else pure ()

/-! ## Specification vocabulary -/

/-- The agent method a `Call` stands for, applied to its arguments. -/
def Call.perform {W : Type} (h : Host W) (agent : Agent) : Call → Js W JsVal
  | .generateTests lessonContext => MentorAgent.generateTests h agent lessonContext
  | .evaluate lessonContext userAnswers => MentorAgent.evaluate h agent lessonContext userAnswers
  | .remediate lessonContext gaps => MentorAgent.remediate h agent lessonContext gaps

/-- The lesson context a call was given. -/
def Call.lesson : Call → JsVal
  | .generateTests lessonContext => lessonContext
  | .evaluate lessonContext _ => lessonContext
  | .remediate lessonContext _ => lessonContext

/-- The system prompt, the user content and the `jsonMode` flag a call hands to
`callLLM`; `none` when the method throws before it reaches `callLLM`
(`evaluate` on a lesson context that is `undefined` or `null`). -/
def Call.llmArgs : Call → Option (String × JsVal × Bool)
  | .generateTests lessonContext => some (TEST_GENERATOR_PROMPT, lessonContext, true)
  | .evaluate lessonContext userAnswers =>
    if isNullish lessonContext then none
    else some (EVALUATOR_PROMPT,
      obj [("mastery_criteria", getProp lessonContext "mastery_criteria"),
           ("user_answers", userAnswers)], true)
  | .remediate lessonContext gaps =>
    some (REMEDIATOR_PROMPT,
      obj [("original_lesson", lessonContext), ("identified_gaps", gaps)], false)

/-- The service answers request `req` in world `w` with a successful response
whose message content is `c`. -/
def AnswersWith {W : Type} (h : Host W) (req : Request) (w : W) (c : JsVal) : Prop :=
  ∃ resp data, (h.fetch req w).1 = .ok resp ∧ resp.ok = true ∧
    resp.json = .ok data ∧ messageContent data = .ok c

/-- The ways the service call for request `req`, made in world `w`, fails with
error `e`: a transport failure, a non-success status, or content that cannot be
read (body, `choices`/`message` structure, or JSON text where JSON is
required). -/
inductive ServiceFails {W : Type} (h : Host W) (req : Request) (jsonMode : Bool) (w : W) :
    JsError → Prop where
  | transport (e : JsError) :
      (h.fetch req w).1 = .error e → ServiceFails h req jsonMode w e
  | status (resp : Response) (errorText : String) :
      (h.fetch req w).1 = .ok resp → resp.ok = false → resp.text = .ok errorText →
      ServiceFails h req jsonMode w (apiRequestFailed resp errorText)
  | statusBody (resp : Response) (e : JsError) :
      (h.fetch req w).1 = .ok resp → resp.ok = false → resp.text = .error e →
      ServiceFails h req jsonMode w e
  | body (resp : Response) (e : JsError) :
      (h.fetch req w).1 = .ok resp → resp.ok = true → resp.json = .error e →
      ServiceFails h req jsonMode w e
  | shape (resp : Response) (data : JsVal) (e : JsError) :
      (h.fetch req w).1 = .ok resp → resp.ok = true → resp.json = .ok data →
      messageContent data = .error e → ServiceFails h req jsonMode w e
  | content (resp : Response) (data c : JsVal) (e : JsError) :
      (h.fetch req w).1 = .ok resp → resp.ok = true → resp.json = .ok data →
      messageContent data = .ok c → jsonMode = true → h.jsonParse c = .error e →
      ServiceFails h req jsonMode w e

/-- The request `generateTests` hands to `fetch`. -/
def generateTestsRequest {W : Type} (h : Host W) (agent : Agent) (lessonContext : JsVal) :
    Request :=
  llmRequest h agent TEST_GENERATOR_PROMPT lessonContext true

/-- The request `evaluate` hands to `fetch` (for a lesson context that is
neither `undefined` nor `null`). -/
def evaluateRequest {W : Type} (h : Host W) (agent : Agent) (lessonContext userAnswers : JsVal) :
    Request :=
  llmRequest h agent EVALUATOR_PROMPT
    (obj [("mastery_criteria", getProp lessonContext "mastery_criteria"),
          ("user_answers", userAnswers)]) true

/-- The request `remediate` hands to `fetch`. -/
def remediateRequest {W : Type} (h : Host W) (agent : Agent) (lessonContext gaps : JsVal) :
    Request :=
  llmRequest h agent REMEDIATOR_PROMPT
    (obj [("original_lesson", lessonContext), ("identified_gaps", gaps)]) false

/-- The service answers request `req` in world `w` with a non-success status
(and a readable body). -/
def NonSuccessStatus {W : Type} (h : Host W) (req : Request) (w : W) : Prop :=
  ∃ resp errorText, (h.fetch req w).1 = .ok resp ∧ resp.ok = false ∧ resp.text = .ok errorText

/-- The service answers request `req` in world `w` with a success status but
malformed content: a body that is not JSON, a document without the
`choices[0].message` structure, or (where JSON is required) message content that
is not JSON. -/
def MalformedContent {W : Type} (h : Host W) (req : Request) (jsonMode : Bool) (w : W) : Prop :=
  ∃ resp, (h.fetch req w).1 = .ok resp ∧ resp.ok = true ∧
    ((∃ e, resp.json = .error e ∧ e.name = "SyntaxError") ∨
     (∃ data e, resp.json = .ok data ∧ messageContent data = .error e) ∨
     (∃ data c e, resp.json = .ok data ∧ messageContent data = .ok c ∧ jsonMode = true ∧
        h.jsonParse c = .error e))

/-- A computation all of whose agent calls are given the lesson context `ctx`. -/
def CallsOnly {W : Type} {α : Type} (ctx : JsVal) (m : Js W α) : Prop :=
  ∀ s, ∃ added, (m s).2.calls = s.calls ++ added ∧ ∀ c ∈ added, Call.lesson c = ctx

/-- Whether a value is the boolean `true`. -/
def isTrueVal : JsVal → Bool
  | .bool true => true
  | _ => false

/-- Whether a value is the empty array. -/
def isEmptyList : JsVal → Bool
  | .arr [] => true
  | _ => false

/-- The verdict invariant: `passed` is `true` if and only if `gaps` is an empty
list. -/
def verdictInvariant (verdict : JsVal) : Prop :=
  isTrueVal (getProp verdict "passed") = isEmptyList (getProp verdict "gaps")

instance (verdict : JsVal) : Decidable (verdictInvariant verdict) :=
  inferInstanceAs (Decidable (_ = _))

/-! ## A scripted host for concrete runs -/

/-- A scripted world: the outcomes of the coming `fetch` calls and the lines
the learner will type, each in order. -/
structure Script where
  replies : List (Except JsError Response)
  typed : List String

/-- The error `fetch` rejects with when the network is unreachable. -/
def fetchFailed : JsError := ⟨"TypeError", "fetch failed"⟩

/-- The error `JSON.parse` throws on text that is not JSON. -/
def notJson : JsError := ⟨"SyntaxError", "Unexpected token in JSON"⟩

/-- The JSON text of a verdict that passes although it lists a gap. -/
def passedWithGapsText : String := "\x7b\"passed\":true,\"gaps\":[\"chloroplasts\"]\x7d"

/-- The JSON text of a verdict that fails although it lists no gap. -/
def failedWithoutGapsText : String := "\x7b\"passed\":false,\"gaps\":[]\x7d"

/-- The JSON text of a failing verdict with one gap. -/
def failedText : String := "\x7b\"passed\":false,\"gaps\":[\"chloroplasts\"]\x7d"

/-- The JSON text of a passing verdict. -/
def passedText : String := "\x7b\"passed\":true,\"gaps\":[]\x7d"

/-- The JSON text of a failing verdict with another gap. -/
def secondFailedText : String := "\x7b\"passed\":false,\"gaps\":[\"sunlight\"]\x7d"

/-- The JSON text of a battery that has only the flash-card game. -/
def cardsOnlyText : String := "\x7b\"FlashCardHero\":\x7b\"cards\":[]\x7d\x7d"

/-- `JSON.parse` on the documents used in the examples; any other argument is
treated as not being JSON. -/
def sampleParse : JsVal → Except JsError JsVal
  | .str s =>
    if s = passedWithGapsText then
      .ok (obj [("passed", bool true), ("gaps", arr [str "chloroplasts"])])
    else if s = failedWithoutGapsText then
      .ok (obj [("passed", bool false), ("gaps", arr [])])
    else if s = failedText then
      .ok (obj [("passed", bool false), ("gaps", arr [str "chloroplasts"])])
    else if s = passedText then
      .ok (obj [("passed", bool true), ("gaps", arr [])])
    else if s = secondFailedText then
      .ok (obj [("passed", bool false), ("gaps", arr [str "sunlight"])])
    else if s = cardsOnlyText then
      .ok (obj [("FlashCardHero", obj [("cards", arr [])])])
    else .error notJson
  | _ => .error notJson

/-- The escape `JSON.stringify` writes for a character inside a string. -/
def escapeChar (c : Char) : String :=
  if c.val = 34 then "\\\""
  else if c.val = 92 then "\\\\"
  else if c.val = 10 then "\\n"
  else if c.val = 13 then "\\r"
  else if c.val = 9 then "\\t"
  else if c.val = 8 then "\\b"
  else if c.val = 12 then "\\f"
  else if c.val < 32 then
    "\\u00" ++ String.singleton (Nat.digitChar (c.toNat / 16)) ++
      String.singleton (Nat.digitChar (c.toNat % 16))
  else String.singleton c

/-- A string as `JSON.stringify` quotes it. -/
def quoteJson (s : String) : String :=
  "\"" ++ String.join (s.data.map escapeChar) ++ "\""

mutual
/-- The text `JSON.stringify` produces for a value other than `undefined`
(`undefined` and `NaN` inside an array are written `null`). -/
def stringifyText : JsVal → String
  | .undefined => "null"
  | .null => "null"
  | .bool b => if b then "true" else "false"
  | .num n => toString n
  | .nan => "null"
  | .str s => quoteJson s
  | .arr xs => "[" ++ stringifyElems xs ++ "]"
  | .obj kvs => "\x7b" ++ stringifyProps true kvs ++ "\x7d"
termination_by structural v => v
/-- The elements of an array, separated by commas. -/
def stringifyElems : List JsVal → String
  | [] => ""
  | x :: rest =>
    stringifyText x ++
    (match rest with
      | [] => ""
      | _ => "," ++ stringifyElems rest)
termination_by structural xs => xs
/-- The properties of an object, separated by commas; a property whose value
is `undefined` is left out.  `first` tells whether no property was written
yet. -/
def stringifyProps (first : Bool) : List (String × JsVal) → String
  | [] => ""
  | (k, v) :: rest =>
    match v with
    | .undefined => stringifyProps first rest
    | _ =>
      (if first then "" else ",") ++ quoteJson k ++ ":" ++ stringifyText v ++
        stringifyProps false rest
termination_by structural kvs => kvs
end

/-- `JSON.stringify` (for integers printed without an exponent). -/
def sampleStringify : JsVal → JsVal
  | .undefined => undefined
  | v => str (stringifyText v)

/-- The value of a run of decimal digits. -/
def digitsValue (ds : List Char) : Nat :=
  ds.foldl (fun n c => 10 * n + (c.toNat - 48)) 0

/-- `parseInt` on text in decimal notation: leading white space, an optional
sign, then the longest run of digits; `NaN` if there is no digit. -/
def sampleParseInt (s : String) : Option Int :=
  let cs := s.data.dropWhile Char.isWhitespace
  let signed : Bool × List Char :=
    match cs with
    | [] => (false, [])
    | c :: r => if c.val = 45 then (true, r) else if c.val = 43 then (false, r) else (false, cs)
  let ds := signed.2.takeWhile Char.isDigit
  if ds.isEmpty then none
  else if signed.1 then some (-(digitsValue ds : Int))
  else some (digitsValue ds : Int)

/-- The comparison `s > 0` for a string holding an integer in decimal
notation (any other string compares as `NaN` or zero here). -/
def sampleStringGtZero (s : String) : Bool :=
  match s.trim.toInt? with
  | some n => decide (0 < n)
  | none => false

/-- A host that answers from a `Script`: `fetch` takes the next scripted
outcome (a transport failure once the script is used up) and `question` the
next typed line. -/
def scriptedHost : Host Script where
  fetch := fun _ w =>
    match w.replies with
    | [] => (.error fetchFailed, w)
    | r :: rest => (r, { w with replies := rest })
  question := fun _ w =>
    match w.typed with
    | [] => ("", w)
    | l :: rest => (l, { w with typed := rest })
  jsonParse := sampleParse
  jsonStringify := sampleStringify
  parseInt := sampleParseInt
  stringGtZero := sampleStringGtZero

/-- The body of a chat-completion response whose first choice carries the
message content `c`. -/
def completionData (c : String) : JsVal :=
  obj [("choices", arr
    [obj [("message", obj [("role", str "assistant"), ("content", str c)])]])]

/-- A response with status 200 whose first choice carries the message content
`c`. -/
def completion (c : String) : Response where
  ok := true
  status := 200
  statusText := "OK"
  text := .ok (stringifyText (completionData c))
  json := .ok (completionData c)

/-- A response with status 200 whose body is a JSON document without
`choices`. -/
def noChoices : Response where
  ok := true
  status := 200
  statusText := "OK"
  text := .ok "\x7b\x7d"
  json := .ok (obj [])

/-- A response with status 429. -/
def rateLimited : Response where
  ok := false
  status := 429
  statusText := "Too Many Requests"
  text := .ok "slow down"
  json := .error notJson

/-- An agent as the constructor builds it from the key `sk-test`. -/
def sampleAgent : Agent := { apiKey := str "sk-test", model := "google/gemini-3-flash-preview" }

/-- The initial state of a run over a script. -/
def initial (replies : List (Except JsError Response)) (typed : List String) : St Script :=
  { world := { replies := replies, typed := typed }, sent := [], calls := [] }

/-! ## Vocabulary for the mastery loop -/

/-- Steps 1 to 3 of the loop body: a battery is built, the games are played,
the answers are evaluated; the result is the verdict. -/
def roundVerdict {W : Type} (h : Host W) (agent : Agent) (currentContext : JsVal) :
    Js W JsVal := do
  let games ← generateTests h agent currentContext
  let userAnswers ← playGames h games
  evaluate h agent currentContext userAnswers

/-- One iteration whose verdict does not pass, followed to its end: the verdict
is returned, its `passed` is not true, `remediate` returns, and the learner
presses Enter.  The result is the state then reached; `none` if the iteration
does not go this way. -/
def failedRound {W : Type} (h : Host W) (agent : Agent) (currentContext : JsVal)
    (s : St W) : Option (St W) :=
  match roundVerdict h agent currentContext s with
  | (.ok verdict, s1) =>
    if isNullish verdict || truthy (getProp verdict "passed") then none
    else
      match remediate h agent currentContext (getProp verdict "gaps") s1 with
      | (.ok _, s2) =>
        some { s2 with
          world := (h.question "Press Enter when you are ready to try again..." s2.world).2 }
      | (.error _, _) => none
  | (.error _, _) => none

/-- The state reached from `s` by `n` iterations in a row whose verdicts do not
pass. -/
def afterFailedRounds {W : Type} (h : Host W) (agent : Agent) (currentContext : JsVal) :
    Nat → St W → Option (St W)
  | 0, s => some s
  | n + 1, s =>
    match failedRound h agent currentContext s with
    | some s' => afterFailedRounds h agent currentContext n s'
    | none => none

/-- Whether the text `needle` occurs in the text `hay`. -/
def containsText (hay needle : String) : Bool :=
  hay.data.tails.any (fun t => needle.data.isPrefixOf t)

/-- The `content_text` of a lesson context, when it is a string. -/
def contentText (lessonContext : JsVal) : String :=
  match getProp lessonContext "content_text" with
  | .str s => s
  | _ => ""

/-- A computation that neither sends a request nor calls an agent method. -/
def Quiet {W : Type} {α : Type} (m : Js W α) : Prop :=
  ∀ s, (m s).2.sent = s.sent ∧ (m s).2.calls = s.calls

/-- A remediation text. -/
def sampleRemediation : String :=
  "Think of the chloroplast as the kitchen of the cell: that is where the sugar is made."

/-- A verdict that fails with one gap. -/
def failedVerdict : JsVal := obj [("passed", bool false), ("gaps", arr [str "chloroplasts"])]

/-- A verdict that passes. -/
def passedVerdict : JsVal := obj [("passed", bool true), ("gaps", arr [])]

/-- The answers collected from a battery that has only an empty flash-card
game. -/
def noAnswers : JsVal :=
  obj [("quiz_master", arr []), ("flash_cards", arr []), ("sort_it_out", arr []),
       ("match_maker", arr []), ("fill_the_gap", arr [])]

/-- The replies of a session of two iterations: a battery, a failing verdict,
the remediation, a second battery, a passing verdict. -/
def sampleReplies : List (Except JsError Response) :=
  [.ok (completion cardsOnlyText), .ok (completion failedText),
   .ok (completion sampleRemediation),
   .ok (completion cardsOnlyText), .ok (completion passedText)]

/-- The state in which the loop of that session starts. -/
def sampleStart : St Script := initial sampleReplies [""]

/-- The state of that session after the first verdict. -/
def sampleEvaluated : St Script :=
  (roundVerdict scriptedHost sampleAgent MOCK_LESSON sampleStart).2

/-- The state of that session after the first iteration. -/
def sampleMid : St Script := (loopBody scriptedHost sampleAgent MOCK_LESSON sampleStart).2

/-- The state of that session after the second verdict. -/
def sampleFinish : St Script :=
  (roundVerdict scriptedHost sampleAgent MOCK_LESSON sampleMid).2

/-- A verdict that fails with another gap. -/
def secondFailedVerdict : JsVal := obj [("passed", bool false), ("gaps", arr [str "sunlight"])]

/-- The state of a session after a first iteration that failed with the gap
`chloroplasts`; the second verdict will fail with the gap `sunlight`. -/
def twiceFailedMid : St Script :=
  (loopBody scriptedHost sampleAgent MOCK_LESSON
    (initial
      [.ok (completion cardsOnlyText), .ok (completion failedText),
       .ok (completion sampleRemediation),
       .ok (completion cardsOnlyText), .ok (completion secondFailedText),
       .ok (completion sampleRemediation)]
      [""])).2

/-- The state of that session after the second verdict. -/
def twiceFailedEvaluated : St Script :=
  (roundVerdict scriptedHost sampleAgent MOCK_LESSON twiceFailedMid).2

/-! ## `search/webSearch.js` and `search/buildSearchQueries.js` -/

/-- The values this program reads from `process.env` (a variable that is not
set reads as `undefined`). -/
structure ProcessEnv where
  OPENROUTER_API_KEY : JsVal
  YDC_API_KEY : JsVal

/-- The operator `typeof`. -/
def typeOf : JsVal → String
  | .undefined => "undefined"
  | .null => "object"
  | .bool _ => "boolean"
  | .num _ => "number"
  | .nan => "number"
  | .str _ => "string"
  | .arr _ => "object"
  | .obj _ => "object"

/-- Whether `encodeURIComponent` leaves a character as it is: the ASCII letters
and digits and the marks `- _ . ! ~ * ' ( )`. -/
def isUriUnreserved (c : Char) : Bool :=
  c.isAlphanum || c.val = 45 || c.val = 95 || c.val = 46 || c.val = 33 || c.val = 126 ||
    c.val = 42 || c.val = 39 || c.val = 40 || c.val = 41

/-- The UTF-8 encoding of a character, as a list of bytes. -/
def utf8Bytes (c : Char) : List Nat :=
  let n := c.toNat
  if n < 0x80 then [n]
  else if n < 0x800 then [0xC0 + n / 64, 0x80 + n % 64]
  else if n < 0x10000 then [0xE0 + n / 4096, 0x80 + (n / 64) % 64, 0x80 + n % 64]
  else [0xF0 + n / 262144, 0x80 + (n / 4096) % 64, 0x80 + (n / 64) % 64, 0x80 + n % 64]

/-- A hexadecimal digit in upper case. -/
def upperHex (d : Nat) : Char :=
  if d < 10 then Char.ofNat (48 + d) else Char.ofNat (55 + d)

/-- The escape `%XX` of a byte. -/
def percentByte (b : Nat) : String :=
  "%" ++ String.singleton (upperHex (b / 16)) ++ String.singleton (upperHex (b % 16))

/-- The built-in `encodeURIComponent` on a string (a string of the model has no
lone surrogate, so the call does not throw). -/
def encodeURIComponent (s : String) : String :=
  String.join (s.data.map fun c =>
    if isUriUnreserved c then String.singleton c
    else String.join ((utf8Bytes c).map percentByte))

/-- The request `searchWeb` hands to `fetch`. -/
def searchRequest (env : ProcessEnv) (query count : JsVal) : Request :=
  { url := "https://ydc-index.io/v1/search?query=" ++ encodeURIComponent (toStr query) ++
      "&count=" ++ toStr count
    method := "GET"
    headers := [("X-API-Key", toStr env.YDC_API_KEY)]
    body := undefined }

/-- The callback of `data.results.web.map(...)`: the useful parts of a result. -/
def pickResult (result : JsVal) : Except JsError JsVal := do
  let title ← readProp result "title"
  pure (obj [("title", title), ("url", getProp result "url"),
    ("snippets", getProp result "snippets")])

/-- The callback `pickResult` applied along the array. -/
def pickResults : List JsVal → Except JsError (List JsVal)
  | [] => .ok []
  | result :: rest => do
    let picked ← pickResult result
    let more ← pickResults rest
    pure (picked :: more)

/-- The expression `data.results?.web`. -/
def resultsWeb (data : JsVal) : Except JsError JsVal := do
  let results ← readProp data "results"
  pure (if isNullish results then undefined else getProp results "web")

/-- The body of the `try` block of `searchWeb`; the result is the array
returned. -/
def searchWebBody {W : Type} (h : Host W) (env : ProcessEnv) (query count : JsVal) :
    Js W (List JsVal) := do
  let response ← doFetch h (searchRequest env query count)
  if !response.ok then
    let _text ← lift response.text
    pure []
  else
    let data ← lift response.json
    let web ← lift (resultsWeb data)
    if !truthy web then pure []
    else
      let items ← lift (arrayMethod "data.results.web" "map" web)
      lift (pickResults items)

/-- The parameter `count = 5`: the argument, or 5 when it is `undefined`. -/
def countOrDefault : JsVal → JsVal
  | .undefined => num 5
  | count => count

/-- The function `searchWeb(query, count = 5)`; the result is the array
returned.  An argument `count` that is `undefined` takes the default. -/
def searchWeb {W : Type} (h : Host W) (env : ProcessEnv) (query count : JsVal) :
    Js W (List JsVal) :=
  if !truthy env.YDC_API_KEY then pure []
  else
    Js.tryCatch (searchWebBody h env query (countOrDefault count)) (fun _error => pure [])

/-- The function `buildLessonQueries(lesson)`, for a lesson that is neither
`undefined` nor `null`. -/
def buildLessonQueries (lesson : JsVal) : List String :=
  [toStr (getProp lesson "title"), toStr (getProp lesson "title") ++ " guide explanation"]

/-! ## `course/lessonPrompt.js` and `course/generateLesson.js` -/

/-- The constant `LESSON_GENERATION_SYSTEM_PROMPT`. -/
def LESSON_GENERATION_SYSTEM_PROMPT : String :=
  "You are a personal tutor generating a single lesson for a learner. You will receive two things:\n\n1. THE BRAIN — everything we know about this learner. This includes:\n   - high_level.onboarding: what they want to learn and why\n   - high_level.profiling: their current level, vocabulary, gaps, strengths, background, preferred depth, preferred tone, what to skip, what to teach from scratch\n   - low_level: their performance data from previous lessons (may be empty if this is early in the course)\n\n2. THE LESSON — which specific lesson to generate, including:\n   - The title and description\n   - The instructional_seed — this is your main directive. It tells you exactly what to teach and at what angle.\n   - Where this lesson sits in the course (phase and lesson number)\n\nYOUR JOB: Generate the full teaching content for this ONE lesson.\n\nRules:\n- Follow the instructional_seed closely. It was written with this specific learner in mind.\n- Match the tone from the profiling data. If it says casual, be casual. If it says professional, be professional.\n- Match the depth from the profiling data. Don't go deeper or shallower than what was specified.\n- Match the vocabulary level. Don't use jargon the learner won't know unless you're explicitly teaching that term.\n- Use the learner's background to make content relatable.\n- Leverage their strengths as bridges to new concepts.\n- Don't overdo personalization. Make it natural — don't force connections back to the user's background where it doesn't add value.\n- If low_level has data from previous lessons, adapt. If they struggled recently, slow down and reinforce. If they've been crushing it, you can be more efficient.\n- If low_level is empty, just use high_level to guide everything.\n- Teach, don't lecture. This should feel like a mentor explaining something one-on-one, not a textbook.\n- Keep it focused. This is ONE lesson on ONE topic. Don't wander.\n\n\nYou will also receive web_research — recent search results about this lesson's topic. Use this to:\n- Ground your teaching in accurate, current information\n- Reference real tools, frameworks, or developments that exist today\n- Avoid teaching outdated practices or deprecated features\n- Include specific examples or data points that are up to date\n\nThe web research is supplementary. The brain data still drives personalization, tone, and depth. Use search results for factual accuracy, not for changing how you teach.\n\nMASTERY CRITERIA: At the end of your lesson content, generate a clear set of mastery criteria — what the learner needs to know to PASS this lesson. This is not a quiz. It's a checklist that defines \"this person understood this lesson.\" Keep it to 2-5 concrete, testable points. These will be used by the teaching agent to build quiz questions and decide whether the learner can move forward.\n\nYour output should be JSON with two fields:\n\x7b\n  \"content\": \"The full lesson content as a string. Use markdown formatting for structure (headings, lists, code blocks, etc.). Make it readable and well-organized.\",\n  \"mastery_criteria\": [\n    \"Can explain X\",\n    \"Understands the difference between Y and Z\",\n    \"Knows when to apply W\"\n  ]\n\x7d"

/-- The loop `for (const query of queries)` of `generateLesson`: every query is
searched with the default count and the results are appended.  (The pause of
500 ms between two searches is not modelled.) -/
def searchAll {W : Type} (h : Host W) (env : ProcessEnv) : List String → Js W (List JsVal)
  | [] => pure []
  | query :: rest => do
    let results ← searchWeb h env (str query) undefined
    let more ← searchAll h env rest
    pure (results ++ more)

/-- The request `generateLesson` hands to `fetch`. -/
def lessonRequest {W : Type} (h : Host W) (apiKey model brainData lessonData : JsVal)
    (searchResults : List JsVal) : Request :=
  { url := "https://openrouter.ai/api/v1/chat/completions"
    method := "POST"
    headers :=
      [("Content-Type", "application/json"),
       ("Authorization", "Bearer " ++ toStr apiKey),
       ("HTTP-Referer", "https://github.com/your-repo"),
       ("X-Title", "Lesson Content Generator")]
    body := h.jsonStringify (obj
      [("model", model),
       ("messages", arr
          [obj [("role", str "system"), ("content", str LESSON_GENERATION_SYSTEM_PROMPT)],
           obj [("role", str "user"), ("content", h.jsonStringify (obj
              [("brain", brainData), ("lesson", lessonData),
               ("web_research", arr searchResults)]))]]),
       ("response_format", obj [("type", str "json_object")])]) }

/-- The error `generateLesson` throws on a response whose `ok` is false. -/
def openRouterError (response : Response) (errorData : String) : JsError :=
  ⟨"Error", "OpenRouter API error: " ++ toString response.status ++ " " ++
    response.statusText ++ "\n" ++ errorData⟩

/-- The object `lessonData` that `generateLesson` sends. -/
def lessonDataOf (lesson : JsVal) : JsVal :=
  obj [("title", getProp lesson "title"),
       ("description", getProp lesson "description"),
       ("instructional_seed", getProp lesson "instructional_seed"),
       ("phase_title", getProp lesson "phase_title"),
       ("lesson_number", getProp lesson "lesson_number"),
       ("phase_number", getProp lesson "phase_number")]

/-- The checks `generateLesson` makes on the parsed lesson before it returns
it. -/
def checkLessonContent (lessonContent : JsVal) : Except JsError JsVal := do
  let content ← readProp lessonContent "content"
  if !truthy content || !truthy (getProp lessonContent "mastery_criteria") then
    .error ⟨"Error", "Generated lesson is missing required fields (content, mastery_criteria)"⟩
  else
    match getProp lessonContent "mastery_criteria" with
    | .arr _ => .ok lessonContent
    | _ => .error ⟨"Error", "mastery_criteria must be an array"⟩

/-- The body of the `try` block of `generateLesson`. -/
def generateLessonBody {W : Type} (h : Host W) (env : ProcessEnv)
    (apiKey model brainData lesson : JsVal) : Js W JsVal := do
  -- Step 1: Search the web for current info on this specific lesson topic
  let searchResults ← searchAll h env (buildLessonQueries lesson)
  -- Make API call to OpenRouter
  let response ← doFetch h (lessonRequest h apiKey model brainData (lessonDataOf lesson)
    searchResults)
  if !response.ok then
    let errorData ← lift response.text
    Js.throw (openRouterError response errorData)
  else
    let data ← lift response.json
    let choices ← lift (readProp data "choices")
    if !truthy choices || !truthy (getIdx choices 0) ||
        !truthy (getProp (getIdx choices 0) "message") then
      Js.throw ⟨"Error", "Unexpected API response format"⟩
    else
      let lessonContent ←
        lift (h.jsonParse (getProp (getProp (getIdx choices 0) "message") "content"))
      -- Validate lesson content has required fields
      lift (checkLessonContent lessonContent)

/-- The parameter `options = {}`: the argument, or the empty object when it
is `undefined`. -/
def optionsOrDefault : JsVal → JsVal
  | .undefined => obj []
  | options => options

/-- The function `generateLesson(brain, lesson, options = {})`.  The `catch`
clause logs the error and throws it again. -/
def generateLesson {W : Type} (h : Host W) (env : ProcessEnv) (brain lesson options : JsVal) :
    Js W JsVal := do
  let options := optionsOrDefault options
  -- Validate input - handle both brain.brain and direct brain
  let inner ← lift (readProp brain "brain")
  let brainData := if truthy inner then inner else brain
  if !truthy brainData || !truthy (getProp brainData "high_level") then
    Js.throw ⟨"Error", "Brain must have a high_level property"⟩
  else if !truthy lesson || !truthy (getProp lesson "instructional_seed") then
    Js.throw ⟨"Error", "Lesson must have an instructional_seed property"⟩
  else if !truthy (getProp lesson "title") || !truthy (getProp lesson "description") then
    Js.throw ⟨"Error", "Lesson must have title and description"⟩
  else do
    -- Get API key from options or environment
    let optionsKey ← lift (readProp options "apiKey")
    let apiKey := if truthy optionsKey then optionsKey else env.OPENROUTER_API_KEY
    if !truthy apiKey then
      Js.throw ⟨"Error", "OPENROUTER_API_KEY not found in environment or options"⟩
    else
      -- Model selection
      let model :=
        if truthy (getProp options "model") then getProp options "model"
        else str "google/gemini-3-flash-preview"
      Js.tryCatch (generateLessonBody h env apiKey model brainData lesson)
        (fun error => Js.throw error)

/-- The object `validateLessonContent` returns. -/
structure Validation where
  valid : Bool
  errors : List String
  deriving DecidableEq, Repr

/-- The error messages of the `forEach` of `validateLessonContent`, from index
`idx` on. -/
def criterionErrors : Nat → List JsVal → List String
  | _, [] => []
  | idx, criterion :: rest =>
    (if !truthy criterion || typeOf criterion != "string" then
      ["Mastery criterion " ++ toString idx ++ " is not a valid string"]
    else []) ++ criterionErrors (idx + 1) rest

/-- The function `validateLessonContent(lessonContent)`. -/
def validateLessonContent (lessonContent : JsVal) : Except JsError Validation := do
  let content ← readProp lessonContent "content"
  let errors₁ :=
    if !truthy content || typeOf content != "string" then ["Missing or invalid content"]
    else []
  let errors₂ :=
    match getProp lessonContent "mastery_criteria" with
    | .arr criteria =>
      (if criteria.length < 2 || criteria.length > 5 then
        ["mastery_criteria should have 2-5 items"]
      else []) ++ criterionErrors 0 criteria
    | _ => ["mastery_criteria must be an array"]
  pure { valid := (errors₁ ++ errors₂).length == 0, errors := errors₁ ++ errors₂ }

/-! ## `brain/createBrain.js` -/

/-- The own enumerable properties of an object value, as the spread `...v`
copies them: the properties of an object, the indexed elements of an array. -/
def ownProps : JsVal → List (String × JsVal)
  | .obj kvs => kvs
  | .arr xs => xs.enum.map fun p => (toString p.1, p.2)
  | _ => []

/-- The function `createBrain(onboardingData, profilingData)`; `now` is the
value of `new Date().toISOString()`. -/
def createBrain (now : String) (onboardingData profilingData : JsVal) : Except JsError JsVal :=
  -- Validate inputs
  if !truthy onboardingData || typeOf onboardingData != "object" then
    .error ⟨"Error", "onboardingData must be a valid object"⟩
  else if !truthy profilingData || typeOf profilingData != "object" then
    .error ⟨"Error", "profilingData must be a valid object"⟩
  else
    let subject := getProp onboardingData "subject"
    let why :=
      if truthy (getProp onboardingData "why") then getProp onboardingData "why"
      else getProp onboardingData "reason"
    if !truthy subject then
      .error ⟨"Error", "onboardingData must include a subject field"⟩
    else if !truthy why then
      .error ⟨"Error", "onboardingData must include a why or reason field"⟩
    else
      -- Create the brain structure
      .ok (obj
        [("brain", obj
          [("high_level", obj
            [("onboarding", obj
              ([("subject", subject), ("why", why)] ++
                (if truthy (getProp onboardingData "summary") then
                  [("summary", getProp onboardingData "summary")]
                else []))),
             ("profiling", obj (ownProps profilingData)),
             ("generated_at", str now)]),
           ("course_structure", obj []),
           ("low_level", obj [])])])

/-! ## `onboarding-agent/index.js` -/

/-- A record with the properties of the `complete_onboarding` tool schema: the
six required strings and, optionally, `current_knowledge_hint`.  It is what
`saveResults` writes to `onboarding_result.json`. -/
def onboardingRecord (subject specific_goal trigger surface_reason deeper_motivation
    summary : String) (current_knowledge_hint : Option String) : JsVal :=
  obj
    ([("subject", str subject),
      ("specific_goal", str specific_goal),
      ("trigger", str trigger),
      ("surface_reason", str surface_reason),
      ("deeper_motivation", str deeper_motivation)] ++
     (match current_knowledge_hint with
      | some hint => [("current_knowledge_hint", str hint)]
      | none => []) ++
     [("summary", str summary)])

/-! ## Vocabulary for the later claims -/

/-- A deterministic generation service: what `fetch` answers depends on the
request only, not on the state of the world. -/
def Deterministic {W : Type} (h : Host W) : Prop :=
  ∀ req w₁ w₂, (h.fetch req w₁).1 = (h.fetch req w₂).1

/-- A host whose service gives every request the same answer, a passing
verdict; its world counts the requests received. -/
def steadyHost : Host Nat where
  fetch := fun _ n => (.ok (completion passedText), n + 1)
  question := fun _ n => ("", n)
  jsonParse := sampleParse
  jsonStringify := sampleStringify
  parseInt := sampleParseInt
  stringGtZero := sampleStringGtZero

/-- The number of batteries built: the `generateTests` calls in a record of
calls. -/
def countBuilds : List Call → Nat
  | [] => 0
  | .generateTests _ :: rest => countBuilds rest + 1
  | _ :: rest => countBuilds rest

/-- The variables `runSimulation` declares ahead of its loop and keeps from one
iteration to the next, as a record: `mastered` and `currentContext` (lines 32
and 33 of `test-cli.js`). -/
def loopVariables (mastered : Bool) (currentContext : JsVal) : JsVal :=
  obj [("mastered", bool mastered), ("currentContext", currentContext)]

/-- A lesson context with the mastery criteria of `MOCK_LESSON` and another
title and text. -/
def otherLesson : JsVal :=
  obj
    [("title", str "How plants feed themselves"),
     ("content_text", str "Plants make their own food from light, water and air."),
     ("mastery_criteria", arr
        [str "Define the inputs and outputs of photosynthesis",
         str "Identify where photosynthesis occurs in the cell"])]

/-- The state in which the loop of a session starts whose first two verdicts
fail. -/
def twiceFailedStart : St Script :=
  initial
    [.ok (completion cardsOnlyText), .ok (completion failedText),
     .ok (completion sampleRemediation),
     .ok (completion cardsOnlyText), .ok (completion secondFailedText),
     .ok (completion sampleRemediation)]
    [""]

/-- The state of that session after its second iteration. -/
def twiceFailedTwice : St Script :=
  (loopBody scriptedHost sampleAgent MOCK_LESSON twiceFailedMid).2

/-! ## Sample data for the later claims -/

/-- An environment without a search key. -/
def envWithoutSearch : ProcessEnv :=
  { OPENROUTER_API_KEY := str "sk-test", YDC_API_KEY := undefined }

/-- An environment with both keys. -/
def envWithSearch : ProcessEnv :=
  { OPENROUTER_API_KEY := str "sk-test", YDC_API_KEY := str "ydc-test" }

/-- A search response with one web result. -/
def searchHit : Response where
  ok := true
  status := 200
  statusText := "OK"
  text := .ok "\x7b\"results\":\x7b\"web\":[\x7b\"title\":\"LangGraph\",\"url\":\"https://example.org/langgraph\",\"snippets\":[\"Agents as graphs.\"],\"rank\":1\x7d]\x7d\x7d"
  json := .ok (obj [("results", obj [("web", arr
    [obj [("title", str "LangGraph"), ("url", str "https://example.org/langgraph"),
          ("snippets", arr [str "Agents as graphs."]), ("rank", num 1)]])])])

/-- A battery whose cloze game has a text and no `blanks`. -/
def clozeWithoutBlanks : JsVal :=
  obj [("FillTheGap", obj [("text", str "Plants make ___ from light.")])]

/-- A battery whose pairing game has no `pairs`. -/
def pairingWithoutPairs : JsVal :=
  obj [("MatchMaker", obj [])]

/-- The JSON text of a lesson with one mastery criterion. -/
def oneCriterionLessonText : String :=
  "\x7b\"content\":\"A prompt needs context.\",\"mastery_criteria\":[\"Can explain why a prompt needs context\"]\x7d"

/-- A lesson with one mastery criterion. -/
def oneCriterionLesson : JsVal :=
  obj [("content", str "A prompt needs context."),
       ("mastery_criteria", arr [str "Can explain why a prompt needs context"])]

/-- The JSON text of a lesson with two mastery criteria. -/
def twoCriteriaLessonText : String :=
  "\x7b\"content\":\"A prompt needs context and a task.\",\"mastery_criteria\":[\"Can explain why a prompt needs context\",\"Can state the task of a prompt\"]\x7d"

/-- A lesson with two mastery criteria. -/
def twoCriteriaLesson : JsVal :=
  obj [("content", str "A prompt needs context and a task."),
       ("mastery_criteria", arr
          [str "Can explain why a prompt needs context", str "Can state the task of a prompt"])]

/-- `JSON.parse` on the two sample lessons; any other argument is treated as
not being JSON. -/
def lessonParse : JsVal → Except JsError JsVal
  | .str s =>
    if s = oneCriterionLessonText then .ok oneCriterionLesson
    else if s = twoCriteriaLessonText then .ok twoCriteriaLesson
    else .error notJson
  | _ => .error notJson

/-- The scripted host, reading the sample lessons. -/
def lessonHost : Host Script :=
  { scriptedHost with jsonParse := lessonParse }

/-- A brain document, as `createBrain` builds it. -/
def sampleBrain : JsVal :=
  obj [("brain", obj
    [("high_level", obj
      [("onboarding", obj
        [("subject", str "AI for product managers"),
         ("why", str "I want to ship faster.")]),
       ("profiling", obj [("starting_level", str "beginner")]),
       ("generated_at", str "2026-01-01T00:00:00.000Z")]),
     ("course_structure", obj []),
     ("low_level", obj [])])]

/-- A lesson of a course outline. -/
def sampleLesson : JsVal :=
  obj [("title", str "Prompt Engineering for Product Managers"),
       ("description", str "Learn the frameworks for building context-rich prompts."),
       ("instructional_seed", str "Teach the Context-Task-Constraint framework for prompts."),
       ("phase_title", str "Core Mechanics"),
       ("phase_number", num 1),
       ("lesson_number", num 1)]

/-- A record as the onboarding agent saves it. -/
def sampleOnboardingRecord : JsVal :=
  onboardingRecord "machine learning for product decisions"
    "Evaluate ML proposals from engineering"
    "My company announced an AI-first strategy"
    "It seems useful for my job"
    "I am afraid of falling behind other product managers"
    "A product manager who wants to judge what ML can really do."
    none

/-! ## `search/buildSearchQueries.js`: `buildStructureQueries` -/

/-- The function `buildStructureQueries(highLevel)`; `year` is the value of
`new Date().getFullYear()`. -/
def buildStructureQueries (year : Nat) (highLevel : JsVal) : Except JsError (List String) := do
  let onboarding ← readProp highLevel "onboarding"
  let subject ← readProp onboarding "subject"
  pure [toStr subject ++ " comprehensive guide",
        toStr subject ++ " key topics to learn",
        toStr subject ++ " latest developments " ++ toString year]

/-! ## `course/structurePrompt.js` and `course/generateStructure.js` -/

/-- The constant `COURSE_STRUCTURE_SYSTEM_PROMPT`. -/
def COURSE_STRUCTURE_SYSTEM_PROMPT : String :=
  "You are a course architect. You will receive the complete learner brain — everything we know about this person, what they want to learn, why, and who they are as a learner. Your job is to design the perfect course structure for THIS specific person.\n\nGenerate ONLY the structure — phases and lessons. No teaching content.\n\nPHASES are the big thematic sections. They should progress logically — earlier phases build the foundation for later ones.\n\nLESSONS are the specific topics within each phase. Each lesson is one focused thing to learn.\n\nUse EVERYTHING in the brain to shape your decisions:\n- Their subject and why determine what the course IS\n- Their current level determines where it STARTS\n- Their gaps determine what MUST be covered\n- Their strengths determine what can be BRIEF\n- Their skip list determines what to LEAVE OUT\n- Their depth preference determines how GRANULAR you get\n- Their background determines how you FRAME things (titles, angle, relevance)\n- Their tone preference should show up in how you NAME things (casual titles for casual learners, professional titles for professional learners)\n\nYOU decide how many phases and how many lessons per phase. A narrow topic for an advanced learner might be 3 phases with 2-3 lessons each. A broad topic for a beginner might be 6 phases with 4-5 lessons each. Let the brain data dictate it.\n\nRules:\n- Lesson titles must be specific. If the subject is a SKILL (something the learner will DO), make titles action-oriented: \"Build Your First AI-Assisted PRD\" not \"Introduction to AI in Documentation.\" If the subject is a TOPIC or BODY OF KNOWLEDGE (something the learner will UNDERSTAND), titles should be clear and descriptive: \"The Fall of the Roman Republic\" not \"Analyze Why Rome's Republic Collapsed.\"\n- Each phase gets a 1-sentence description of what the learner will be able to do after completing it\n- Each lesson gets a 1-sentence description of what it specifically covers\n- Each lesson gets an instructional_seed — 1-2 sentences that tell a future AI content generator exactly what to teach in this lesson and from what angle. This is NOT user-facing. It's an internal instruction. Be specific about depth, focus, and what to emphasize based on the learner's profile.\n- Do NOT include any topics from the skip list\n- DO include dedicated coverage for every item in the teach_from_scratch list and gaps list\n- The learner's strengths should be leveraged, not re-taught (e.g. if they're data-literate, don't teach them what data is — use data concepts as bridges to new material)\n\n\nYou will also receive web_research — recent search results about the subject. Use this to:\n- Make sure the course structure reflects the current state of the field\n- Include topics or tools that are new and relevant\n- Avoid teaching outdated information or deprecated tools\n- Ground phase and lesson titles in how the subject actually exists today\n\nThe web research is supplementary. The brain data is still the primary driver of all structural decisions. Don't let search results override the learner's profiling data.\n\nRespond ONLY with valid JSON, no markdown, no explanation:\n\n\x7b\n  \"title\": \"Course title that reflects their subject and angle\",\n  \"phases\": [\n    \x7b\n      \"phase_number\": 1,\n      \"title\": \"Phase title\",\n      \"description\": \"What the learner will be able to do after this phase\",\n      \"lessons\": [\n        \x7b\n          \"lesson_number\": 1,\n          \"title\": \"Lesson title — specific and clear\",\n          \"description\": \"What this lesson specifically covers\",\n          \"instructional_seed\": \"1-2 sentences telling the content generator exactly what to teach in this lesson and at what angle/depth\"\n        \x7d\n      ]\n    \x7d\n  ]\n\x7d"

/-- The request `generateCourseStructure` hands to `fetch`. -/
def structureRequest {W : Type} (h : Host W) (apiKey model highLevel : JsVal)
    (searchResults : List JsVal) : Request :=
  { url := "https://openrouter.ai/api/v1/chat/completions"
    method := "POST"
    headers :=
      [("Content-Type", "application/json"),
       ("Authorization", "Bearer " ++ toStr apiKey),
       ("HTTP-Referer", "https://github.com/your-repo"),
       ("X-Title", "Course Structure Generator")]
    body := h.jsonStringify (obj
      [("model", model),
       ("messages", arr
          [obj [("role", str "system"), ("content", str COURSE_STRUCTURE_SYSTEM_PROMPT)],
           obj [("role", str "user"), ("content", h.jsonStringify (obj
              [("learner_brain", highLevel),
               ("web_research", arr searchResults)]))]]),
       ("response_format", obj [("type", str "json_object")])]) }

/-- The conversion `ToPrimitive` of the operator `+`: an array becomes its
joined text, an object the text `[object Object]`. -/
def toPrimitive : JsVal → JsVal
  | .arr xs => str (joinStr xs)
  | .obj _ => str "[object Object]"
  | v => v

/-- The conversion `ToNumber` of a primitive that is not a string (`none` for
`NaN`). -/
def toNumber : JsVal → Option Int
  | .null => some 0
  | .bool b => some (if b then 1 else 0)
  | .num n => some n
  | _ => none

/-- The operator `+`: concatenation when either operand is a string after
`ToPrimitive`, the sum of the numbers otherwise. -/
def jsAdd (a b : JsVal) : JsVal :=
  match toPrimitive a, toPrimitive b with
  | .str s, pb => str (s ++ toStr pb)
  | pa, .str t => str (toStr pa ++ t)
  | pa, pb =>
    match toNumber pa, toNumber pb with
    | some m, some n => num (m + n)
    | _, _ => nan

/-- The expression `p.lessons?.length || 0`. -/
def lessonsLength (p : JsVal) : Except JsError JsVal := do
  let lessons ← readProp p "lessons"
  let length := if isNullish lessons then undefined else getProp lessons "length"
  pure (if truthy length then length else num 0)

/-- The call `phases.reduce((sum, p) => sum + (p.lessons?.length || 0), 0)` on
an array, from the accumulator `sum` on. -/
def sumLessons (sum : JsVal) : List JsVal → Except JsError JsVal
  | [] => .ok sum
  | p :: rest => do
    let count ← lessonsLength p
    sumLessons (jsAdd sum count) rest

/-- The checks `generateCourseStructure` makes on the parsed structure before
it returns it, and the total it computes for the log (which throws on a phase
that is `null`). -/
def checkStructure (struct : JsVal) : Except JsError JsVal := do
  let title ← readProp struct "title"
  if !truthy title || !truthy (getProp struct "phases") then
    .error ⟨"Error", "Generated structure is missing required fields (title, phases)"⟩
  else
    match getProp struct "phases" with
    | .arr phases => do
      let _total ← sumLessons (num 0) phases
      pure struct
    | _ => .error ⟨"Error", "Generated structure is missing required fields (title, phases)"⟩

/-- The body of the `try` block of `generateCourseStructure`. -/
def generateCourseStructureBody {W : Type} (h : Host W) (env : ProcessEnv) (year : Nat)
    (apiKey model highLevel : JsVal) : Js W JsVal := do
  -- Step 1: Search the web for current info on the subject
  let queries ← lift (buildStructureQueries year highLevel)
  let searchResults ← searchAll h env queries
  -- Make API call to OpenRouter
  let response ← doFetch h (structureRequest h apiKey model highLevel searchResults)
  if !response.ok then
    let errorData ← lift response.text
    Js.throw (openRouterError response errorData)
  else
    let data ← lift response.json
    -- Extract and parse the structure
    let choices ← lift (readProp data "choices")
    if !truthy choices || !truthy (getIdx choices 0) ||
        !truthy (getProp (getIdx choices 0) "message") then
      Js.throw ⟨"Error", "Unexpected API response format"⟩
    else
      let struct ←
        lift (h.jsonParse (getProp (getProp (getIdx choices 0) "message") "content"))
      -- Validate structure has required fields
      lift (checkStructure struct)

/-- The function `generateCourseStructure(brain, options = {})`; `year` is the
value of `new Date().getFullYear()`.  The subject is read for the log before
the `try` block; the `catch` clause logs the error and throws it again. -/
def generateCourseStructure {W : Type} (h : Host W) (env : ProcessEnv) (year : Nat)
    (brain options : JsVal) : Js W JsVal := do
  let options := optionsOrDefault options
  -- Validate input - handle both brain.high_level and brain.brain.high_level
  let inner ← lift (readProp brain "brain")
  let brainData := if truthy inner then inner else brain
  if !truthy brainData || !truthy (getProp brainData "high_level") then
    Js.throw ⟨"Error", "Brain must have a high_level property"⟩
  else do
    -- Get API key from options or environment
    let optionsKey ← lift (readProp options "apiKey")
    let apiKey := if truthy optionsKey then optionsKey else env.OPENROUTER_API_KEY
    if !truthy apiKey then
      Js.throw ⟨"Error", "OPENROUTER_API_KEY not found in environment or options"⟩
    else do
      -- Model selection
      let model :=
        if truthy (getProp options "model") then getProp options "model"
        else str "google/gemini-3-flash-preview"
      let _subject ←
        lift (readProp (getProp (getProp brainData "high_level") "onboarding") "subject")
      Js.tryCatch
        (generateCourseStructureBody h env year apiKey model (getProp brainData "high_level"))
        (fun error => Js.throw error)

/-- The four checks of the callback of `phase.lessons.forEach(...)` in
`validateCourseStructure`. -/
def lessonErrors (phaseIdx lessonIdx : Nat) (lesson : JsVal) : Except JsError (List String) := do
  let lesson_number ← readProp lesson "lesson_number"
  pure
    ((if !truthy lesson_number || typeOf lesson_number != "number" then
        ["Phase " ++ toString phaseIdx ++ ", Lesson " ++ toString lessonIdx ++
          ": missing or invalid lesson_number"]
      else []) ++
     (if !truthy (getProp lesson "title") || typeOf (getProp lesson "title") != "string" then
        ["Phase " ++ toString phaseIdx ++ ", Lesson " ++ toString lessonIdx ++
          ": missing or invalid title"]
      else []) ++
     (if !truthy (getProp lesson "description") ||
          typeOf (getProp lesson "description") != "string" then
        ["Phase " ++ toString phaseIdx ++ ", Lesson " ++ toString lessonIdx ++
          ": missing or invalid description"]
      else []) ++
     (if !truthy (getProp lesson "instructional_seed") ||
          typeOf (getProp lesson "instructional_seed") != "string" then
        ["Phase " ++ toString phaseIdx ++ ", Lesson " ++ toString lessonIdx ++
          ": missing or invalid instructional_seed"]
      else []))

/-- The call `phase.lessons.forEach(...)` of `validateCourseStructure`, from
index `lessonIdx` on: the errors pushed. -/
def lessonsErrors (phaseIdx : Nat) : Nat → List JsVal → Except JsError (List String)
  | _, [] => .ok []
  | lessonIdx, lesson :: rest => do
    let here ← lessonErrors phaseIdx lessonIdx lesson
    let more ← lessonsErrors phaseIdx (lessonIdx + 1) rest
    pure (here ++ more)

/-- The last check of the callback of `structure.phases.forEach(...)`: the
lessons of the phase. -/
def phaseLessonsErrors (phaseIdx : Nat) (phase : JsVal) : Except JsError (List String) :=
  match getProp phase "lessons" with
  | .arr lessons => lessonsErrors phaseIdx 0 lessons
  | _ => .ok ["Phase " ++ toString phaseIdx ++ ": lessons must be an array"]

/-- The callback of `structure.phases.forEach(...)` in
`validateCourseStructure`: the errors pushed for one phase. -/
def phaseErrors (phaseIdx : Nat) (phase : JsVal) : Except JsError (List String) := do
  let phase_number ← readProp phase "phase_number"
  let more ← phaseLessonsErrors phaseIdx phase
  pure
    ((if !truthy phase_number || typeOf phase_number != "number" then
        ["Phase " ++ toString phaseIdx ++ ": missing or invalid phase_number"]
      else []) ++
     (if !truthy (getProp phase "title") || typeOf (getProp phase "title") != "string" then
        ["Phase " ++ toString phaseIdx ++ ": missing or invalid title"]
      else []) ++
     (if !truthy (getProp phase "description") ||
          typeOf (getProp phase "description") != "string" then
        ["Phase " ++ toString phaseIdx ++ ": missing or invalid description"]
      else []) ++ more)

/-- The call `structure.phases.forEach(...)` of `validateCourseStructure`, from
index `phaseIdx` on: the errors pushed. -/
def phasesErrors : Nat → List JsVal → Except JsError (List String)
  | _, [] => .ok []
  | phaseIdx, phase :: rest => do
    let here ← phaseErrors phaseIdx phase
    let more ← phasesErrors (phaseIdx + 1) rest
    pure (here ++ more)

/-- The second check of `validateCourseStructure`: the phases. -/
def structurePhasesErrors (struct : JsVal) : Except JsError (List String) :=
  match getProp struct "phases" with
  | .arr phases => phasesErrors 0 phases
  | _ => .ok ["Phases must be an array"]

/-- The function `validateCourseStructure(structure)`. -/
def validateCourseStructure (struct : JsVal) : Except JsError Validation := do
  let title ← readProp struct "title"
  let more ← structurePhasesErrors struct
  let errors :=
    (if !truthy title || typeOf title != "string" then ["Missing or invalid title"] else []) ++
      more
  pure { valid := errors.length == 0, errors := errors }

/-! ## `brain/updateCourseStructure.js` -/

/-- The property list of an object after the assignment of `v` to its property
`k`: an existing property keeps its place, a new one comes last. -/
def setField (k : String) (v : JsVal) : List (String × JsVal) → List (String × JsVal)
  | [] => [(k, v)]
  | (k', v') :: rest => if k' = k then (k, v) :: rest else (k', v') :: setField k v rest

/-- The value `target` after the assignment `target.k = v` in a module that is
not in strict mode: an object gets the property, and the assignment to a
property of a boolean, a number or a string is ignored.  (A named property of
an array has no counterpart in the value model; an array is left as it is.) -/
def assign (target : JsVal) (k : String) (v : JsVal) : JsVal :=
  match target with
  | .obj kvs => obj (setField k v kvs)
  | other => other

/-- The function `updateCourseStructure(brain, structure)`; `now` is the value
of `new Date().toISOString()`.  The function changes the object it is given
and returns it: the result comes with the state of the object passed in as the
caller finds it after the call. -/
def updateCourseStructure (now : String) (brain struct : JsVal) :
    Except JsError JsVal × JsVal :=
  if !truthy brain || !truthy (getProp brain "brain") then
    (.error ⟨"Error", "Invalid brain object"⟩, brain)
  else if !truthy struct || !truthy (getProp struct "phases") then
    (.error ⟨"Error", "Invalid course structure"⟩, brain)
  else
    -- Update the course_structure field
    let updated := assign brain "brain"
      (assign (getProp brain "brain") "course_structure"
        (obj (setField "generated_at" (str now) (ownProps struct))))
    (.ok updated, updated)

/-- The callback of `phases.map(...)` in `getCourseStats`. -/
def phaseStat (p : JsVal) : Except JsError JsVal := do
  let phase_number ← readProp p "phase_number"
  let lesson_count ← lessonsLength p
  pure (obj [("phase", phase_number), ("title", getProp p "title"),
    ("lesson_count", lesson_count)])

/-- The callback `phaseStat` applied along the array. -/
def phaseStats : List JsVal → Except JsError (List JsVal)
  | [] => .ok []
  | p :: rest => do
    let stat ← phaseStat p
    let more ← phaseStats rest
    pure (stat :: more)

/-- The optional read `v?.k`. -/
def optProp (v : JsVal) (k : String) : JsVal :=
  if isNullish v then undefined else getProp v k

/-- The function `getCourseStats(brain)`. -/
def getCourseStats (brain : JsVal) : Except JsError JsVal :=
  if !truthy (optProp (optProp (optProp brain "brain") "course_structure") "phases") then
    .ok (obj [("error", str "No course structure found")])
  else do
    let struct := getProp (getProp brain "brain") "course_structure"
    let phases := getProp struct "phases"
    let reduced ← arrayMethod "phases" "reduce" phases
    let total_lessons ← sumLessons (num 0) reduced
    let lessons_per_phase ← phaseStats reduced
    pure (obj
      [("title", getProp struct "title"),
       ("total_phases", getProp phases "length"),
       ("total_lessons", total_lessons),
       ("lessons_per_phase", arr lessons_per_phase),
       ("generated_at", getProp struct "generated_at")])

/-! ## Vocabulary for the claims about the brain and the course -/

/-- Whether a value is an object other than `null`: a record or a list. -/
def isObject : JsVal → Bool
  | .arr _ => true
  | .obj _ => true
  | _ => false

/-- Whether a value is a string other than the empty one. -/
def isNonEmptyString : JsVal → Bool
  | .str s => s != ""
  | _ => false

/-- Whether a value is a number other than zero. -/
def isNonZeroNumber : JsVal → Bool
  | .num n => n != 0
  | _ => false

/-- The inputs `createBrain` is meant for: two objects, the first with a
subject and with a motivation under `why` or under `reason`.  A field counts as
present when its value is truthy. -/
def validBrainInput (onboardingData profilingData : JsVal) : Bool :=
  isObject onboardingData && isObject profilingData &&
    truthy (getProp onboardingData "subject") &&
    (truthy (getProp onboardingData "why") || truthy (getProp onboardingData "reason"))

/-- The brain `createBrain` builds around a `high_level` record. -/
def brainAround (highLevel : JsVal) : JsVal :=
  obj [("brain", obj
    [("high_level", highLevel), ("course_structure", obj []), ("low_level", obj [])])]

/-- A lesson entry of a course outline as it should be: a non-zero
`lesson_number` and non-empty strings as `title`, `description` and
`instructional_seed`. -/
def wellFormedLesson (lesson : JsVal) : Bool :=
  isNonZeroNumber (getProp lesson "lesson_number") &&
    isNonEmptyString (getProp lesson "title") &&
    isNonEmptyString (getProp lesson "description") &&
    isNonEmptyString (getProp lesson "instructional_seed")

/-- A phase entry of a course outline as it should be: a non-zero
`phase_number`, non-empty strings as `title` and `description`, and a list of
well-formed lessons. -/
def wellFormedPhase (phase : JsVal) : Bool :=
  isNonZeroNumber (getProp phase "phase_number") &&
    isNonEmptyString (getProp phase "title") &&
    isNonEmptyString (getProp phase "description") &&
    (match getProp phase "lessons" with
      | .arr lessons => lessons.all wellFormedLesson
      | _ => false)

/-- A course outline as it should be: a non-empty string as `title` and a list
of well-formed phases. -/
def wellFormedStructure (struct : JsVal) : Bool :=
  isNonEmptyString (getProp struct "title") &&
    (match getProp struct "phases" with
      | .arr phases => phases.all wellFormedPhase
      | _ => false)

/-- A lesson document as it should be: a non-empty string as `content` and a
list of two to five non-empty strings as `mastery_criteria`. -/
def wellFormedLessonContent (lessonContent : JsVal) : Bool :=
  isNonEmptyString (getProp lessonContent "content") &&
    (match getProp lessonContent "mastery_criteria" with
      | .arr criteria =>
        decide (2 ≤ criteria.length) && decide (criteria.length ≤ 5) &&
          criteria.all isNonEmptyString
      | _ => false)

/-- The number of lessons `getCourseStats` counts for a phase: the length of
its `lessons` (of a list, and also of a text), and 0 when it has none. -/
def lessonCount (phase : JsVal) : Nat :=
  match getProp phase "lessons" with
  | .arr lessons => lessons.length
  | .str text => utf16Length text
  | _ => 0

/-- A phase entry `getCourseStats` can count: a value other than `null` and
`undefined` whose `lessons` is not a record. -/
def isPhaseEntry (phase : JsVal) : Bool :=
  !isNullish phase &&
    (match getProp phase "lessons" with
      | .obj _ => false
      | _ => true)

/-- The entry of `lessons_per_phase` for a phase. -/
def phaseEntry (phase : JsVal) : JsVal :=
  obj [("phase", getProp phase "phase_number"), ("title", getProp phase "title"),
    ("lesson_count", num (lessonCount phase))]

/-- The sum of the `lesson_count` fields of a list of entries. -/
def sumLessonCounts : List JsVal → Int
  | [] => 0
  | entry :: rest =>
    (match getProp entry "lesson_count" with
      | .num n => n
      | _ => 0) + sumLessonCounts rest

/-- The two checks `generateLesson` makes on its lesson (lines 40 to 46 of
`generateLesson.js`): the error it throws for the lesson, if any. -/
def lessonRejection (lesson : JsVal) : Option JsError :=
  if !truthy lesson || !truthy (getProp lesson "instructional_seed") then
    some ⟨"Error", "Lesson must have an instructional_seed property"⟩
  else if !truthy (getProp lesson "title") || !truthy (getProp lesson "description") then
    some ⟨"Error", "Lesson must have title and description"⟩
  else none

/-- What `generateLesson` does with a lesson that passed its checks (from line
48 of `generateLesson.js` on), for the brain data `brainData`. -/
def generateLessonChecked {W : Type} (h : Host W) (env : ProcessEnv)
    (brainData lesson options : JsVal) : Js W JsVal := do
  let optionsKey ← lift (readProp options "apiKey")
  let apiKey := if truthy optionsKey then optionsKey else env.OPENROUTER_API_KEY
  if !truthy apiKey then
    Js.throw ⟨"Error", "OPENROUTER_API_KEY not found in environment or options"⟩
  else
    let model :=
      if truthy (getProp options "model") then getProp options "model"
      else str "google/gemini-3-flash-preview"
    Js.tryCatch (generateLessonBody h env apiKey model brainData lesson)
      (fun error => Js.throw error)

/-- What `generateCourseStructure` does with the `high_level` of a brain that
passed its check (from line 31 of `generateStructure.js` on). -/
def generateCourseStructureChecked {W : Type} (h : Host W) (env : ProcessEnv) (year : Nat)
    (highLevel options : JsVal) : Js W JsVal := do
  let optionsKey ← lift (readProp options "apiKey")
  let apiKey := if truthy optionsKey then optionsKey else env.OPENROUTER_API_KEY
  if !truthy apiKey then
    Js.throw ⟨"Error", "OPENROUTER_API_KEY not found in environment or options"⟩
  else do
    let model :=
      if truthy (getProp options "model") then getProp options "model"
      else str "google/gemini-3-flash-preview"
    let _subject ← lift (readProp (getProp highLevel "onboarding") "subject")
    Js.tryCatch (generateCourseStructureBody h env year apiKey model highLevel)
      (fun error => Js.throw error)

/-- The key `generateCourseStructure` uses: that of the options, or else that
of the environment. -/
def apiKeyOf (env : ProcessEnv) (options : JsVal) : JsVal :=
  if truthy (getProp (optionsOrDefault options) "apiKey") then
    getProp (optionsOrDefault options) "apiKey"
  else env.OPENROUTER_API_KEY

/-- The model `generateCourseStructure` uses. -/
def modelOf (options : JsVal) : JsVal :=
  if truthy (getProp (optionsOrDefault options) "model") then
    getProp (optionsOrDefault options) "model"
  else str "google/gemini-3-flash-preview"

/-! ## Sample data for the claims about the brain and the course -/

/-- The onboarding data of Test 1 of `course/test.js`. -/
def sampleOnboarding : JsVal :=
  obj [("subject", str "how to integrate AI tools into my product management workflow"),
       ("why", str "I keep seeing other PMs ship faster using AI."),
       ("summary", str "PM wants to learn AI integration for faster shipping")]

/-- Onboarding data that names the motivation `reason`, as `test_full_flow.js`
builds it. -/
def sampleOnboardingWithReason : JsVal :=
  obj [("subject", str "LangGraph"),
       ("reason", str "I want to build agents at work."),
       ("summary", str "Wants to build agents")]

/-- Profiling data with three fields. -/
def sampleProfiling : JsVal :=
  obj [("current_level", str "beginner"),
       ("skip", arr [str "history of AI"]),
       ("tone", str "casual")]

/-- The brain document inside `sampleBrain`. -/
def sampleDocument : JsVal :=
  obj [("high_level", obj
        [("onboarding", obj
          [("subject", str "AI for product managers"),
           ("why", str "I want to ship faster.")]),
         ("profiling", obj [("starting_level", str "beginner")]),
         ("generated_at", str "2026-01-01T00:00:00.000Z")]),
       ("course_structure", obj []),
       ("low_level", obj [])]

/-- The lesson of the sample outline. -/
def promptLesson : JsVal :=
  obj [("lesson_number", num 1),
       ("title", str "Prompt Engineering"),
       ("description", str "Context-rich prompts."),
       ("instructional_seed", str "Teach the CTC framework.")]

/-- The phase of the sample outline. -/
def coreMechanics : JsVal :=
  obj [("phase_number", num 1),
       ("title", str "Core Mechanics"),
       ("description", str "Write useful prompts."),
       ("lessons", arr [promptLesson])]

/-- A course outline with one phase and one lesson. -/
def sampleStructure : JsVal :=
  obj [("title", str "AI Tools for PMs"), ("phases", arr [coreMechanics])]

/-- The JSON text of `sampleStructure`. -/
def sampleStructureText : String :=
  "\x7b\"title\":\"AI Tools for PMs\",\"phases\":[\x7b\"phase_number\":1,\"title\":\"Core Mechanics\",\"description\":\"Write useful prompts.\",\"lessons\":[\x7b\"lesson_number\":1,\"title\":\"Prompt Engineering\",\"description\":\"Context-rich prompts.\",\"instructional_seed\":\"Teach the CTC framework.\"\x7d]\x7d]\x7d"

/-- `JSON.parse` on the sample outline; any other argument is treated as not
being JSON. -/
def structureParse : JsVal → Except JsError JsVal
  | .str s => if s = sampleStructureText then .ok sampleStructure else .error notJson
  | _ => .error notJson

/-- The scripted host, reading the sample outline. -/
def structureHost : Host Script :=
  { scriptedHost with jsonParse := structureParse }

/-- A course outline that carries a `generated_at` of its own, as the
`course_structure` of an updated brain does. -/
def datedStructure : JsVal :=
  obj [("title", str "AI Tools for PMs"),
       ("phases", arr []),
       ("generated_at", str "2025-06-30T12:00:00.000Z")]

/-- An outline without phases. -/
def emptyOutline : JsVal :=
  obj [("title", str "AI Tools for PMs"), ("phases", arr [])]

/-- An outline whose only phase is numbered 0. -/
def phaseZeroOutline : JsVal :=
  obj [("title", str "AI Tools for PMs"),
       ("phases", arr
        [obj [("phase_number", num 0),
              ("title", str "Core Mechanics"),
              ("description", str "Write useful prompts."),
              ("lessons", arr [])]])]

/-- An outline whose only lesson is numbered 0. -/
def lessonZeroOutline : JsVal :=
  obj [("title", str "AI Tools for PMs"),
       ("phases", arr
        [obj [("phase_number", num 1),
              ("title", str "Core Mechanics"),
              ("description", str "Write useful prompts."),
              ("lessons", arr
                [obj [("lesson_number", num 0),
                      ("title", str "Prompt Engineering"),
                      ("description", str "Context-rich prompts."),
                      ("instructional_seed", str "Teach the CTC framework.")]])]])]

/-- A brain whose outline has a phase without `lessons`. -/
def brainWithOutline : JsVal :=
  obj [("brain", obj
    [("high_level", getProp sampleDocument "high_level"),
     ("course_structure", obj
        [("title", str "AI Tools for PMs"),
         ("phases", arr
           [obj [("phase_number", num 1), ("title", str "Core Mechanics"),
                 ("lessons", arr [str "a", str "b"])],
            obj [("phase_number", num 2), ("title", str "Workflows")]]),
         ("generated_at", str "2026-01-01T00:00:00.000Z")]),
     ("low_level", obj [])])]

/-- A brain document that carries a property `brain` of its own, a label. -/
def labelledDocument : JsVal :=
  obj [("brain", str "v2"),
       ("high_level", getProp sampleDocument "high_level"),
       ("course_structure", obj []),
       ("low_level", obj [])]

/-- A brain whose `brain` is not a record. -/
def flagBrain : JsVal :=
  obj [("brain", bool true)]

/-- A brain whose outline has `null` in its list of phases. -/
def brainWithNullPhase : JsVal :=
  obj [("brain", obj
    [("course_structure", obj [("title", str "AI Tools for PMs"), ("phases", arr [null])])])]

/-- A brain whose outline has a phase with a text as `lessons`. -/
def brainWithTextLessons : JsVal :=
  obj [("brain", obj
    [("course_structure", obj
      [("title", str "AI Tools for PMs"),
       ("phases", arr
         [obj [("phase_number", num 1), ("title", str "Core Mechanics"),
               ("lessons", str "soon")]])])])]

/-! ## Basic facts about computations -/

namespace Js

variable {W : Type} {α β : Type}

@[simp] theorem pure_run (a : α) (s : St W) : (pure a : Js W α) s = (.ok a, s) := rfl

@[simp] theorem throw_run (e : JsError) (s : St W) : (Js.throw e : Js W α) s = (.error e, s) := rfl

@[simp] theorem lift_run (r : Except JsError α) (s : St W) : (lift r : Js W α) s = (r, s) := rfl

theorem bind_run (m : Js W α) (f : α → Js W β) (s : St W) :
    (m >>= f) s = match m s with
      | (.ok a, s') => f a s'
      | (.error e, s') => (.error e, s') := rfl

theorem bind_ok {m : Js W α} {f : α → Js W β} {s s' : St W} {a : α}
    (hm : m s = (.ok a, s')) : (m >>= f) s = f a s' := by
  rw [bind_run, hm]

theorem bind_error {m : Js W α} {f : α → Js W β} {s s' : St W} {e : JsError}
    (hm : m s = (.error e, s')) : (m >>= f) s = (.error e, s') := by
  rw [bind_run, hm]

@[simp] theorem lift_ok_bind (a : α) (f : α → Js W β) (s : St W) :
    (lift (.ok a) >>= f) s = f a s := rfl

@[simp] theorem lift_error_bind (e : JsError) (f : α → Js W β) (s : St W) :
    (lift (.error e : Except JsError α) >>= f) s = (.error e, s) := rfl

@[simp] theorem record_bind (c : Call) (f : Unit → Js W β) (s : St W) :
    (record c >>= f) s = f () { s with calls := s.calls ++ [c] } := rfl

@[simp] theorem ask_bind (h : Host W) (q : String) (f : String → Js W β) (s : St W) :
    (ask h q >>= f) s = f (h.question q s.world).1 { s with world := (h.question q s.world).2 } :=
  rfl

end Js

/-- A `catch` clause that throws the error it caught leaves the `try` block's
outcome as it is. -/
theorem callLLM_eq_body {W : Type} (h : Host W) (agent : Agent) (systemPrompt : String)
    (userContent : JsVal) (jsonMode : Bool) :
    callLLM h agent systemPrompt userContent jsonMode =
      callLLMBody h agent systemPrompt userContent jsonMode := by
  funext s
  unfold callLLM Js.tryCatch
  rcases hb : callLLMBody h agent systemPrompt userContent jsonMode s with ⟨r, s'⟩
  cases r <;> rfl

/-- Whatever happens, `callLLM` hands exactly one request to `fetch`. -/
theorem callLLM_state {W : Type} (h : Host W) (agent : Agent) (systemPrompt : String)
    (userContent : JsVal) (jsonMode : Bool) (s : St W) :
    (callLLM h agent systemPrompt userContent jsonMode s).2 =
      { world := (h.fetch (llmRequest h agent systemPrompt userContent jsonMode) s.world).2
        sent := s.sent ++ [llmRequest h agent systemPrompt userContent jsonMode]
        calls := s.calls } := by
  rw [callLLM_eq_body]
  unfold callLLMBody doFetch
  simp only [bind_run]
  rcases hf : h.fetch (llmRequest h agent systemPrompt userContent jsonMode) s.world with ⟨r, w⟩
  cases r with
  | error e => rfl
  | ok resp =>
    simp only []
    cases hok : resp.ok
    · cases ht : resp.text <;> simp [bind_run, hok, ht]
    · cases hj : resp.json with
      | error e => simp [bind_run, hok, hj]
      | ok data =>
        cases hc : messageContent data with
        | error e => simp [bind_run, hok, hj, hc]
        | ok c => cases jsonMode <;> simp [bind_run, hok, hj, hc]

/-- The outcome of `callLLM` on a successful response with content `c`. -/
theorem callLLM_answer {W : Type} (h : Host W) (agent : Agent) (systemPrompt : String)
    (userContent : JsVal) (jsonMode : Bool) (s : St W) (c : JsVal)
    (ha : AnswersWith h (llmRequest h agent systemPrompt userContent jsonMode) s.world c) :
    (callLLM h agent systemPrompt userContent jsonMode s).1 =
      if jsonMode then h.jsonParse c else .ok c := by
  obtain ⟨resp, data, hf, hok, hj, hc⟩ := ha
  rw [callLLM_eq_body]
  unfold callLLMBody doFetch
  simp only [bind_run]
  rcases hf' : h.fetch (llmRequest h agent systemPrompt userContent jsonMode) s.world with ⟨r, w⟩
  rw [hf'] at hf
  simp only at hf
  subst hf
  cases jsonMode <;> simp [bind_run, hok, hj, hc]

/-- The outcome of `callLLM` when the service call fails. -/
theorem callLLM_failure {W : Type} (h : Host W) (agent : Agent) (systemPrompt : String)
    (userContent : JsVal) (jsonMode : Bool) (s : St W) (e : JsError)
    (hfail : ServiceFails h (llmRequest h agent systemPrompt userContent jsonMode) jsonMode
      s.world e) :
    (callLLM h agent systemPrompt userContent jsonMode s).1 = .error e := by
  rw [callLLM_eq_body]
  unfold callLLMBody doFetch
  simp only [bind_run]
  rcases hf' : h.fetch (llmRequest h agent systemPrompt userContent jsonMode) s.world with ⟨r, w⟩
  cases hfail with
  | transport e hf => rw [hf'] at hf; simp only at hf; subst hf; rfl
  | status resp t hf hok ht => rw [hf'] at hf; simp only at hf; subst hf; simp [bind_run, hok, ht]
  | statusBody resp e hf hok ht => rw [hf'] at hf; simp only at hf; subst hf; simp [bind_run, hok, ht]
  | body resp e hf hok hj => rw [hf'] at hf; simp only at hf; subst hf; simp [bind_run, hok, hj]
  | shape resp data e hf hok hj hc =>
    rw [hf'] at hf; simp only at hf; subst hf; simp [bind_run, hok, hj, hc]
  | content resp data c e hf hok hj hc hm hp =>
    rw [hf'] at hf; simp only at hf; subst hf; subst hm; simp [bind_run, hok, hj, hc, hp]

/-- A value returned by `callLLM` comes from a successful response: it is the
message content itself, or what `JSON.parse` makes of it. -/
theorem callLLM_ok_inv {W : Type} (h : Host W) (agent : Agent) (systemPrompt : String)
    (userContent : JsVal) (jsonMode : Bool) (s : St W) (v : JsVal)
    (hret : (callLLM h agent systemPrompt userContent jsonMode s).1 = .ok v) :
    ∃ c, AnswersWith h (llmRequest h agent systemPrompt userContent jsonMode) s.world c ∧
      if jsonMode then h.jsonParse c = .ok v else c = v := by
  rw [callLLM_eq_body] at hret
  unfold callLLMBody doFetch at hret
  simp only [bind_run] at hret
  rcases hf : h.fetch (llmRequest h agent systemPrompt userContent jsonMode) s.world with ⟨r, w⟩
  rw [hf] at hret
  cases r with
  | error e => simp at hret
  | ok resp =>
    simp only at hret
    cases hok : resp.ok
    · cases ht : resp.text <;> simp [bind_run, hok, ht] at hret
    · cases hj : resp.json with
      | error e => simp [bind_run, hok, hj] at hret
      | ok data =>
        cases hc : messageContent data with
        | error e => simp [bind_run, hok, hj, hc] at hret
        | ok c =>
          refine ⟨c, ⟨resp, data, by rw [hf], hok, hj, hc⟩, ?_⟩
          cases jsonMode <;> simpa [bind_run, hok, hj, hc] using hret

theorem readProp_error_name (v : JsVal) (k : String) (e : JsError)
    (he : readProp v k = .error e) : e.name = "TypeError" := by
  unfold readProp at he
  split at he
  · cases he; rfl
  · cases he

theorem readIdx_error_name (v : JsVal) (i : Nat) (e : JsError)
    (he : readIdx v i = .error e) : e.name = "TypeError" := by
  unfold readIdx at he
  split at he
  · cases he; rfl
  · cases he

/-- Every error of `data.choices[0].message.content` is a `TypeError`. -/
theorem messageContent_error_name (data : JsVal) (e : JsError)
    (he : messageContent data = .error e) : e.name = "TypeError" := by
  unfold messageContent at he
  cases h1 : readProp data "choices" with
  | error e1 =>
    rw [h1] at he; cases he; exact readProp_error_name _ _ _ h1
  | ok choices =>
    rw [h1] at he
    cases h2 : readIdx choices 0 with
    | error e2 =>
      simp only [Bind.bind, Except.bind, h2] at he; cases he; exact readIdx_error_name _ _ _ h2
    | ok first =>
      cases h3 : readProp first "message" with
      | error e3 =>
        simp only [Bind.bind, Except.bind, h2, h3] at he
        cases he; exact readProp_error_name _ _ _ h3
      | ok message =>
        simp only [Bind.bind, Except.bind, h2, h3] at he
        exact readProp_error_name _ _ _ he


/-! ## Facts about the mastery loop -/

theorem bind_assoc_run {W : Type} {α β γ : Type} (m : Js W α) (f : α → Js W β) (g : β → Js W γ) :
    (m >>= f) >>= g = m >>= fun a => f a >>= g := by
  funext s
  simp only [bind_run]
  rcases m s with ⟨r, s'⟩
  cases r <;> rfl

theorem quiet_pure {W : Type} {α : Type} (a : α) : Quiet (pure a : Js W α) := fun _ => ⟨rfl, rfl⟩

theorem quiet_lift {W : Type} {α : Type} (r : Except JsError α) : Quiet (lift r : Js W α) :=
  fun _ => ⟨rfl, rfl⟩

theorem quiet_ask {W : Type} (h : Host W) (q : String) : Quiet (ask h q) := fun _ => ⟨rfl, rfl⟩

theorem quiet_bind {W : Type} {α β : Type} {m : Js W α} {f : α → Js W β}
    (hm : Quiet m) (hf : ∀ a, Quiet (f a)) : Quiet (m >>= f) := by
  intro s
  have h1 := hm s
  rw [bind_run]
  rcases hms : m s with ⟨r, s'⟩
  rw [hms] at h1
  cases r with
  | error e => exact h1
  | ok a =>
    have h2 := hf a s'
    exact ⟨h2.1.trans h1.1, h2.2.trans h1.2⟩

theorem quizLoop_quiet {W : Type} (h : Host W) (qs : List JsVal) : Quiet (quizLoop h qs) := by
  induction qs with
  | nil => exact quiet_pure _
  | cons q rest ih =>
    unfold quizLoop
    exact quiet_bind (quiet_lift _) fun _ => quiet_bind (quiet_lift _) fun _ =>
      quiet_bind (quiet_ask _ _) fun _ => quiet_bind ih fun _ => quiet_pure _

theorem cardLoop_quiet {W : Type} (h : Host W) (cs : List JsVal) : Quiet (cardLoop h cs) := by
  induction cs with
  | nil => exact quiet_pure _
  | cons c rest ih =>
    unfold cardLoop
    exact quiet_bind (quiet_lift _) fun _ =>
      quiet_bind (quiet_ask _ _) fun _ => quiet_bind ih fun _ => quiet_pure _

theorem sortLoop_quiet {W : Type} (h : Host W) (buckets items : List JsVal) :
    Quiet (sortLoop h buckets items) := by
  induction items with
  | nil => exact quiet_pure _
  | cons c rest ih =>
    unfold sortLoop
    exact quiet_bind (quiet_lift _) fun _ =>
      quiet_bind (quiet_ask _ _) fun _ => quiet_bind ih fun _ => quiet_pure _

theorem matchLoop_quiet {W : Type} (h : Host W) (pairs rights : List JsVal) (i : Nat)
    (pending : List JsVal) : Quiet (matchLoop h pairs rights i pending) := by
  induction pending generalizing i with
  | nil => unfold matchLoop; exact quiet_pure _
  | cons c rest ih =>
    unfold matchLoop
    exact quiet_bind (quiet_ask _ _) fun _ => quiet_bind (ih _) fun _ => quiet_pure _

theorem blankLoop_quiet {W : Type} (h : Host W) (bs : List JsVal) : Quiet (blankLoop h bs) := by
  induction bs with
  | nil => exact quiet_pure _
  | cons c rest ih =>
    unfold blankLoop
    exact quiet_bind (quiet_lift _) fun _ =>
      quiet_bind (quiet_ask _ _) fun _ => quiet_bind ih fun _ => quiet_pure _

theorem playGames_quiet {W : Type} (h : Host W) (games : JsVal) : Quiet (playGames h games) := by
  have h1 : Quiet (playQuizMaster h games) := by
    unfold playQuizMaster
    refine quiet_bind (quiet_lift _) fun _ => ?_
    split
    · exact quiet_bind (quiet_lift _) fun _ => quizLoop_quiet _ _
    · exact quiet_pure _
  have h2 : Quiet (playFlashCardHero h games) := by
    unfold playFlashCardHero
    refine quiet_bind (quiet_lift _) fun _ => ?_
    split
    · exact quiet_bind (quiet_lift _) fun _ => cardLoop_quiet _ _
    · exact quiet_pure _
  have h3 : Quiet (playSortItOut h games) := by
    unfold playSortItOut
    refine quiet_bind (quiet_lift _) fun _ => ?_
    split
    · exact quiet_bind (quiet_lift _) fun _ =>
        quiet_bind (quiet_lift _) fun _ => sortLoop_quiet _ _ _
    · exact quiet_pure _
  have h4 : Quiet (playMatchMaker h games) := by
    unfold playMatchMaker
    refine quiet_bind (quiet_lift _) fun _ => ?_
    split
    · exact quiet_bind (quiet_lift _) fun _ => quiet_bind (quiet_lift _) fun _ =>
        quiet_bind (quiet_lift _) fun _ => matchLoop_quiet _ _ _ _ _
    · exact quiet_pure _
  have h5 : Quiet (playFillTheGap h games) := by
    unfold playFillTheGap
    refine quiet_bind (quiet_lift _) fun _ => ?_
    split
    · exact quiet_bind (quiet_lift _) fun _ => blankLoop_quiet _ _
    · exact quiet_pure _
  have h6 : Quiet (playFeynmanBoard h games) := by
    unfold playFeynmanBoard
    refine quiet_bind (quiet_lift _) fun _ => ?_
    split
    · exact quiet_bind (quiet_ask _ _) fun _ => quiet_pure _
    · exact quiet_pure _
  unfold playGames
  exact quiet_bind h1 fun _ => quiet_bind h2 fun _ => quiet_bind h3 fun _ =>
    quiet_bind h4 fun _ => quiet_bind h5 fun _ => quiet_bind h6 fun _ => quiet_pure _


theorem callsOnly_of_quiet {W : Type} {α : Type} {ctx : JsVal} {m : Js W α} (hm : Quiet m) :
    CallsOnly ctx m := fun s => ⟨[], by simp [(hm s).2], by simp⟩

theorem callsOnly_bind {W : Type} {α β : Type} {ctx : JsVal} {m : Js W α} {f : α → Js W β}
    (hm : CallsOnly ctx m) (hf : ∀ a, CallsOnly ctx (f a)) : CallsOnly ctx (m >>= f) := by
  intro s
  obtain ⟨a1, h1, h1'⟩ := hm s
  rw [bind_run]
  rcases hms : m s with ⟨r, s'⟩
  rw [hms] at h1
  cases r with
  | error e => exact ⟨a1, h1, h1'⟩
  | ok a =>
    obtain ⟨a2, h2, h2'⟩ := hf a s'
    refine ⟨a1 ++ a2, ?_, ?_⟩
    · simp only [h2]; simp only at h1; rw [h1, List.append_assoc]
    · intro c hc
      rcases List.mem_append.mp hc with hc | hc
      · exact h1' c hc
      · exact h2' c hc

theorem callLLM_calls {W : Type} (h : Host W) (agent : Agent) (systemPrompt : String)
    (userContent : JsVal) (jsonMode : Bool) (s : St W) :
    (callLLM h agent systemPrompt userContent jsonMode s).2.calls = s.calls := by
  rw [callLLM_state]

theorem generateTests_run {W : Type} (h : Host W) (agent : Agent) (lesson : JsVal) (s : St W) :
    generateTests h agent lesson s =
      callLLM h agent TEST_GENERATOR_PROMPT lesson true
        { s with calls := s.calls ++ [.generateTests lesson] } := rfl

theorem remediate_run {W : Type} (h : Host W) (agent : Agent) (lesson gaps : JsVal) (s : St W) :
    remediate h agent lesson gaps s =
      callLLM h agent REMEDIATOR_PROMPT
        (obj [("original_lesson", lesson), ("identified_gaps", gaps)]) false
        { s with calls := s.calls ++ [.remediate lesson gaps] } := rfl

theorem evaluate_run {W : Type} (h : Host W) (agent : Agent) (lesson userAnswers : JsVal)
    (s : St W) (hl : isNullish lesson = false) :
    evaluate h agent lesson userAnswers s =
      callLLM h agent EVALUATOR_PROMPT
        (obj [("mastery_criteria", getProp lesson "mastery_criteria"),
              ("user_answers", userAnswers)]) true
        { s with calls := s.calls ++ [.evaluate lesson userAnswers] } := by
  unfold evaluate
  simp [readProp, hl]

theorem evaluate_run_nullish {W : Type} (h : Host W) (agent : Agent) (lesson userAnswers : JsVal)
    (s : St W) (hl : isNullish lesson = true) :
    evaluate h agent lesson userAnswers s =
      (.error (cannotRead lesson "mastery_criteria"),
        { s with calls := s.calls ++ [.evaluate lesson userAnswers] }) := by
  unfold evaluate
  simp [readProp, hl]

theorem generateTests_calls {W : Type} (h : Host W) (agent : Agent) (lesson : JsVal) (s : St W) :
    (generateTests h agent lesson s).2.calls = s.calls ++ [.generateTests lesson] := by
  rw [generateTests_run, callLLM_calls]

theorem remediate_calls {W : Type} (h : Host W) (agent : Agent) (lesson gaps : JsVal) (s : St W) :
    (remediate h agent lesson gaps s).2.calls = s.calls ++ [.remediate lesson gaps] := by
  rw [remediate_run, callLLM_calls]

theorem evaluate_calls {W : Type} (h : Host W) (agent : Agent) (lesson userAnswers : JsVal)
    (s : St W) :
    (evaluate h agent lesson userAnswers s).2.calls = s.calls ++ [.evaluate lesson userAnswers] := by
  cases hl : isNullish lesson
  · rw [evaluate_run _ _ _ _ _ hl, callLLM_calls]
  · rw [evaluate_run_nullish _ _ _ _ _ hl]

theorem loopBody_callsOnly {W : Type} (h : Host W) (agent : Agent) (ctx : JsVal) :
    CallsOnly ctx (loopBody h agent ctx) := by
  unfold loopBody
  refine callsOnly_bind (fun s => ⟨_, generateTests_calls h agent ctx s, by simp [Call.lesson]⟩)
    fun games => ?_
  refine callsOnly_bind (callsOnly_of_quiet (playGames_quiet h games)) fun ua => ?_
  refine callsOnly_bind (fun s => ⟨_, evaluate_calls h agent ctx ua s, by simp [Call.lesson]⟩)
    fun result => ?_
  refine callsOnly_bind (callsOnly_of_quiet (quiet_lift _)) fun passed => ?_
  split
  · exact callsOnly_of_quiet (quiet_pure _)
  · refine callsOnly_bind
      (fun s => ⟨_, remediate_calls h agent ctx _ s, by simp [Call.lesson]⟩) fun _ => ?_
    exact callsOnly_of_quiet (quiet_bind (quiet_ask _ _) fun _ => quiet_pure _)

theorem masteryLoop_callsOnly {W : Type} (h : Host W) (agent : Agent) (ctx : JsVal) (fuel : Nat) :
    CallsOnly ctx (masteryLoop h agent ctx fuel) := by
  induction fuel with
  | zero => exact callsOnly_of_quiet (quiet_pure _)
  | succ n ih =>
    unfold masteryLoop
    refine callsOnly_bind (loopBody_callsOnly h agent ctx) fun mastered => ?_
    split
    · exact callsOnly_of_quiet (quiet_pure _)
    · exact ih

theorem runSimulation_callsOnly {W : Type} (h : Host W) (envKey : JsVal) (fuel : Nat) :
    CallsOnly MOCK_LESSON (runSimulation h envKey fuel) := by
  unfold runSimulation
  refine callsOnly_bind (callsOnly_of_quiet (quiet_lift _)) fun agent => ?_
  refine callsOnly_bind (callsOnly_of_quiet (quiet_ask _ _)) fun _ => ?_
  exact masteryLoop_callsOnly h agent MOCK_LESSON fuel



theorem loopBody_eq_round {W : Type} (h : Host W) (agent : Agent) (ctx : JsVal) :
    loopBody h agent ctx = roundVerdict h agent ctx >>= fun result =>
      lift (readProp result "passed") >>= fun passed =>
        if truthy passed then pure true
        else remediate h agent ctx (getProp result "gaps") >>= fun _ =>
          ask h "Press Enter when you are ready to try again..." >>= fun _ => pure false := by
  unfold loopBody roundVerdict
  simp only [bind_assoc_run]

theorem not_nullish_of_truthy_prop {v : JsVal} {k : String}
    (hv : truthy (getProp v k) = true) : isNullish v = false := by
  cases v <;> first | rfl | simp [getProp, truthy] at hv

theorem loopBody_of_pass {W : Type} (h : Host W) (agent : Agent) (ctx : JsVal)
    {s s1 : St W} {verdict : JsVal}
    (hround : roundVerdict h agent ctx s = (.ok verdict, s1))
    (hpassed : truthy (getProp verdict "passed") = true) :
    loopBody h agent ctx s = (.ok true, s1) := by
  rw [loopBody_eq_round, bind_ok hround]
  simp [readProp, not_nullish_of_truthy_prop hpassed, hpassed]

theorem loopBody_of_fail {W : Type} (h : Host W) (agent : Agent) (ctx : JsVal)
    {s s1 : St W} {verdict : JsVal}
    (hround : roundVerdict h agent ctx s = (.ok verdict, s1))
    (hobj : isNullish verdict = false)
    (hpassed : truthy (getProp verdict "passed") = false) :
    loopBody h agent ctx s =
      (remediate h agent ctx (getProp verdict "gaps") >>= fun _ =>
        ask h "Press Enter when you are ready to try again..." >>= fun _ => pure false) s1 := by
  rw [loopBody_eq_round, bind_ok hround]
  simp [readProp, hobj, hpassed]

theorem roundVerdict_calls {W : Type} (h : Host W) (agent : Agent) (ctx : JsVal)
    {s s1 : St W} {verdict : JsVal}
    (hround : roundVerdict h agent ctx s = (.ok verdict, s1)) :
    ∃ userAnswers, s1.calls = s.calls ++ [.generateTests ctx, .evaluate ctx userAnswers] := by
  unfold roundVerdict at hround
  rw [bind_run] at hround
  have hg := generateTests_calls h agent ctx s
  rcases hgs : generateTests h agent ctx s with ⟨r, sa⟩
  rw [hgs] at hround hg
  cases r with
  | error e => simp at hround
  | ok games =>
    simp only at hround hg
    rw [bind_run] at hround
    have hp := (playGames_quiet h games sa).2
    rcases hps : playGames h games sa with ⟨r, sb⟩
    rw [hps] at hround hp
    cases r with
    | error e => simp at hround
    | ok ua =>
      simp only at hround hp
      have he := evaluate_calls h agent ctx ua sb
      rw [hround] at he
      refine ⟨ua, ?_⟩
      simp only at he
      rw [he, hp, hg, List.append_assoc]
      rfl

/-- An iteration with a failing verdict leaves `mastered` false. -/
theorem loopBody_of_failedRound {W : Type} (h : Host W) (agent : Agent) (ctx : JsVal)
    {s s' : St W} (hround : failedRound h agent ctx s = some s') :
    loopBody h agent ctx s = (.ok false, s') := by
  unfold failedRound at hround
  rcases hv : roundVerdict h agent ctx s with ⟨r, s1⟩
  rw [hv] at hround
  cases r with
  | error e => simp at hround
  | ok verdict =>
    simp only at hround
    split at hround
    · cases hround
    · rename_i hcond
      simp only [Bool.or_eq_true, not_or, Bool.not_eq_true] at hcond
      rw [loopBody_of_fail h agent ctx hv hcond.1 hcond.2, bind_run]
      rcases hr : remediate h agent ctx (getProp verdict "gaps") s1 with ⟨r2, s2⟩
      rw [hr] at hround
      cases r2 with
      | error e => simp at hround
      | ok text =>
        simp only [Option.some.injEq] at hround
        subst hround
        rfl

/-- After `n` failed iterations the loop goes on from the state reached. -/
theorem masteryLoop_of_failedRounds {W : Type} (h : Host W) (agent : Agent) (ctx : JsVal)
    (n k : Nat) (s sn : St W) (hfailed : afterFailedRounds h agent ctx n s = some sn) :
    masteryLoop h agent ctx (n + k) s = masteryLoop h agent ctx k sn := by
  induction n generalizing s with
  | zero =>
    simp only [afterFailedRounds, Option.some.injEq] at hfailed
    subst hfailed
    simp
  | succ n ih =>
    have hnk : n + 1 + k = (n + k) + 1 := by omega
    rw [hnk]
    unfold afterFailedRounds at hfailed
    cases hr : failedRound h agent ctx s with
    | none => rw [hr] at hfailed; cases hfailed
    | some s' =>
      rw [hr] at hfailed
      simp only at hfailed
      rw [masteryLoop, bind_ok (loopBody_of_failedRound h agent ctx hr)]
      simpa using ih s' hfailed

/-- If `n` iterations fail in a row, so do the first `m ≤ n` of them. -/
theorem afterFailedRounds_prefix {W : Type} (h : Host W) (agent : Agent) (ctx : JsVal)
    (m n : Nat) (s sn : St W) (hle : m ≤ n)
    (hfailed : afterFailedRounds h agent ctx n s = some sn) :
    ∃ sm, afterFailedRounds h agent ctx m s = some sm := by
  induction m generalizing s n with
  | zero => exact ⟨s, rfl⟩
  | succ m ih =>
    obtain ⟨n, rfl⟩ : ∃ n', n = n' + 1 := ⟨n - 1, by omega⟩
    unfold afterFailedRounds at hfailed ⊢
    cases hr : failedRound h agent ctx s with
    | none => rw [hr] at hfailed; cases hfailed
    | some s' =>
      rw [hr] at hfailed
      exact ih n s' (by omega) hfailed

/-- The sample `JSON.parse` throws `SyntaxError`s only. -/
theorem sampleParse_error_name (c : JsVal) (e : JsError) (he : sampleParse c = .error e) :
    e.name = "SyntaxError" := by
  unfold sampleParse at he
  repeat' split at he
  all_goals first
    | (cases he; rfl)
    | cases he


/-! ## The claims -/

/-! ### C1: the verdict invariant -/

/-- C1, counterexample.  The service answers an `evaluate` request with the
document `passed: true, gaps: ["chloroplasts"]`; `evaluate` returns this
verdict, in which `passed` is true although `gaps` is not empty. -/
theorem evaluate_returns_passed_with_gaps :
    (evaluate scriptedHost sampleAgent MOCK_LESSON badAnswers
        (initial [.ok (completion passedWithGapsText)] [])).1 =
      .ok (obj [("passed", bool true), ("gaps", arr [str "chloroplasts"])]) ∧
    ¬ verdictInvariant (obj [("passed", bool true), ("gaps", arr [str "chloroplasts"])]) :=
  ⟨rfl, by decide⟩

/-- C1, as amended.  A verdict that `evaluate` returns is exactly the document
that `JSON.parse` makes of the message content of the service's successful
answer to the one request `evaluate` sent; nothing is checked or changed on the
way, so the verdict satisfies `passed` ⇔ `gaps` empty exactly when the
service's document does. -/
theorem evaluate_returns_service_document {W : Type} (h : Host W) (agent : Agent)
    (lesson userAnswers : JsVal) (s : St W) (verdict : JsVal)
    (hret : (evaluate h agent lesson userAnswers s).1 = .ok verdict) :
    ∃ c, AnswersWith h (evaluateRequest h agent lesson userAnswers) s.world c ∧
      h.jsonParse c = .ok verdict ∧
      (verdictInvariant verdict ↔ ∀ doc, h.jsonParse c = .ok doc → verdictInvariant doc) := by
  cases hl : isNullish lesson with
  | true => rw [evaluate_run_nullish h agent lesson userAnswers s hl] at hret; cases hret
  | false =>
    rw [evaluate_run h agent lesson userAnswers s hl] at hret
    obtain ⟨c, hc, hparse⟩ := callLLM_ok_inv h agent _ _ true _ verdict hret
    simp only [if_true] at hparse
    refine ⟨c, hc, hparse, fun hv doc hdoc => ?_, fun hall => hall verdict hparse⟩
    rw [hparse] at hdoc
    cases hdoc
    exact hv

/-- C1, witness of the amended statement: a passing verdict without gaps. -/
theorem evaluate_returns_service_document_witness :
    (evaluate scriptedHost sampleAgent MOCK_LESSON badAnswers
        (initial [.ok (completion passedText)] [])).1 = .ok passedVerdict ∧
    ∃ c, AnswersWith scriptedHost (evaluateRequest scriptedHost sampleAgent MOCK_LESSON badAnswers)
        (initial [.ok (completion passedText)] []).world c ∧
      scriptedHost.jsonParse c = .ok passedVerdict ∧
      (verdictInvariant passedVerdict ↔
        ∀ doc, scriptedHost.jsonParse c = .ok doc → verdictInvariant doc) :=
  ⟨rfl, evaluate_returns_service_document scriptedHost sampleAgent MOCK_LESSON badAnswers
    (initial [.ok (completion passedText)] []) passedVerdict rfl⟩

/-! ### C2: a verdict that violates the invariant -/

/-- C2, counterexample.  The service answers with the document
`passed: false, gaps: []`, which violates the invariant; `evaluate` does not
fail, it returns the document. -/
theorem evaluate_returns_failed_without_gaps :
    ¬ verdictInvariant (obj [("passed", bool false), ("gaps", arr [])]) ∧
    (evaluate scriptedHost sampleAgent MOCK_LESSON badAnswers
        (initial [.ok (completion failedWithoutGapsText)] [])).1 =
      .ok (obj [("passed", bool false), ("gaps", arr [])]) :=
  ⟨by decide, rfl⟩

/-- C2, as amended.  If the service answers an `evaluate` request with a
document that violates the `passed`/`gaps` invariant, `evaluate` returns that
very document: it neither fails nor repairs it. -/
theorem evaluate_passes_invalid_verdict_through {W : Type} (h : Host W) (agent : Agent)
    (lesson userAnswers : JsVal) (s : St W) (c doc : JsVal)
    (hlesson : isNullish lesson = false)
    (hanswer : AnswersWith h (evaluateRequest h agent lesson userAnswers) s.world c)
    (hdoc : h.jsonParse c = .ok doc)
    (_hviolates : ¬ verdictInvariant doc) :
    (evaluate h agent lesson userAnswers s).1 = .ok doc := by
  rw [evaluate_run h agent lesson userAnswers s hlesson]
  have := callLLM_answer h agent EVALUATOR_PROMPT _ true
    { s with calls := s.calls ++ [.evaluate lesson userAnswers] } c hanswer
  rw [this, if_pos rfl, hdoc]

/-- C2, witness of the amended statement: `passed: true` with a gap listed. -/
theorem evaluate_passes_invalid_verdict_through_witness :
    ¬ verdictInvariant (obj [("passed", bool true), ("gaps", arr [str "chloroplasts"])]) ∧
    (evaluate scriptedHost sampleAgent MOCK_LESSON noAnswers
        (initial [.ok (completion passedWithGapsText)] [])).1 =
      .ok (obj [("passed", bool true), ("gaps", arr [str "chloroplasts"])]) :=
  ⟨by decide,
   evaluate_passes_invalid_verdict_through scriptedHost sampleAgent MOCK_LESSON noAnswers
    (initial [.ok (completion passedWithGapsText)] []) (str passedWithGapsText)
    (obj [("passed", bool true), ("gaps", arr [str "chloroplasts"])]) rfl
    ⟨completion passedWithGapsText, completionData passedWithGapsText, rfl, rfl, rfl, rfl⟩
    rfl (by decide)⟩

/-! ### C3: a battery without the mandatory games -/

/-- C3, counterexample.  The service answers a `generateTests` request with a
document that has neither `QuizMaster` nor `FeynmanBoard`; `generateTests` does
not fail, it returns the document. -/
theorem generateTests_returns_incomplete_battery :
    (generateTests scriptedHost sampleAgent MOCK_LESSON
        (initial [.ok (completion cardsOnlyText)] [])).1 =
      .ok (obj [("FlashCardHero", obj [("cards", arr [])])]) ∧
    getProp (obj [("FlashCardHero", obj [("cards", arr [])])]) "QuizMaster" = undefined ∧
    getProp (obj [("FlashCardHero", obj [("cards", arr [])])]) "FeynmanBoard" = undefined :=
  ⟨rfl, rfl, rfl⟩

/-- C3, as amended.  `generateTests` returns the service's document as it is:
it does not fail on a document that lacks `QuizMaster` or `FeynmanBoard`, and
it fills in no default, so a missing game stays missing.  The check for the
two mandatory games is made by its caller `dryRun`, which then fails with the
plain `Error` "Missing required games in output", having called no other agent
method. -/
theorem incomplete_battery_rejected_by_dryRun_only {W : Type} (h : Host W) (envKey : JsVal)
    (agent : Agent) (s : St W) (c games : JsVal)
    (hkey : Agent.new undefined envKey = .ok agent)
    (hanswer : AnswersWith h (generateTestsRequest h agent MOCK_LESSON) s.world c)
    (hdoc : h.jsonParse c = .ok games)
    (hobject : isNullish games = false)
    (hmissing : truthy (getProp games "QuizMaster") = false ∨
      truthy (getProp games "FeynmanBoard") = false) :
    (generateTests h agent MOCK_LESSON s).1 = .ok games ∧
    (dryRun h envKey s).1 = .error missingRequiredGames ∧
    missingRequiredGames.name = "Error" ∧
    (dryRun h envKey s).2.calls = s.calls ++ [.generateTests MOCK_LESSON] := by
  have hres : (generateTests h agent MOCK_LESSON s).1 = .ok games := by
    rw [generateTests_run]
    have := callLLM_answer h agent TEST_GENERATOR_PROMPT MOCK_LESSON true
      { s with calls := s.calls ++ [.generateTests MOCK_LESSON] } c hanswer
    rw [this, if_pos rfl, hdoc]
  have hcalls := generateTests_calls h agent MOCK_LESSON s
  refine ⟨hres, ?_, rfl, ?_⟩
  all_goals
    unfold dryRun
    rw [hkey]
    rcases hg : generateTests h agent MOCK_LESSON s with ⟨r, s1⟩
    rw [hg] at hres hcalls
    simp only at hres hcalls
    subst hres
    simp [bind_ok hg, hobject, hmissing, hcalls]

/-- C3, witness of the amended statement: a battery with only flash cards. -/
theorem incomplete_battery_rejected_by_dryRun_only_witness :
    (generateTests scriptedHost sampleAgent MOCK_LESSON
        (initial [.ok (completion cardsOnlyText)] [])).1 =
      .ok (obj [("FlashCardHero", obj [("cards", arr [])])]) ∧
    (dryRun scriptedHost (str "sk-test") (initial [.ok (completion cardsOnlyText)] [])).1 =
      .error missingRequiredGames ∧
    missingRequiredGames.name = "Error" ∧
    (dryRun scriptedHost (str "sk-test") (initial [.ok (completion cardsOnlyText)] [])).2.calls =
      (initial [.ok (completion cardsOnlyText)] []).calls ++ [.generateTests MOCK_LESSON] :=
  incomplete_battery_rejected_by_dryRun_only scriptedHost (str "sk-test") sampleAgent
    (initial [.ok (completion cardsOnlyText)] []) (str cardsOnlyText)
    (obj [("FlashCardHero", obj [("cards", arr [])])]) rfl
    ⟨completion cardsOnlyText, completionData cardsOnlyText, rfl, rfl, rfl, rfl⟩
    rfl rfl (Or.inl rfl)

/-! ### C4: the lesson handed to the next battery -/

/-- C4, counterexample.  A session of two iterations, whose loop starts in
`sampleStart`: the first verdict fails (it is returned in `sampleEvaluated`),
`remediate` then returns `sampleRemediation`, and the fourth agent call, the
`generateTests` of the second iteration, is given `MOCK_LESSON` again, whose
`content_text` does not contain the remediation text. -/
theorem second_battery_built_from_unchanged_lesson :
    runSimulation scriptedHost (str "sk-test") 2 (initial sampleReplies ["", ""]) =
      masteryLoop scriptedHost sampleAgent MOCK_LESSON 2 sampleStart ∧
    roundVerdict scriptedHost sampleAgent MOCK_LESSON sampleStart =
      (.ok failedVerdict, sampleEvaluated) ∧
    (remediate scriptedHost sampleAgent MOCK_LESSON (getProp failedVerdict "gaps")
        sampleEvaluated).1 = .ok (str sampleRemediation) ∧
    (runSimulation scriptedHost (str "sk-test") 2 (initial sampleReplies ["", ""])).2.calls =
      [.generateTests MOCK_LESSON, .evaluate MOCK_LESSON noAnswers,
       .remediate MOCK_LESSON (arr [str "chloroplasts"]),
       .generateTests MOCK_LESSON, .evaluate MOCK_LESSON noAnswers] ∧
    containsText (contentText MOCK_LESSON) sampleRemediation = false :=
  ⟨rfl, rfl, rfl, rfl, by decide⟩

/-- C4, as amended.  In the mastery loop the lesson context is never changed:
every `generateTests`, `evaluate` and `remediate` call of a run of
`runSimulation`, in every iteration, is given the original `MOCK_LESSON` (so
the lesson of iteration k+1 still contains the original `content_text`); the
remediation text is shown to the learner and not added to the lesson. -/
theorem every_call_gets_original_lesson {W : Type} (h : Host W) (envKey : JsVal) (fuel : Nat)
    (s : St W) :
    ∃ added, (runSimulation h envKey fuel s).2.calls = s.calls ++ added ∧
      ∀ c ∈ added, Call.lesson c = MOCK_LESSON :=
  runSimulation_callsOnly h envKey fuel s

/-! ### C5: the loop stops at the first passing verdict -/

/-- C5.  Let the verdicts of the first `n` iterations of the loop not pass
(each is followed by its remediation), and let the verdict of the next
iteration have a true `passed`.  Then the loop, given
room for at least `n + 1` iterations, ends with `mastered = true` in the very
state in which that verdict was returned: after it no agent method is called,
no request is sent and no question is asked.  With room for `n` iterations or
fewer it has not ended.  The last iteration called `generateTests` and
`evaluate` and nothing else, so `remediate` was not called in it. -/
theorem loop_stops_at_first_pass {W : Type} (h : Host W) (agent : Agent) (ctx : JsVal)
    (n : Nat) (s sn s' : St W) (verdict : JsVal)
    (hfailed : afterFailedRounds h agent ctx n s = some sn)
    (hround : roundVerdict h agent ctx sn = (.ok verdict, s'))
    (hpassed : truthy (getProp verdict "passed") = true) :
    (∀ extra, masteryLoop h agent ctx (n + (extra + 1)) s = (.ok true, s')) ∧
    (∀ fuel, fuel ≤ n → (masteryLoop h agent ctx fuel s).1 = .ok false) ∧
    ∃ userAnswers, s'.calls = sn.calls ++ [.generateTests ctx, .evaluate ctx userAnswers] := by
  refine ⟨fun extra => ?_, ?_, roundVerdict_calls h agent ctx hround⟩
  · rw [masteryLoop_of_failedRounds h agent ctx n (extra + 1) s sn hfailed, masteryLoop,
      bind_ok (loopBody_of_pass h agent ctx hround hpassed)]
    rfl
  · intro fuel hle
    obtain ⟨sm, hsm⟩ := afterFailedRounds_prefix h agent ctx fuel n s sn hle hfailed
    have := masteryLoop_of_failedRounds h agent ctx fuel 0 s sm hsm
    rw [Nat.add_zero] at this
    rw [this]
    rfl

/-- C5, witness: one failing iteration, then a passing verdict. -/
theorem loop_stops_at_first_pass_witness :
    afterFailedRounds scriptedHost sampleAgent MOCK_LESSON 1 sampleStart = some sampleMid ∧
    roundVerdict scriptedHost sampleAgent MOCK_LESSON sampleMid = (.ok passedVerdict, sampleFinish) ∧
    truthy (getProp passedVerdict "passed") = true ∧
    (∀ extra, masteryLoop scriptedHost sampleAgent MOCK_LESSON (1 + (extra + 1)) sampleStart =
      (.ok true, sampleFinish)) ∧
    (∀ fuel, fuel ≤ 1 →
      (masteryLoop scriptedHost sampleAgent MOCK_LESSON fuel sampleStart).1 = .ok false) ∧
    ∃ userAnswers, sampleFinish.calls =
      sampleMid.calls ++ [.generateTests MOCK_LESSON, .evaluate MOCK_LESSON userAnswers] :=
  ⟨rfl, rfl, rfl,
   loop_stops_at_first_pass scriptedHost sampleAgent MOCK_LESSON 1 sampleStart sampleMid
    sampleFinish passedVerdict rfl rfl rfl⟩

/-! ### C6: remediation of a failed iteration -/

/-- C6.  In an iteration of the loop body, started in any state `s`, whose
verdict has a false `passed`: after the evaluation exactly one more agent call
is made, and it is `remediate` with the lesson context and with `verdict.gaps`,
the gaps of this iteration's verdict and nothing else. -/
theorem failed_round_remediates_once {W : Type} (h : Host W) (agent : Agent) (ctx : JsVal)
    (s s1 : St W) (verdict : JsVal)
    (hround : roundVerdict h agent ctx s = (.ok verdict, s1))
    (hobject : isNullish verdict = false)
    (hfailed : truthy (getProp verdict "passed") = false) :
    (loopBody h agent ctx s).2.calls = s1.calls ++ [.remediate ctx (getProp verdict "gaps")] ∧
    ∃ userAnswers, s1.calls = s.calls ++ [.generateTests ctx, .evaluate ctx userAnswers] := by
  refine ⟨?_, roundVerdict_calls h agent ctx hround⟩
  rw [loopBody_of_fail h agent ctx hround hobject hfailed, bind_run]
  have hr := remediate_calls h agent ctx (getProp verdict "gaps") s1
  rcases hrs : remediate h agent ctx (getProp verdict "gaps") s1 with ⟨r, s2⟩
  rw [hrs] at hr
  cases r with
  | error e => exact hr
  | ok text => simpa using hr

/-- C6, witness: the second iteration of a session whose first two verdicts
fail with different gaps; `remediate` receives the second verdict's gaps
only. -/
theorem failed_round_remediates_once_witness :
    roundVerdict scriptedHost sampleAgent MOCK_LESSON twiceFailedMid =
      (.ok secondFailedVerdict, twiceFailedEvaluated) ∧
    (loopBody scriptedHost sampleAgent MOCK_LESSON twiceFailedMid).2.calls =
      twiceFailedEvaluated.calls ++ [.remediate MOCK_LESSON (arr [str "sunlight"])] ∧
    ∃ userAnswers, twiceFailedEvaluated.calls =
      twiceFailedMid.calls ++ [.generateTests MOCK_LESSON, .evaluate MOCK_LESSON userAnswers] :=
  ⟨rfl,
   failed_round_remediates_once scriptedHost sampleAgent MOCK_LESSON twiceFailedMid
    twiceFailedEvaluated secondFailedVerdict rfl rfl rfl⟩

/-! ### C7: `remediate` with an empty gap list -/

/-- C7, counterexample.  `remediate` called with the empty gap list does not
fail: it sends one request and returns the service's text. -/
theorem remediate_accepts_empty_gaps :
    (remediate scriptedHost sampleAgent MOCK_LESSON (arr [])
        (initial [.ok (completion sampleRemediation)] [])).1 = .ok (str sampleRemediation) ∧
    (remediate scriptedHost sampleAgent MOCK_LESSON (arr [])
        (initial [.ok (completion sampleRemediation)] [])).2.sent.length = 1 :=
  ⟨rfl, rfl⟩

/-- C7, as amended.  `remediate` makes no precondition check on `gaps`: called
with the empty gap list it sends exactly one request to the generation
service, the one whose payload carries `identified_gaps: []`, and its outcome is
the outcome of that service call: the service's text when the call succeeds,
the call's error when it fails. -/
theorem remediate_empty_gaps_calls_service {W : Type} (h : Host W) (agent : Agent)
    (lesson : JsVal) (s : St W) :
    (remediate h agent lesson (arr []) s).2.sent =
      s.sent ++ [remediateRequest h agent lesson (arr [])] ∧
    (∀ c, AnswersWith h (remediateRequest h agent lesson (arr [])) s.world c →
      (remediate h agent lesson (arr []) s).1 = .ok c) ∧
    (∀ e, ServiceFails h (remediateRequest h agent lesson (arr [])) false s.world e →
      (remediate h agent lesson (arr []) s).1 = .error e) := by
  rw [remediate_run]
  refine ⟨by rw [callLLM_state]; rfl, fun c hc => ?_, fun e he => ?_⟩
  · have := callLLM_answer h agent REMEDIATOR_PROMPT _ false
      { s with calls := s.calls ++ [.remediate lesson (arr [])] } c hc
    simpa using this
  · exact callLLM_failure h agent REMEDIATOR_PROMPT _ false
      { s with calls := s.calls ++ [.remediate lesson (arr [])] } e he

/-- C7, witness of the amended statement. -/
theorem remediate_empty_gaps_calls_service_witness :
    (remediate scriptedHost sampleAgent MOCK_LESSON (arr [])
        (initial [.ok (completion "Nothing to repeat.")] [])).2.sent =
      [remediateRequest scriptedHost sampleAgent MOCK_LESSON (arr [])] ∧
    (remediate scriptedHost sampleAgent MOCK_LESSON (arr [])
        (initial [.ok (completion "Nothing to repeat.")] [])).1 = .ok (str "Nothing to repeat.") :=
  ⟨(remediate_empty_gaps_calls_service scriptedHost sampleAgent MOCK_LESSON
      (initial [.ok (completion "Nothing to repeat.")] [])).1,
   (remediate_empty_gaps_calls_service scriptedHost sampleAgent MOCK_LESSON
      (initial [.ok (completion "Nothing to repeat.")] [])).2.1 (str "Nothing to repeat.")
      ⟨completion "Nothing to repeat.", completionData "Nothing to repeat.", rfl, rfl, rfl, rfl⟩⟩


/-! ### C8: errors of the service call surface unchanged -/

/-- C8.  Let `call` be a call of `generateTests`, `evaluate` or `remediate`
that reaches `callLLM`, and let its service call fail with error `e`: by a
transport failure, a non-success status, or content that cannot be read.  Then
`callLLM` fails with `e`, and the method fails with the very same `e`; no
value is returned. -/
theorem service_error_surfaces_unchanged {W : Type} (h : Host W) (agent : Agent) (call : Call)
    (systemPrompt : String) (userContent : JsVal) (jsonMode : Bool) (s : St W) (e : JsError)
    (hargs : call.llmArgs = some (systemPrompt, userContent, jsonMode))
    (hfails : ServiceFails h (llmRequest h agent systemPrompt userContent jsonMode) jsonMode
      s.world e) :
    (callLLM h agent systemPrompt userContent jsonMode s).1 = .error e ∧
    (call.perform h agent s).1 = .error e := by
  refine ⟨callLLM_failure h agent systemPrompt userContent jsonMode s e hfails, ?_⟩
  cases call with
  | generateTests lesson =>
    simp only [Call.llmArgs, Option.some.injEq, Prod.mk.injEq] at hargs
    obtain ⟨rfl, rfl, rfl⟩ := hargs
    simp only [Call.perform, generateTests_run]
    exact callLLM_failure h agent _ _ _ _ e hfails
  | evaluate lesson userAnswers =>
    cases hl : isNullish lesson with
    | true => simp [Call.llmArgs, hl] at hargs
    | false =>
      simp only [Call.llmArgs, hl, Bool.false_eq_true, if_false, Option.some.injEq,
        Prod.mk.injEq] at hargs
      obtain ⟨rfl, rfl, rfl⟩ := hargs
      simp only [Call.perform, evaluate_run h agent lesson userAnswers s hl]
      exact callLLM_failure h agent _ _ _ _ e hfails
  | remediate lesson gaps =>
    simp only [Call.llmArgs, Option.some.injEq, Prod.mk.injEq] at hargs
    obtain ⟨rfl, rfl, rfl⟩ := hargs
    simp only [Call.perform, remediate_run]
    exact callLLM_failure h agent _ _ _ _ e hfails

/-- C8, witness: `evaluate` when the service answers with status 429. -/
theorem service_error_surfaces_unchanged_witness :
    ServiceFails scriptedHost (evaluateRequest scriptedHost sampleAgent MOCK_LESSON badAnswers)
      true (initial [.ok rateLimited] []).world (apiRequestFailed rateLimited "slow down") ∧
    (callLLM scriptedHost sampleAgent EVALUATOR_PROMPT
        (obj [("mastery_criteria", getProp MOCK_LESSON "mastery_criteria"),
              ("user_answers", badAnswers)]) true (initial [.ok rateLimited] [])).1 =
      .error (apiRequestFailed rateLimited "slow down") ∧
    (evaluate scriptedHost sampleAgent MOCK_LESSON badAnswers (initial [.ok rateLimited] [])).1 =
      .error (apiRequestFailed rateLimited "slow down") :=
  ⟨ServiceFails.status rateLimited "slow down" rfl rfl rfl,
   service_error_surfaces_unchanged scriptedHost sampleAgent (.evaluate MOCK_LESSON badAnswers)
    EVALUATOR_PROMPT _ true (initial [.ok rateLimited] [])
    (apiRequestFailed rateLimited "slow down") rfl
    (ServiceFails.status rateLimited "slow down" rfl rfl rfl)⟩

/-! ### C9: the kinds of error `callLLM` reports -/

/-- C9, counterexample.  A transport failure (`fetch` rejects with its
`TypeError`) and a successful response without `choices` (reading
`data.choices[0]` throws a `TypeError`) are reported by `callLLM` with errors of
the same kind. -/
theorem transport_and_malformed_share_kind :
    (callLLM scriptedHost sampleAgent TEST_GENERATOR_PROMPT MOCK_LESSON true
        (initial [.error fetchFailed] [])).1 = .error fetchFailed ∧
    (callLLM scriptedHost sampleAgent TEST_GENERATOR_PROMPT MOCK_LESSON true
        (initial [.ok noChoices] [])).1 = .error (cannotRead undefined "0") ∧
    fetchFailed.name = (cannotRead undefined "0").name :=
  ⟨rfl, rfl, rfl⟩

/-- C9, as amended.  `callLLM` reports a non-success HTTP status as a plain
`Error` (message `API request failed: ...`), a kind distinct from the kind it
reports when the service responded successfully but the content is malformed: a
`SyntaxError` for text that is not JSON, a `TypeError` for a missing
`choices`/`message` structure.  A caller can tell these two apart from the
error's name alone.  A transport failure has no kind of its own: `callLLM`
throws on whatever error `fetch` rejected with.  (`hparse` says that the
engine's `JSON.parse` throws `SyntaxError`s.) -/
theorem status_error_distinct_from_malformed {W : Type} (h : Host W) (agent : Agent)
    (systemPrompt : String) (userContent : JsVal) (jsonMode : Bool) (s₁ s₂ : St W)
    (hparse : ∀ c e, h.jsonParse c = .error e → e.name = "SyntaxError")
    (hstatus : NonSuccessStatus h (llmRequest h agent systemPrompt userContent jsonMode) s₁.world)
    (hmalformed : MalformedContent h (llmRequest h agent systemPrompt userContent jsonMode)
      jsonMode s₂.world) :
    (∃ e₁ e₂,
      (callLLM h agent systemPrompt userContent jsonMode s₁).1 = .error e₁ ∧
      (callLLM h agent systemPrompt userContent jsonMode s₂).1 = .error e₂ ∧
      e₁.name = "Error" ∧ (e₂.name = "SyntaxError" ∨ e₂.name = "TypeError") ∧
      e₁.name ≠ e₂.name) ∧
    (∀ (s : St W) (e : JsError),
      (h.fetch (llmRequest h agent systemPrompt userContent jsonMode) s.world).1 = .error e →
      (callLLM h agent systemPrompt userContent jsonMode s).1 = .error e) := by
  refine ⟨?_, fun s e he => callLLM_failure h agent _ _ _ s e (ServiceFails.transport e he)⟩
  obtain ⟨resp₁, errorText, hf₁, hok₁, ht₁⟩ := hstatus
  obtain ⟨resp₂, hf₂, hok₂, hcases⟩ := hmalformed
  have h₁ := callLLM_failure h agent systemPrompt userContent jsonMode s₁ _
    (ServiceFails.status resp₁ errorText hf₁ hok₁ ht₁)
  have key : ∀ e₂, (callLLM h agent systemPrompt userContent jsonMode s₂).1 = .error e₂ →
      (e₂.name = "SyntaxError" ∨ e₂.name = "TypeError") →
      ∃ e₁ e₂,
        (callLLM h agent systemPrompt userContent jsonMode s₁).1 = .error e₁ ∧
        (callLLM h agent systemPrompt userContent jsonMode s₂).1 = .error e₂ ∧
        e₁.name = "Error" ∧ (e₂.name = "SyntaxError" ∨ e₂.name = "TypeError") ∧
        e₁.name ≠ e₂.name := by
    intro e₂ h₂ hname
    refine ⟨_, e₂, h₁, h₂, rfl, hname, ?_⟩
    rcases hname with hn | hn <;> rw [hn] <;> simp [apiRequestFailed]
  rcases hcases with ⟨e, hj, hn⟩ | ⟨data, e, hj, hc⟩ | ⟨data, c, e, hj, hc, hm, hp⟩
  · exact key e (callLLM_failure h agent _ _ _ s₂ e (ServiceFails.body resp₂ e hf₂ hok₂ hj))
      (Or.inl hn)
  · exact key e (callLLM_failure h agent _ _ _ s₂ e (ServiceFails.shape resp₂ data e hf₂ hok₂ hj hc))
      (Or.inr (messageContent_error_name data e hc))
  · exact key e
      (callLLM_failure h agent _ _ _ s₂ e (ServiceFails.content resp₂ data c e hf₂ hok₂ hj hc hm hp))
      (Or.inl (hparse c e hp))

/-- C9, witness of the amended statement: status 429 against a response
without `choices`. -/
theorem status_error_distinct_from_malformed_witness :
    NonSuccessStatus scriptedHost
      (llmRequest scriptedHost sampleAgent TEST_GENERATOR_PROMPT MOCK_LESSON true)
      (initial [.ok rateLimited] []).world ∧
    MalformedContent scriptedHost
      (llmRequest scriptedHost sampleAgent TEST_GENERATOR_PROMPT MOCK_LESSON true) true
      (initial [.ok noChoices] []).world ∧
    ((∃ e₁ e₂,
      (callLLM scriptedHost sampleAgent TEST_GENERATOR_PROMPT MOCK_LESSON true
        (initial [.ok rateLimited] [])).1 = .error e₁ ∧
      (callLLM scriptedHost sampleAgent TEST_GENERATOR_PROMPT MOCK_LESSON true
        (initial [.ok noChoices] [])).1 = .error e₂ ∧
      e₁.name = "Error" ∧ (e₂.name = "SyntaxError" ∨ e₂.name = "TypeError") ∧
      e₁.name ≠ e₂.name) ∧
    (∀ (s : St Script) (e : JsError),
      (scriptedHost.fetch
        (llmRequest scriptedHost sampleAgent TEST_GENERATOR_PROMPT MOCK_LESSON true) s.world).1 =
        .error e →
      (callLLM scriptedHost sampleAgent TEST_GENERATOR_PROMPT MOCK_LESSON true s).1 = .error e)) :=
  ⟨⟨rateLimited, "slow down", rfl, rfl, rfl⟩,
   ⟨noChoices, rfl, rfl, Or.inr (Or.inl ⟨obj [], cannotRead undefined "0", rfl, rfl⟩)⟩,
   status_error_distinct_from_malformed scriptedHost sampleAgent TEST_GENERATOR_PROMPT
    MOCK_LESSON true (initial [.ok rateLimited] []) (initial [.ok noChoices] [])
    sampleParse_error_name
    ⟨rateLimited, "slow down", rfl, rfl, rfl⟩
    ⟨noChoices, rfl, rfl, Or.inr (Or.inl ⟨obj [], cannotRead undefined "0", rfl, rfl⟩)⟩⟩


/-! ### C10: what a successful call returns -/

/-- C10.  On a successful response with message content `c`, `callLLM` with
`jsonMode = true` returns what `JSON.parse` makes of `c` (and fails with its
error if `c` is not JSON), and with `jsonMode = false` it returns `c` itself.
Hence `generateTests` and `evaluate` return the parsed document as the service
sent it, and `remediate` returns the service's text verbatim. -/
theorem successful_content_returned {W : Type} (h : Host W) (agent : Agent)
    (systemPrompt : String) (userContent lesson userAnswers gaps : JsVal) (s : St W)
    (c : JsVal) :
    (AnswersWith h (llmRequest h agent systemPrompt userContent true) s.world c →
      (callLLM h agent systemPrompt userContent true s).1 = h.jsonParse c) ∧
    (AnswersWith h (llmRequest h agent systemPrompt userContent false) s.world c →
      (callLLM h agent systemPrompt userContent false s).1 = .ok c) ∧
    (AnswersWith h (generateTestsRequest h agent lesson) s.world c →
      (generateTests h agent lesson s).1 = h.jsonParse c) ∧
    (isNullish lesson = false →
      AnswersWith h (evaluateRequest h agent lesson userAnswers) s.world c →
      (evaluate h agent lesson userAnswers s).1 = h.jsonParse c) ∧
    (AnswersWith h (remediateRequest h agent lesson gaps) s.world c →
      (remediate h agent lesson gaps s).1 = .ok c) := by
  refine ⟨fun ha => ?_, fun ha => ?_, fun ha => ?_, fun hl ha => ?_, fun ha => ?_⟩
  · simpa using callLLM_answer h agent systemPrompt userContent true s c ha
  · simpa using callLLM_answer h agent systemPrompt userContent false s c ha
  · rw [generateTests_run]
    simpa using callLLM_answer h agent TEST_GENERATOR_PROMPT lesson true
      { s with calls := s.calls ++ [.generateTests lesson] } c ha
  · rw [evaluate_run h agent lesson userAnswers s hl]
    simpa using callLLM_answer h agent EVALUATOR_PROMPT _ true
      { s with calls := s.calls ++ [.evaluate lesson userAnswers] } c ha
  · rw [remediate_run]
    simpa using callLLM_answer h agent REMEDIATOR_PROMPT _ false
      { s with calls := s.calls ++ [.remediate lesson gaps] } c ha

/-- C10, witness: a battery returned by `generateTests`, a remediation text
returned by `remediate`. -/
theorem successful_content_returned_witness :
    (generateTests scriptedHost sampleAgent MOCK_LESSON
        (initial [.ok (completion cardsOnlyText)] [])).1 =
      scriptedHost.jsonParse (str cardsOnlyText) ∧
    (remediate scriptedHost sampleAgent MOCK_LESSON (arr [str "chloroplasts"])
        (initial [.ok (completion sampleRemediation)] [])).1 = .ok (str sampleRemediation) :=
  ⟨(successful_content_returned scriptedHost sampleAgent "" null MOCK_LESSON null null
      (initial [.ok (completion cardsOnlyText)] []) (str cardsOnlyText)).2.2.1
      ⟨completion cardsOnlyText, completionData cardsOnlyText, rfl, rfl, rfl, rfl⟩,
   (successful_content_returned scriptedHost sampleAgent "" null MOCK_LESSON null
      (arr [str "chloroplasts"]) (initial [.ok (completion sampleRemediation)] [])
      (str sampleRemediation)).2.2.2.2
      ⟨completion sampleRemediation, completionData sampleRemediation, rfl, rfl, rfl, rfl⟩⟩

/-! ## Facts for the later claims -/

/-- The value `callLLM` returns or the error it throws depends on the world
only through what `fetch` answers. -/
theorem callLLM_result_congr {W : Type} (h : Host W) (agent : Agent) (systemPrompt : String)
    (userContent : JsVal) (jsonMode : Bool) (s₁ s₂ : St W)
    (hsame : (h.fetch (llmRequest h agent systemPrompt userContent jsonMode) s₁.world).1 =
      (h.fetch (llmRequest h agent systemPrompt userContent jsonMode) s₂.world).1) :
    (callLLM h agent systemPrompt userContent jsonMode s₁).1 =
      (callLLM h agent systemPrompt userContent jsonMode s₂).1 := by
  rw [callLLM_eq_body]
  unfold callLLMBody doFetch
  simp only [bind_run]
  rcases hf₁ : h.fetch (llmRequest h agent systemPrompt userContent jsonMode) s₁.world
    with ⟨r₁, w₁⟩
  rcases hf₂ : h.fetch (llmRequest h agent systemPrompt userContent jsonMode) s₂.world
    with ⟨r₂, w₂⟩
  rw [hf₁, hf₂] at hsame
  simp only at hsame
  subst hsame
  cases r₁ with
  | error e => rfl
  | ok resp =>
    simp only
    cases hok : resp.ok
    · cases ht : resp.text <;> simp [bind_run, hok, ht]
    · cases hj : resp.json with
      | error e => simp [bind_run, hok, hj]
      | ok data =>
        cases hc : messageContent data with
        | error e => simp [bind_run, hok, hj, hc]
        | ok c => cases jsonMode <;> simp [bind_run, hok, hj, hc]

/-- The requests `generateTests` sends. -/
theorem generateTests_sent {W : Type} (h : Host W) (agent : Agent) (lesson : JsVal) (s : St W) :
    (generateTests h agent lesson s).2.sent = s.sent ++ [generateTestsRequest h agent lesson] := by
  rw [generateTests_run, callLLM_state]
  rfl

/-- The requests `remediate` sends. -/
theorem remediate_sent {W : Type} (h : Host W) (agent : Agent) (lesson gaps : JsVal) (s : St W) :
    (remediate h agent lesson gaps s).2.sent = s.sent ++ [remediateRequest h agent lesson gaps] := by
  rw [remediate_run, callLLM_state]
  rfl

/-- The requests `evaluate` sends, given a lesson. -/
theorem evaluate_sent {W : Type} (h : Host W) (agent : Agent) (lesson userAnswers : JsVal)
    (s : St W) (hl : isNullish lesson = false) :
    (evaluate h agent lesson userAnswers s).2.sent =
      s.sent ++ [evaluateRequest h agent lesson userAnswers] := by
  rw [evaluate_run h agent lesson userAnswers s hl, callLLM_state]
  rfl

/-! ### C11: one request per call -/

/-- C11.  Whatever the outcome of the call, `generateTests`, `evaluate` (given a
lesson context, that is a value other than `undefined` and `null`) and
`remediate` each hand exactly one request to `fetch`: the requests sent so far
grow by one entry, the request of the call, and by no second one. -/
theorem each_call_sends_one_request {W : Type} (h : Host W) (agent : Agent)
    (lesson userAnswers gaps : JsVal) (s : St W) :
    (generateTests h agent lesson s).2.sent = s.sent ++ [generateTestsRequest h agent lesson] ∧
    (isNullish lesson = false →
      (evaluate h agent lesson userAnswers s).2.sent =
        s.sent ++ [evaluateRequest h agent lesson userAnswers]) ∧
    (remediate h agent lesson gaps s).2.sent =
      s.sent ++ [remediateRequest h agent lesson gaps] :=
  ⟨generateTests_sent h agent lesson s, evaluate_sent h agent lesson userAnswers s,
    remediate_sent h agent lesson gaps s⟩

/-- C11, witness: requests that are refused with status 429 are sent once each
and not repeated, and so is a request that succeeds. -/
theorem each_call_sends_one_request_witness :
    (generateTests scriptedHost sampleAgent MOCK_LESSON (initial [.ok rateLimited] [])).1 =
      .error (apiRequestFailed rateLimited "slow down") ∧
    (generateTests scriptedHost sampleAgent MOCK_LESSON (initial [.ok rateLimited] [])).2.sent =
      [generateTestsRequest scriptedHost sampleAgent MOCK_LESSON] ∧
    (evaluate scriptedHost sampleAgent MOCK_LESSON badAnswers (initial [.ok rateLimited] [])).2.sent =
      [evaluateRequest scriptedHost sampleAgent MOCK_LESSON badAnswers] ∧
    (remediate scriptedHost sampleAgent MOCK_LESSON (arr [str "chloroplasts"])
        (initial [.ok (completion sampleRemediation)] [])).2.sent =
      [remediateRequest scriptedHost sampleAgent MOCK_LESSON (arr [str "chloroplasts"])] :=
  ⟨rfl,
   (each_call_sends_one_request scriptedHost sampleAgent MOCK_LESSON badAnswers
      (arr [str "chloroplasts"]) (initial [.ok rateLimited] [])).1,
   (each_call_sends_one_request scriptedHost sampleAgent MOCK_LESSON badAnswers
      (arr [str "chloroplasts"]) (initial [.ok rateLimited] [])).2.1 rfl,
   (each_call_sends_one_request scriptedHost sampleAgent MOCK_LESSON badAnswers
      (arr [str "chloroplasts"]) (initial [.ok (completion sampleRemediation)] [])).2.2⟩

/-! ### C12: what the `evaluate` request depends on -/

/-- C12.  For two lesson contexts with the same `mastery_criteria` and one
answer set, `evaluate` sends the same single request, whose user content is the
object with `mastery_criteria` and `user_answers` and nothing else.  The outcome
and the world reached are the same as well: the answers are not compared with
anything locally, the verdict is the service's. -/
theorem evaluate_request_depends_on_criteria_only {W : Type} (h : Host W) (agent : Agent)
    (lesson₁ lesson₂ userAnswers : JsVal) (s : St W)
    (hlesson₁ : isNullish lesson₁ = false) (hlesson₂ : isNullish lesson₂ = false)
    (hcriteria : getProp lesson₁ "mastery_criteria" = getProp lesson₂ "mastery_criteria") :
    (evaluate h agent lesson₁ userAnswers s).2.sent =
      s.sent ++ [llmRequest h agent EVALUATOR_PROMPT
        (obj [("mastery_criteria", getProp lesson₁ "mastery_criteria"),
              ("user_answers", userAnswers)]) true] ∧
    (evaluate h agent lesson₂ userAnswers s).2.sent =
      (evaluate h agent lesson₁ userAnswers s).2.sent ∧
    (evaluate h agent lesson₂ userAnswers s).1 = (evaluate h agent lesson₁ userAnswers s).1 ∧
    (evaluate h agent lesson₂ userAnswers s).2.world =
      (evaluate h agent lesson₁ userAnswers s).2.world := by
  refine ⟨evaluate_sent h agent lesson₁ userAnswers s hlesson₁, ?_, ?_, ?_⟩
  · rw [evaluate_sent h agent lesson₁ userAnswers s hlesson₁,
      evaluate_sent h agent lesson₂ userAnswers s hlesson₂]
    unfold evaluateRequest
    rw [hcriteria]
  · rw [evaluate_run h agent lesson₁ userAnswers s hlesson₁,
      evaluate_run h agent lesson₂ userAnswers s hlesson₂, hcriteria]
    exact callLLM_result_congr h agent _ _ _ _ _ rfl
  · rw [evaluate_run h agent lesson₁ userAnswers s hlesson₁,
      evaluate_run h agent lesson₂ userAnswers s hlesson₂, hcriteria]
    simp only [callLLM_state]


/-- C12, witness: `MOCK_LESSON` and a lesson with another title and text. -/
theorem evaluate_request_depends_on_criteria_only_witness :
    getProp MOCK_LESSON "mastery_criteria" = getProp otherLesson "mastery_criteria" ∧
    contentText MOCK_LESSON ≠ contentText otherLesson ∧
    (evaluate scriptedHost sampleAgent otherLesson badAnswers
        (initial [.ok (completion failedText)] [])).2.sent =
      (evaluate scriptedHost sampleAgent MOCK_LESSON badAnswers
        (initial [.ok (completion failedText)] [])).2.sent ∧
    (evaluate scriptedHost sampleAgent otherLesson badAnswers
        (initial [.ok (completion failedText)] [])).1 =
      (evaluate scriptedHost sampleAgent MOCK_LESSON badAnswers
        (initial [.ok (completion failedText)] [])).1 :=
  ⟨rfl, by decide,
   (evaluate_request_depends_on_criteria_only scriptedHost sampleAgent MOCK_LESSON otherLesson
      badAnswers (initial [.ok (completion failedText)] []) rfl rfl rfl).2.1,
   (evaluate_request_depends_on_criteria_only scriptedHost sampleAgent MOCK_LESSON otherLesson
      badAnswers (initial [.ok (completion failedText)] []) rfl rfl rfl).2.2.1⟩

/-! ### C13: the same answers graded twice -/

/-- C13.  With a deterministic generation service, `evaluate` called a second
time with the same lesson context and the same answer set, right after the
first call, has the same outcome as the first call: the same verdict, or the
same error. -/
theorem evaluate_twice_same_verdict {W : Type} (h : Host W) (agent : Agent)
    (lesson userAnswers : JsVal) (s : St W) (hdet : Deterministic h) :
    (evaluate h agent lesson userAnswers (evaluate h agent lesson userAnswers s).2).1 =
      (evaluate h agent lesson userAnswers s).1 := by
  cases hl : isNullish lesson with
  | true => simp only [evaluate_run_nullish h agent lesson userAnswers _ hl]
  | false =>
    simp only [evaluate_run h agent lesson userAnswers _ hl]
    exact callLLM_result_congr h agent _ _ _ _ _ (hdet _ _ _)

/-- C13, witness: a service that always answers with the same passing verdict;
the second call is made in another world, in which one request was received. -/
theorem evaluate_twice_same_verdict_witness :
    Deterministic steadyHost ∧
    (evaluate steadyHost sampleAgent MOCK_LESSON badAnswers ⟨0, [], []⟩).2.world = 1 ∧
    (evaluate steadyHost sampleAgent MOCK_LESSON badAnswers ⟨0, [], []⟩).1 = .ok passedVerdict ∧
    (evaluate steadyHost sampleAgent MOCK_LESSON badAnswers
        (evaluate steadyHost sampleAgent MOCK_LESSON badAnswers ⟨0, [], []⟩).2).1 =
      (evaluate steadyHost sampleAgent MOCK_LESSON badAnswers ⟨0, [], []⟩).1 :=
  ⟨fun _ _ _ => rfl, rfl, rfl,
   evaluate_twice_same_verdict steadyHost sampleAgent MOCK_LESSON badAnswers ⟨0, [], []⟩
    (fun _ _ _ => rfl)⟩

/-! ### C14: a failed call can be repeated -/

/-- C14.  A call of `generateTests`, `evaluate` or `remediate` works on the
agent's fields and on its arguments as values and changes none of them: the
request it sends is `llmRequest` of the agent and the arguments, whatever the
state.  So when the call fails, the same call repeated in the state then
reached sends the same request again. -/
theorem failed_call_repeats_same_request {W : Type} (h : Host W) (agent : Agent) (call : Call)
    (systemPrompt : String) (userContent : JsVal) (jsonMode : Bool) (s : St W) (e : JsError)
    (hargs : call.llmArgs = some (systemPrompt, userContent, jsonMode))
    (_hfails : (call.perform h agent s).1 = .error e) :
    (call.perform h agent s).2.sent =
      s.sent ++ [llmRequest h agent systemPrompt userContent jsonMode] ∧
    (call.perform h agent (call.perform h agent s).2).2.sent =
      (call.perform h agent s).2.sent ++ [llmRequest h agent systemPrompt userContent jsonMode] := by
  have key : ∀ s' : St W, (call.perform h agent s').2.sent =
      s'.sent ++ [llmRequest h agent systemPrompt userContent jsonMode] := by
    intro s'
    cases call with
    | generateTests lesson =>
      simp only [Call.llmArgs, Option.some.injEq, Prod.mk.injEq] at hargs
      obtain ⟨rfl, rfl, rfl⟩ := hargs
      exact generateTests_sent h agent lesson s'
    | evaluate lesson userAnswers =>
      cases hl : isNullish lesson with
      | true => simp [Call.llmArgs, hl] at hargs
      | false =>
        simp only [Call.llmArgs, hl, Bool.false_eq_true, if_false, Option.some.injEq,
          Prod.mk.injEq] at hargs
        obtain ⟨rfl, rfl, rfl⟩ := hargs
        exact evaluate_sent h agent lesson userAnswers s' hl
    | remediate lesson gaps =>
      simp only [Call.llmArgs, Option.some.injEq, Prod.mk.injEq] at hargs
      obtain ⟨rfl, rfl, rfl⟩ := hargs
      exact remediate_sent h agent lesson gaps s'
  exact ⟨key s, key _⟩

/-- C14, witness: `generateTests` refused with status 429, then repeated. -/
theorem failed_call_repeats_same_request_witness :
    (generateTests scriptedHost sampleAgent MOCK_LESSON
        (initial [.ok rateLimited, .ok (completion cardsOnlyText)] [])).1 =
      .error (apiRequestFailed rateLimited "slow down") ∧
    (generateTests scriptedHost sampleAgent MOCK_LESSON
        (initial [.ok rateLimited, .ok (completion cardsOnlyText)] [])).2.sent =
      [generateTestsRequest scriptedHost sampleAgent MOCK_LESSON] ∧
    (generateTests scriptedHost sampleAgent MOCK_LESSON
        (generateTests scriptedHost sampleAgent MOCK_LESSON
          (initial [.ok rateLimited, .ok (completion cardsOnlyText)] [])).2).2.sent =
      [generateTestsRequest scriptedHost sampleAgent MOCK_LESSON,
       generateTestsRequest scriptedHost sampleAgent MOCK_LESSON] :=
  ⟨rfl,
   failed_call_repeats_same_request scriptedHost sampleAgent (.generateTests MOCK_LESSON)
    TEST_GENERATOR_PROMPT MOCK_LESSON true
    (initial [.ok rateLimited, .ok (completion cardsOnlyText)] [])
    (apiRequestFailed rateLimited "slow down") rfl rfl⟩

/-- An iteration with a failing verdict makes three agent calls: the battery,
the evaluation, the remediation. -/
theorem failedRound_calls {W : Type} (h : Host W) (agent : Agent) (ctx : JsVal)
    {s s' : St W} (hround : failedRound h agent ctx s = some s') :
    ∃ userAnswers gaps, s'.calls =
      s.calls ++ [.generateTests ctx, .evaluate ctx userAnswers, .remediate ctx gaps] := by
  unfold failedRound at hround
  rcases hv : roundVerdict h agent ctx s with ⟨r, s1⟩
  rw [hv] at hround
  cases r with
  | error e => simp at hround
  | ok verdict =>
    simp only at hround
    split at hround
    · cases hround
    · obtain ⟨ua, hua⟩ := roundVerdict_calls h agent ctx hv
      have hr := remediate_calls h agent ctx (getProp verdict "gaps") s1
      rcases hrs : remediate h agent ctx (getProp verdict "gaps") s1 with ⟨r2, s2⟩
      rw [hrs] at hround hr
      cases r2 with
      | error e => simp at hround
      | ok text =>
        simp only [Option.some.injEq] at hround
        subst hround
        refine ⟨ua, getProp verdict "gaps", ?_⟩
        simp only at hr ⊢
        rw [hr, hua]
        simp

/-- Counting the batteries built in two records of calls, one after the other. -/
theorem countBuilds_append (xs ys : List Call) :
    countBuilds (xs ++ ys) = countBuilds xs + countBuilds ys := by
  induction xs with
  | nil => simp [countBuilds]
  | cons c rest ih =>
    cases c with
    | generateTests lesson =>
      show countBuilds (rest ++ ys) + 1 = countBuilds rest + 1 + countBuilds ys
      rw [ih]
      omega
    | evaluate lesson userAnswers => exact ih
    | remediate lesson gaps => exact ih

/-- After `n` failed iterations, `n` more batteries have been built. -/
theorem afterFailedRounds_builds {W : Type} (h : Host W) (agent : Agent) (ctx : JsVal)
    (n : Nat) (s sn : St W) (hfailed : afterFailedRounds h agent ctx n s = some sn) :
    countBuilds sn.calls = countBuilds s.calls + n := by
  induction n generalizing s with
  | zero =>
    simp only [afterFailedRounds, Option.some.injEq] at hfailed
    subst hfailed
    rfl
  | succ n ih =>
    unfold afterFailedRounds at hfailed
    cases hr : failedRound h agent ctx s with
    | none => rw [hr] at hfailed; cases hfailed
    | some s' =>
      rw [hr] at hfailed
      simp only at hfailed
      obtain ⟨ua, gaps, hcalls⟩ := failedRound_calls h agent ctx hr
      rw [ih s' hfailed, hcalls, countBuilds_append]
      simp only [countBuilds]
      omega

/-- The loop body ends with `mastered` true only on a verdict whose `passed` is
true, and then in the state in which the verdict was returned. -/
theorem loopBody_true_inv {W : Type} (h : Host W) (agent : Agent) (ctx : JsVal)
    {s s' : St W} (hbody : loopBody h agent ctx s = (.ok true, s')) :
    ∃ verdict, roundVerdict h agent ctx s = (.ok verdict, s') ∧
      truthy (getProp verdict "passed") = true := by
  rw [loopBody_eq_round, bind_run] at hbody
  rcases hv : roundVerdict h agent ctx s with ⟨r, s1⟩
  rw [hv] at hbody
  cases r with
  | error e => simp at hbody
  | ok verdict =>
    simp only at hbody
    cases hn : isNullish verdict with
    | true => simp [readProp, hn] at hbody
    | false =>
      cases hp : truthy (getProp verdict "passed") with
      | true =>
        simp [readProp, hn, hp] at hbody
        exact ⟨verdict, by rw [hbody], hp⟩
      | false =>
        simp only [readProp, hn, hp, lift_ok_bind, Bool.false_eq_true, if_false] at hbody
        rw [bind_run] at hbody
        rcases hrs : remediate h agent ctx (getProp verdict "gaps") s1 with ⟨r2, s2⟩
        rw [hrs] at hbody
        cases r2 with
        | error e => simp at hbody
        | ok text => simp at hbody

/-- The loop body ends with `mastered` false only after an iteration with a
failing verdict, followed to its end. -/
theorem loopBody_false_inv {W : Type} (h : Host W) (agent : Agent) (ctx : JsVal)
    {s s' : St W} (hbody : loopBody h agent ctx s = (.ok false, s')) :
    failedRound h agent ctx s = some s' := by
  rw [loopBody_eq_round, bind_run] at hbody
  unfold failedRound
  rcases hv : roundVerdict h agent ctx s with ⟨r, s1⟩
  rw [hv] at hbody
  cases r with
  | error e => simp at hbody
  | ok verdict =>
    simp only at hbody ⊢
    cases hn : isNullish verdict with
    | true => simp [readProp, hn] at hbody
    | false =>
      cases hp : truthy (getProp verdict "passed") with
      | true => simp [readProp, hn, hp] at hbody
      | false =>
        simp only [readProp, hn, hp, lift_ok_bind, Bool.false_eq_true, if_false] at hbody
        rw [bind_run] at hbody
        rcases hrs : remediate h agent ctx (getProp verdict "gaps") s1 with ⟨r2, s2⟩
        rw [hrs] at hbody
        cases r2 with
        | error e => simp at hbody
        | ok text =>
          simp only [ask_bind, pure_run, Prod.mk.injEq, true_and] at hbody
          simp [hbody]

/-- The loop is left only when a verdict passes, after some number of failed
iterations. -/
theorem masteryLoop_true_inv {W : Type} (h : Host W) (agent : Agent) (ctx : JsVal)
    (fuel : Nat) (s s' : St W) (hloop : masteryLoop h agent ctx fuel s = (.ok true, s')) :
    ∃ n sn verdict, n < fuel ∧ afterFailedRounds h agent ctx n s = some sn ∧
      roundVerdict h agent ctx sn = (.ok verdict, s') ∧
      truthy (getProp verdict "passed") = true := by
  induction fuel generalizing s with
  | zero => simp [masteryLoop] at hloop
  | succ fuel ih =>
    rw [masteryLoop, bind_run] at hloop
    rcases hb : loopBody h agent ctx s with ⟨r, s1⟩
    rw [hb] at hloop
    cases r with
    | error e => simp at hloop
    | ok mastered =>
      cases mastered with
      | true =>
        simp only [if_true, pure_run, Prod.mk.injEq, true_and] at hloop
        subst hloop
        obtain ⟨verdict, hv, hp⟩ := loopBody_true_inv h agent ctx hb
        exact ⟨0, s, verdict, by omega, rfl, hv, hp⟩
      | false =>
        simp only [Bool.false_eq_true, if_false] at hloop
        obtain ⟨n, sn, verdict, hn, hf, hv, hp⟩ := ih s1 hloop
        refine ⟨n + 1, sn, verdict, by omega, ?_, hv, hp⟩
        rw [afterFailedRounds, loopBody_false_inv h agent ctx hb]
        exact hf

/-- The calls a computation adds come after those already recorded. -/
theorem callsOnly_prefix {W : Type} {α : Type} {ctx : JsVal} {m : Js W α}
    (hm : CallsOnly ctx m) (s : St W) : ∃ added, (m s).2.calls = s.calls ++ added := by
  obtain ⟨added, hadded, _⟩ := hm s
  exact ⟨added, hadded⟩

/-- Every iteration starts by building a battery. -/
theorem loopBody_starts_with_build {W : Type} (h : Host W) (agent : Agent) (ctx : JsVal)
    (s : St W) :
    ∃ rest, (loopBody h agent ctx s).2.calls = s.calls ++ .generateTests ctx :: rest := by
  have hg := generateTests_calls h agent ctx s
  unfold loopBody
  rw [bind_run]
  rcases hgs : generateTests h agent ctx s with ⟨r, s1⟩
  rw [hgs] at hg
  cases r with
  | error e => exact ⟨[], hg⟩
  | ok games =>
    simp only at hg ⊢
    have hrest : CallsOnly ctx (do
        let userAnswers ← playGames h games
        let result ← evaluate h agent ctx userAnswers
        let passed ← lift (readProp result "passed")
        if truthy passed then (pure true : Js W Bool)
        else do
          let _remedialContent ← remediate h agent ctx (getProp result "gaps")
          let _ ← ask h "Press Enter when you are ready to try again..."
          pure false) := by
      refine callsOnly_bind (callsOnly_of_quiet (playGames_quiet h games)) fun ua => ?_
      refine callsOnly_bind (fun s => ⟨_, evaluate_calls h agent ctx ua s, by simp [Call.lesson]⟩)
        fun result => ?_
      refine callsOnly_bind (callsOnly_of_quiet (quiet_lift _)) fun passed => ?_
      split
      · exact callsOnly_of_quiet (quiet_pure _)
      · refine callsOnly_bind
          (fun s => ⟨_, remediate_calls h agent ctx _ s, by simp [Call.lesson]⟩) fun _ => ?_
        exact callsOnly_of_quiet (quiet_bind (quiet_ask _ _) fun _ => quiet_pure _)
    obtain ⟨added, hadded⟩ := callsOnly_prefix hrest s1
    exact ⟨added, by rw [hadded, hg, List.append_assoc]; rfl⟩

/-- With room for one more iteration, the loop builds a battery first. -/
theorem masteryLoop_starts_with_build {W : Type} (h : Host W) (agent : Agent) (ctx : JsVal)
    (fuel : Nat) (s : St W) :
    ∃ rest, (masteryLoop h agent ctx (fuel + 1) s).2.calls =
      s.calls ++ .generateTests ctx :: rest := by
  obtain ⟨rest, hrest⟩ := loopBody_starts_with_build h agent ctx s
  rw [masteryLoop, bind_run]
  rcases hb : loopBody h agent ctx s with ⟨r, s1⟩
  rw [hb] at hrest
  cases r with
  | error e => exact ⟨rest, hrest⟩
  | ok mastered =>
    cases mastered with
    | true => exact ⟨rest, hrest⟩
    | false =>
      simp only [Bool.false_eq_true, if_false]
      obtain ⟨more, hmore⟩ := callsOnly_prefix (masteryLoop_callsOnly h agent ctx fuel) s1
      simp only at hrest
      exact ⟨rest ++ more, by rw [hmore, hrest]; simp⟩


/-! ### C15: counting the attempts -/

/-- C15, counterexample.  After the first iteration of the sample session one
battery has been built and the loop goes on with `mastered = false` and
`currentContext = MOCK_LESSON`; these are all the variables the loop keeps, and
there is no `attemptCount` among them, let alone one that equals 1. -/
theorem loop_keeps_no_attempt_count :
    loopBody scriptedHost sampleAgent MOCK_LESSON sampleStart = (.ok false, sampleMid) ∧
    countBuilds sampleMid.calls = 1 ∧
    getProp (loopVariables false MOCK_LESSON) "attemptCount" = undefined :=
  ⟨rfl, rfl, rfl⟩

/-- C15, as amended.  The loop keeps no attempt counter of its own; the number
of attempts shows as the number of batteries built, and every iteration builds
exactly one.  After `n` iterations with a failing verdict exactly `n` more
`generateTests` calls have been made, and when the next verdict is returned,
exactly `n + 1`: the count goes up by one per iteration, never down, and skips
no value. -/
theorem builds_count_iterations {W : Type} (h : Host W) (agent : Agent) (ctx : JsVal)
    (n : Nat) (s sn : St W) (hfailed : afterFailedRounds h agent ctx n s = some sn) :
    countBuilds sn.calls = countBuilds s.calls + n ∧
    ∀ verdict s', roundVerdict h agent ctx sn = (.ok verdict, s') →
      countBuilds s'.calls = countBuilds s.calls + n + 1 := by
  have hn := afterFailedRounds_builds h agent ctx n s sn hfailed
  refine ⟨hn, fun verdict s' hround => ?_⟩
  obtain ⟨ua, hua⟩ := roundVerdict_calls h agent ctx hround
  rw [hua, countBuilds_append, hn]
  rfl

/-- C15, witness of the amended statement: the sample session, one failed
iteration and then a passing verdict. -/
theorem builds_count_iterations_witness :
    afterFailedRounds scriptedHost sampleAgent MOCK_LESSON 1 sampleStart = some sampleMid ∧
    countBuilds sampleMid.calls = countBuilds sampleStart.calls + 1 ∧
    ∀ verdict s', roundVerdict scriptedHost sampleAgent MOCK_LESSON sampleMid = (.ok verdict, s') →
      countBuilds s'.calls = countBuilds sampleStart.calls + 1 + 1 :=
  ⟨rfl, builds_count_iterations scriptedHost sampleAgent MOCK_LESSON 1 sampleStart sampleMid rfl⟩

/-! ### C16: no ceiling on the attempts -/

/-- C16.  For every `n`: if the verdicts of the first `n` iterations do not pass
(and each is followed by its remediation, no call failing), then `n` batteries
have been built and the loop, given room for one more iteration, builds the
next one: its first call after those `n` iterations is `generateTests`.  And
the loop is left only on a verdict whose `passed` is true, in the state in
which that verdict was returned (otherwise it throws, or goes on). -/
theorem no_attempt_ceiling {W : Type} (h : Host W) (agent : Agent) (ctx : JsVal)
    (n : Nat) (s sn : St W) (hfailed : afterFailedRounds h agent ctx n s = some sn) :
    countBuilds sn.calls = countBuilds s.calls + n ∧
    (∀ extra, ∃ rest, (masteryLoop h agent ctx (n + (extra + 1)) s).2.calls =
      sn.calls ++ .generateTests ctx :: rest) ∧
    (∀ fuel s', masteryLoop h agent ctx fuel s = (.ok true, s') →
      ∃ m sm verdict, m < fuel ∧ afterFailedRounds h agent ctx m s = some sm ∧
        roundVerdict h agent ctx sm = (.ok verdict, s') ∧
        truthy (getProp verdict "passed") = true) := by
  refine ⟨afterFailedRounds_builds h agent ctx n s sn hfailed, fun extra => ?_,
    fun fuel s' hloop => masteryLoop_true_inv h agent ctx fuel s s' hloop⟩
  rw [masteryLoop_of_failedRounds h agent ctx n (extra + 1) s sn hfailed]
  exact masteryLoop_starts_with_build h agent ctx extra sn

/-- C16, witness: a session whose first two verdicts fail; the loop builds a
third battery. -/
theorem no_attempt_ceiling_witness :
    afterFailedRounds scriptedHost sampleAgent MOCK_LESSON 2 twiceFailedStart =
      some twiceFailedTwice ∧
    countBuilds twiceFailedTwice.calls = countBuilds twiceFailedStart.calls + 2 ∧
    (∀ extra, ∃ rest,
      (masteryLoop scriptedHost sampleAgent MOCK_LESSON (2 + (extra + 1)) twiceFailedStart).2.calls =
        twiceFailedTwice.calls ++ .generateTests MOCK_LESSON :: rest) :=
  ⟨rfl,
   (no_attempt_ceiling scriptedHost sampleAgent MOCK_LESSON 2 twiceFailedStart twiceFailedTwice
      rfl).1,
   (no_attempt_ceiling scriptedHost sampleAgent MOCK_LESSON 2 twiceFailedStart twiceFailedTwice
      rfl).2.1⟩

/-- What `searchWeb` does with a key: the outcome of the `try` block, every
error replaced by the empty list. -/
theorem searchWeb_run {W : Type} (h : Host W) (env : ProcessEnv) (query count : JsVal)
    (s : St W) (hkey : truthy env.YDC_API_KEY = true) :
    searchWeb h env query count s =
      match searchWebBody h env query (countOrDefault count) s with
      | (.ok results, s') => (.ok results, s')
      | (.error _, s') => (.ok [], s') := by
  unfold searchWeb Js.tryCatch
  simp only [hkey, Bool.not_true, Bool.false_eq_true, if_false]
  rcases searchWebBody h env query (countOrDefault count) s with ⟨r, s'⟩
  cases r <;> rfl

/-- `searchWeb` always returns. -/
theorem searchWeb_total {W : Type} (h : Host W) (env : ProcessEnv) (query count : JsVal)
    (s : St W) : ∃ results, (searchWeb h env query count s).1 = .ok results := by
  cases hkey : truthy env.YDC_API_KEY with
  | false => exact ⟨[], by simp [searchWeb, hkey]⟩
  | true =>
    rw [searchWeb_run h env query count s hkey]
    rcases searchWebBody h env query (countOrDefault count) s with ⟨r, s'⟩
    cases r with
    | error e => exact ⟨[], rfl⟩
    | ok results => exact ⟨results, rfl⟩

/-! ### C17: `searchWeb` never fails -/

/-- C17.  For every query and count `searchWeb` returns a list and throws
nothing.  Without an API key the list is empty and nothing is done: no request
is sent and the world is as before.  With a key one request is sent, and the
list is empty when `fetch` rejects, when the status is not a success (whether
or not the body can be read), when the body cannot be parsed, and when the
document has no `results.web`. -/
theorem searchWeb_never_fails {W : Type} (h : Host W) (env : ProcessEnv) (query count : JsVal)
    (s : St W) :
    (∃ results, (searchWeb h env query count s).1 = .ok results) ∧
    (truthy env.YDC_API_KEY = false → searchWeb h env query count s = (.ok [], s)) ∧
    (truthy env.YDC_API_KEY = true →
      (searchWeb h env query count s).2.sent =
        s.sent ++ [searchRequest env query (countOrDefault count)] ∧
      (∀ e, (h.fetch (searchRequest env query (countOrDefault count)) s.world).1 = .error e →
        (searchWeb h env query count s).1 = .ok []) ∧
      (∀ resp, (h.fetch (searchRequest env query (countOrDefault count)) s.world).1 = .ok resp →
        (resp.ok = false → (searchWeb h env query count s).1 = .ok []) ∧
        (resp.ok = true → (∃ e, resp.json = .error e) →
          (searchWeb h env query count s).1 = .ok []) ∧
        (resp.ok = true → ∀ data, resp.json = .ok data →
          (∀ web, resultsWeb data = .ok web → truthy web = false) →
          (searchWeb h env query count s).1 = .ok []))) := by
  refine ⟨searchWeb_total h env query count s, fun hkey => by simp [searchWeb, hkey],
    fun hkey => ?_⟩
  rw [searchWeb_run h env query count s hkey]
  unfold searchWebBody doFetch
  simp only [bind_run]
  rcases hf : h.fetch (searchRequest env query (countOrDefault count)) s.world with ⟨r, w⟩
  cases r with
  | error e =>
    refine ⟨rfl, fun _ _ => rfl, fun resp hresp => ?_⟩
    simp at hresp
  | ok resp =>
    simp only
    refine ⟨?_, fun e he => by simp at he, fun resp' hresp => ?_⟩
    · cases hok : resp.ok
      · cases ht : resp.text <;> simp [bind_run, hok, ht]
      · cases hj : resp.json with
        | error e => simp [bind_run, hok, hj]
        | ok data =>
          cases hw : resultsWeb data with
          | error e => simp [bind_run, hok, hj, hw]
          | ok web =>
            cases htw : truthy web with
            | false => simp [bind_run, hok, hj, hw, htw]
            | true =>
              cases hitems : arrayMethod "data.results.web" "map" web with
              | error e => simp [bind_run, hok, hj, hw, htw, hitems]
              | ok items =>
                cases hp : pickResults items <;> simp [bind_run, hok, hj, hw, htw, hitems, hp]
    · simp only [Except.ok.injEq] at hresp
      subst hresp
      refine ⟨fun hok => ?_, fun hok hj => ?_, fun hok data hj hweb => ?_⟩
      · cases ht : resp.text <;> simp [bind_run, hok, ht]
      · obtain ⟨e, he⟩ := hj
        simp [bind_run, hok, he]
      · cases hw : resultsWeb data with
        | error e => simp [bind_run, hok, hj, hw]
        | ok web => simp [bind_run, hok, hj, hw, hweb web hw]


/-- C17, witness: no key, a refused request, a failed transport, a document
without results; and a search that finds something returns the useful parts of
each result. -/
theorem searchWeb_never_fails_witness :
    searchWeb scriptedHost envWithoutSearch (str "agents with langgraph") undefined
      (initial [.ok searchHit] []) = (.ok [], initial [.ok searchHit] []) ∧
    (searchWeb scriptedHost envWithSearch (str "agents with langgraph") undefined
      (initial [.ok rateLimited] [])).1 = .ok [] ∧
    (searchWeb scriptedHost envWithSearch (str "agents with langgraph") undefined
      (initial [.error fetchFailed] [])).1 = .ok [] ∧
    (searchWeb scriptedHost envWithSearch (str "agents with langgraph") undefined
      (initial [.ok noChoices] [])).1 = .ok [] ∧
    (searchWeb scriptedHost envWithSearch (str "agents with langgraph") undefined
      (initial [.ok searchHit] [])).1 =
      .ok [obj [("title", str "LangGraph"), ("url", str "https://example.org/langgraph"),
                ("snippets", arr [str "Agents as graphs."])]] :=
  ⟨(searchWeb_never_fails scriptedHost envWithoutSearch (str "agents with langgraph") undefined
      (initial [.ok searchHit] [])).2.1 rfl,
   (((searchWeb_never_fails scriptedHost envWithSearch (str "agents with langgraph") undefined
      (initial [.ok rateLimited] [])).2.2 rfl).2.2 rateLimited rfl).1 rfl,
   ((searchWeb_never_fails scriptedHost envWithSearch (str "agents with langgraph") undefined
      (initial [.error fetchFailed] [])).2.2 rfl).2.1 fetchFailed rfl,
   (((searchWeb_never_fails scriptedHost envWithSearch (str "agents with langgraph") undefined
      (initial [.ok noChoices] [])).2.2 rfl).2.2 noChoices rfl).2.2 rfl (obj []) rfl
      (fun web hweb => by cases hweb; rfl),
   rfl⟩

/-! ### C18: the answers mirror the battery -/

/-- C18, the code at the failing input.  A battery whose `FillTheGap` game has
a text and no `blanks`: collecting the answers throws a `TypeError`, where the
claim promises an empty answer list.  The game is guarded by `games.FillTheGap`
alone; the four games before it also test their list, so a `MatchMaker` without
`pairs` does give the empty lists. -/
theorem cloze_without_blanks_throws :
    playGames scriptedHost clozeWithoutBlanks (initial [] []) =
      (.error (notIterable "games.FillTheGap.blanks"), initial [] []) ∧
    (notIterable "games.FillTheGap.blanks").name = "TypeError" ∧
    playGames scriptedHost pairingWithoutPairs (initial [] []) = (.ok noAnswers, initial [] []) :=
  ⟨rfl, rfl, rfl⟩

/-- A sequence that returns a value: its first part returned, and the rest
returned the value. -/
theorem bind_ok_inv {W : Type} {α β : Type} {m : Js W α} {f : α → Js W β} {s : St W} {v : β}
    (hret : ((m >>= f) s).1 = .ok v) : ∃ a s1, m s = (.ok a, s1) ∧ (f a s1).1 = .ok v := by
  rw [bind_run] at hret
  rcases hm : m s with ⟨r, s1⟩
  rw [hm] at hret
  cases r with
  | error e => cases hret
  | ok a => exact ⟨a, s1, rfl, hret⟩

/-- A lesson that passes the checks of `generateLesson` is returned as it is,
has a truthy `content` and an array as `mastery_criteria`. -/
theorem checkLessonContent_ok (parsed lessonContent : JsVal)
    (hcheck : checkLessonContent parsed = .ok lessonContent) :
    lessonContent = parsed ∧ truthy (getProp lessonContent "content") = true ∧
      ∃ criteria, getProp lessonContent "mastery_criteria" = arr criteria := by
  unfold checkLessonContent readProp at hcheck
  cases hn : isNullish parsed with
  | true => simp [hn, Bind.bind, Except.bind] at hcheck
  | false =>
    simp only [hn, Bool.false_eq_true, if_false, Bind.bind, Except.bind] at hcheck
    split at hcheck
    · cases hcheck
    · rename_i hcond
      simp only [Bool.or_eq_true, Bool.not_eq_true', not_or, Bool.not_eq_false] at hcond
      split at hcheck
      · rename_i criteria hcrit
        cases hcheck
        exact ⟨rfl, hcond.1, criteria, hcrit⟩
      · cases hcheck

/-- A value returned by the `try` block of `generateLesson` passed its
checks. -/
theorem generateLessonBody_ok {W : Type} (h : Host W) (env : ProcessEnv)
    (apiKey model brainData lesson : JsVal) (s : St W) (lessonContent : JsVal)
    (hret : (generateLessonBody h env apiKey model brainData lesson s).1 = .ok lessonContent) :
    ∃ parsed, checkLessonContent parsed = .ok lessonContent := by
  unfold generateLessonBody at hret
  obtain ⟨results, s1, _, hret⟩ := bind_ok_inv hret
  obtain ⟨response, s2, _, hret⟩ := bind_ok_inv hret
  split at hret
  · obtain ⟨errorData, s3, _, hret⟩ := bind_ok_inv hret
    cases hret
  · obtain ⟨data, s3, _, hret⟩ := bind_ok_inv hret
    obtain ⟨choices, s4, _, hret⟩ := bind_ok_inv hret
    split at hret
    · cases hret
    · obtain ⟨parsed, s5, _, hret⟩ := bind_ok_inv hret
      exact ⟨parsed, hret⟩

/-- A value returned by `generateLesson` passed its checks. -/
theorem generateLesson_ok {W : Type} (h : Host W) (env : ProcessEnv)
    (brain lesson options : JsVal) (s : St W) (lessonContent : JsVal)
    (hret : (generateLesson h env brain lesson options s).1 = .ok lessonContent) :
    ∃ parsed, checkLessonContent parsed = .ok lessonContent := by
  unfold generateLesson at hret
  obtain ⟨inner, s1, _, hret⟩ := bind_ok_inv hret
  dsimp only at hret
  generalize (if truthy inner = true then inner else brain) = brainData at hret
  cases h1 : (!truthy brainData || !truthy (getProp brainData "high_level"))
  case true => simp [h1] at hret
  case false =>
    cases h2 : (!truthy lesson || !truthy (getProp lesson "instructional_seed"))
    case true => simp [h1, h2] at hret
    case false =>
      cases h3 : (!truthy (getProp lesson "title") || !truthy (getProp lesson "description"))
      case true => simp [h1, h2, h3] at hret
      case false =>
        simp only [h1, h2, h3, Bool.false_eq_true, if_false] at hret
        obtain ⟨optionsKey, s2, _, hret⟩ := bind_ok_inv hret
        generalize (if truthy optionsKey = true then optionsKey else env.OPENROUTER_API_KEY) =
          apiKey at hret
        cases h4 : (!truthy apiKey)
        case true => simp [h4] at hret
        case false =>
          simp only [h4, Bool.false_eq_true, if_false] at hret
          unfold Js.tryCatch at hret
          split at hret
          · rename_i a s3 hbody
            simp only at hret
            cases hret
            exact generateLessonBody_ok h env _ _ _ lesson s2 lessonContent (by rw [hbody])
          · cases hret

/-! ### C19: the mastery criteria of a generated lesson -/

/-- C19, counterexample.  The service answers with a lesson that has one
mastery criterion; `generateLesson` returns it, and `validateLessonContent`
then finds it invalid for its number of criteria. -/
theorem generateLesson_returns_one_criterion :
    (generateLesson lessonHost envWithoutSearch sampleBrain sampleLesson undefined
        (initial [.ok (completion oneCriterionLessonText)] [])).1 = .ok oneCriterionLesson ∧
    getProp oneCriterionLesson "mastery_criteria" =
      arr [str "Can explain why a prompt needs context"] ∧
    validateLessonContent oneCriterionLesson =
      .ok { valid := false, errors := ["mastery_criteria should have 2-5 items"] } :=
  ⟨rfl, rfl, rfl⟩

/-- C19, as amended.  Every lesson returned by `generateLesson` has a truthy
`content` and a `mastery_criteria` that is an array; `generateLesson` does not
check how many entries the array has (the bound of 2 to 5 is asked of the
service in the prompt, and checked by `validateLessonContent` only). -/
theorem generateLesson_returns_array_of_criteria {W : Type} (h : Host W) (env : ProcessEnv)
    (brain lesson options : JsVal) (s : St W) (lessonContent : JsVal)
    (hret : (generateLesson h env brain lesson options s).1 = .ok lessonContent) :
    truthy (getProp lessonContent "content") = true ∧
    ∃ criteria, getProp lessonContent "mastery_criteria" = arr criteria := by
  obtain ⟨parsed, hparsed⟩ := generateLesson_ok h env brain lesson options s lessonContent hret
  exact (checkLessonContent_ok parsed lessonContent hparsed).2

/-- C19, witness of the amended statement: a lesson with two criteria, built
after two web searches. -/
theorem generateLesson_returns_array_of_criteria_witness :
    (generateLesson lessonHost envWithSearch sampleBrain sampleLesson undefined
        (initial [.ok searchHit, .ok rateLimited, .ok (completion twoCriteriaLessonText)] [])).1 =
      .ok twoCriteriaLesson ∧
    truthy (getProp twoCriteriaLesson "content") = true ∧
    ∃ criteria, getProp twoCriteriaLesson "mastery_criteria" = arr criteria :=
  ⟨rfl,
   generateLesson_returns_array_of_criteria lessonHost envWithSearch sampleBrain sampleLesson
    undefined (initial [.ok searchHit, .ok rateLimited, .ok (completion twoCriteriaLessonText)] [])
    twoCriteriaLesson rfl⟩

/-! ### C20: `createBrain` on the onboarding agent's record -/

/-- C20, the code at the failing input.  `createBrain` fails on every record the
onboarding agent can save, whatever the profiling data: the record has
`surface_reason` and `deeper_motivation` but neither `why` nor `reason`.  On the
sample record, with an empty profile, the error is "onboardingData must include
a why or reason field". -/
theorem createBrain_rejects_onboarding_record :
    (∀ (now subject specific_goal trigger surface_reason deeper_motivation summary : String)
        (current_knowledge_hint : Option String) (profilingData : JsVal),
      ∃ e, createBrain now
        (onboardingRecord subject specific_goal trigger surface_reason deeper_motivation
          summary current_knowledge_hint) profilingData = .error e) ∧
    createBrain "2026-01-01T00:00:00.000Z" sampleOnboardingRecord (obj []) =
      .error ⟨"Error", "onboardingData must include a why or reason field"⟩ := by
  refine ⟨?_, rfl⟩
  intro now subject specific_goal trigger surface_reason deeper_motivation summary hint profiling
  have hwhy : getProp (onboardingRecord subject specific_goal trigger surface_reason
      deeper_motivation summary hint) "why" = undefined := by
    cases hint <;> simp [onboardingRecord, getProp, lookup]
  have hreason : getProp (onboardingRecord subject specific_goal trigger surface_reason
      deeper_motivation summary hint) "reason" = undefined := by
    cases hint <;> simp [onboardingRecord, getProp, lookup]
  unfold createBrain
  rw [hwhy, hreason]
  cases h1 : (!truthy (onboardingRecord subject specific_goal trigger surface_reason
      deeper_motivation summary hint) ||
      typeOf (onboardingRecord subject specific_goal trigger surface_reason
        deeper_motivation summary hint) != "object") <;>
    cases h2 : (!truthy profiling || typeOf profiling != "object") <;>
    cases h3 : (!truthy (getProp (onboardingRecord subject specific_goal trigger surface_reason
      deeper_motivation summary hint) "subject")) <;>
    simp [h1, h2, h3, show truthy JsVal.undefined = false from rfl]

/-! ## Facts about records -/

theorem getProp_obj (kvs : List (String × JsVal)) (k : String) :
    getProp (obj kvs) k = lookup k kvs := rfl

theorem lookup_setField_same (k : String) (v : JsVal) (kvs : List (String × JsVal)) :
    lookup k (setField k v kvs) = v := by
  induction kvs with
  | nil => simp [setField, lookup]
  | cons p rest ih =>
    obtain ⟨k', v'⟩ := p
    by_cases hk : k' = k
    · simp [setField, lookup, hk]
    · simp [setField, lookup, hk, ih]

theorem lookup_setField_other (k k' : String) (v : JsVal) (kvs : List (String × JsVal))
    (hne : k' ≠ k) : lookup k' (setField k v kvs) = lookup k' kvs := by
  induction kvs with
  | nil => simp [setField, lookup, Ne.symm hne]
  | cons p rest ih =>
    obtain ⟨k'', v''⟩ := p
    by_cases hk : k'' = k
    · subst hk
      simp [setField, lookup, Ne.symm hne]
    · by_cases hk' : k'' = k'
      · subst hk'
        simp [setField, lookup, hk]
      · simp [setField, lookup, hk, hk', ih]

/-! ## Facts about `createBrain` -/

/-- The guard `!v || typeof v !== 'object'` lets pass the objects other than
`null`. -/
theorem object_guard (v : JsVal) :
    (!truthy v || typeOf v != "object") = !isObject v := by
  cases v <;> simp [truthy, typeOf, isObject]

/-- On valid input `createBrain` returns the brain built from the subject, the
motivation, the summary if any, and the fields of the profile. -/
theorem createBrain_of_valid (now : String) (onboardingData profilingData : JsVal)
    (hvalid : validBrainInput onboardingData profilingData = true) :
    createBrain now onboardingData profilingData =
      .ok (brainAround (obj
        [("onboarding", obj
          ([("subject", getProp onboardingData "subject"),
            ("why", if truthy (getProp onboardingData "why") then getProp onboardingData "why"
              else getProp onboardingData "reason")] ++
            (if truthy (getProp onboardingData "summary") then
              [("summary", getProp onboardingData "summary")]
            else []))),
         ("profiling", obj (ownProps profilingData)),
         ("generated_at", str now)])) := by
  unfold validBrainInput at hvalid
  simp only [Bool.and_eq_true, Bool.or_eq_true] at hvalid
  obtain ⟨⟨⟨ho, hp⟩, hs⟩, hw⟩ := hvalid
  unfold createBrain brainAround
  rw [object_guard, object_guard, ho, hp]
  cases hwhy : truthy (getProp onboardingData "why")
  · rw [hwhy] at hw
    simp only [Bool.false_eq_true, false_or] at hw
    simp [hs, hw]
  · simp [hs, hwhy]

/-- On any other input `createBrain` throws. -/
theorem createBrain_of_invalid (now : String) (onboardingData profilingData : JsVal)
    (hinvalid : validBrainInput onboardingData profilingData = false) :
    ∃ e, createBrain now onboardingData profilingData = .error e := by
  unfold validBrainInput at hinvalid
  unfold createBrain
  rw [object_guard, object_guard]
  cases ho : isObject onboardingData
  · exact ⟨⟨"Error", "onboardingData must be a valid object"⟩, by simp⟩
  · cases hp : isObject profilingData
    · exact ⟨⟨"Error", "profilingData must be a valid object"⟩, by simp⟩
    · cases hs : truthy (getProp onboardingData "subject")
      · exact ⟨⟨"Error", "onboardingData must include a subject field"⟩, by simp [hs]⟩
      · rw [ho, hp, hs] at hinvalid
        simp only [Bool.and_self, Bool.true_and, Bool.or_eq_false_iff] at hinvalid
        exact ⟨⟨"Error", "onboardingData must include a why or reason field"⟩,
          by simp [hs, hinvalid.1, hinvalid.2]⟩

/-! ### C21: when `createBrain` fails -/

/-- C21.  `createBrain` fails if and only if `onboardingData` is not an object
other than `null`, or `profilingData` is not, or `onboardingData.subject` is
missing or empty, or both `onboardingData.why` and `onboardingData.reason` are;
in every other case it returns a brain: a record `brain` with `high_level`, an
empty `course_structure` and an empty `low_level`.  A field is missing or
empty when its value is falsy; for a field that is absent or a string, as the
docstring has it, that is: absent, or the empty string. -/
theorem createBrain_fails_iff (now : String) (onboardingData profilingData : JsVal) :
    ((∃ e, createBrain now onboardingData profilingData = .error e) ↔
      (isObject onboardingData = false ∨ isObject profilingData = false ∨
        truthy (getProp onboardingData "subject") = false ∨
        (truthy (getProp onboardingData "why") = false ∧
          truthy (getProp onboardingData "reason") = false))) ∧
    (¬ (isObject onboardingData = false ∨ isObject profilingData = false ∨
        truthy (getProp onboardingData "subject") = false ∨
        (truthy (getProp onboardingData "why") = false ∧
          truthy (getProp onboardingData "reason") = false)) →
      ∃ highLevel, createBrain now onboardingData profilingData = .ok (brainAround highLevel)) ∧
    (truthy undefined = false ∧ ∀ text, truthy (str text) = false ↔ text = "") := by
  have hiff : validBrainInput onboardingData profilingData = false ↔
      (isObject onboardingData = false ∨ isObject profilingData = false ∨
        truthy (getProp onboardingData "subject") = false ∨
        (truthy (getProp onboardingData "why") = false ∧
          truthy (getProp onboardingData "reason") = false)) := by
    unfold validBrainInput
    cases isObject onboardingData <;> cases isObject profilingData <;>
      cases truthy (getProp onboardingData "subject") <;>
      cases truthy (getProp onboardingData "why") <;>
      cases truthy (getProp onboardingData "reason") <;> simp
  refine ⟨⟨fun ⟨e, he⟩ => ?_, fun hc => ?_⟩, fun hc => ?_, rfl, fun text => by simp [truthy]⟩
  · rw [← hiff]
    cases hv : validBrainInput onboardingData profilingData
    · rfl
    · rw [createBrain_of_valid now _ _ hv] at he
      cases he
  · exact createBrain_of_invalid now _ _ (hiff.2 hc)
  · have hv : validBrainInput onboardingData profilingData = true := by
      cases hv : validBrainInput onboardingData profilingData
      · exact absurd (hiff.1 hv) hc
      · rfl
    exact ⟨_, createBrain_of_valid now _ _ hv⟩

/-- C21, witness: the data of Test 1 of `course/test.js` gives a brain. -/
theorem createBrain_fails_iff_witness :
    ∃ highLevel, createBrain "2026-01-01T00:00:00.000Z" sampleOnboarding sampleProfiling =
      .ok (brainAround highLevel) :=
  (createBrain_fails_iff "2026-01-01T00:00:00.000Z" sampleOnboarding sampleProfiling).2.1
    (by decide)

/-! ### C22: the two names of the motivation -/

/-- C22.  On valid input the brain's `high_level.onboarding.subject` is
`onboardingData.subject`; its `why` is `onboardingData.why` when that is not
empty, whatever `reason` is, and `onboardingData.reason` when `why` is missing
or empty. -/
theorem createBrain_why_from_either_name (now : String) (onboardingData profilingData : JsVal)
    (hvalid : validBrainInput onboardingData profilingData = true) :
    ∃ brain, createBrain now onboardingData profilingData = .ok brain ∧
      getProp (getProp (getProp (getProp brain "brain") "high_level") "onboarding") "subject" =
        getProp onboardingData "subject" ∧
      (truthy (getProp onboardingData "why") = true →
        getProp (getProp (getProp (getProp brain "brain") "high_level") "onboarding") "why" =
          getProp onboardingData "why") ∧
      (truthy (getProp onboardingData "why") = false →
        getProp (getProp (getProp (getProp brain "brain") "high_level") "onboarding") "why" =
          getProp onboardingData "reason") := by
  refine ⟨_, createBrain_of_valid now _ _ hvalid, ?_, fun hw => ?_, fun hw => ?_⟩
  · simp [brainAround, getProp_obj, lookup]
  · simp [brainAround, getProp_obj, lookup, hw]
  · simp [brainAround, getProp_obj, lookup, hw]

/-- C22, witness: onboarding data that has only `reason`. -/
theorem createBrain_why_from_either_name_witness :
    ∃ brain, createBrain "2026-01-01T00:00:00.000Z" sampleOnboardingWithReason sampleProfiling =
        .ok brain ∧
      getProp (getProp (getProp (getProp brain "brain") "high_level") "onboarding") "why" =
        str "I want to build agents at work." := by
  obtain ⟨brain, hb, _, _, hreason⟩ :=
    createBrain_why_from_either_name "2026-01-01T00:00:00.000Z" sampleOnboardingWithReason
      sampleProfiling (by decide)
  exact ⟨brain, hb, hreason rfl⟩

/-! ### C23: the profile and the empty parts of a new brain -/

/-- C23.  On valid input the brain's `high_level.profiling` has the fields of
`profilingData`, each with its value and in the same order, and no other (for a
record it equals `profilingData`); `course_structure` and `low_level` are
records without fields. -/
theorem createBrain_keeps_profile (now : String) (onboardingData profilingData : JsVal)
    (hvalid : validBrainInput onboardingData profilingData = true) :
    ∃ brain, createBrain now onboardingData profilingData = .ok brain ∧
      getProp (getProp (getProp brain "brain") "high_level") "profiling" =
        obj (ownProps profilingData) ∧
      (∀ fields, profilingData = obj fields →
        getProp (getProp (getProp brain "brain") "high_level") "profiling" = profilingData) ∧
      getProp (getProp brain "brain") "course_structure" = obj [] ∧
      getProp (getProp brain "brain") "low_level" = obj [] := by
  refine ⟨_, createBrain_of_valid now _ _ hvalid, ?_, fun fields hf => ?_, ?_, ?_⟩
  · simp [brainAround, getProp_obj, lookup]
  · subst hf
    simp [brainAround, getProp_obj, lookup, ownProps]
  · simp [brainAround, getProp_obj, lookup]
  · simp [brainAround, getProp_obj, lookup]

/-- C23, witness: the sample profile. -/
theorem createBrain_keeps_profile_witness :
    ∃ brain, createBrain "2026-01-01T00:00:00.000Z" sampleOnboarding sampleProfiling = .ok brain ∧
      getProp (getProp (getProp brain "brain") "high_level") "profiling" = sampleProfiling ∧
      getProp (getProp brain "brain") "course_structure" = obj [] ∧
      getProp (getProp brain "brain") "low_level" = obj [] := by
  obtain ⟨brain, hb, _, hsame, hcs, hll⟩ :=
    createBrain_keeps_profile "2026-01-01T00:00:00.000Z" sampleOnboarding sampleProfiling
      (by decide)
  exact ⟨brain, hb, hsame _ rfl, hcs, hll⟩

/-! ## Facts about the two validators -/

/-- The guard `!v || typeof v !== 'string'` lets pass the non-empty
strings. -/
theorem string_guard (v : JsVal) :
    (!truthy v || typeOf v != "string") = !isNonEmptyString v := by
  cases v <;> simp [truthy, typeOf, isNonEmptyString]

/-- The guard `!v || typeof v !== 'number'` lets pass the numbers other than
zero. -/
theorem number_guard (v : JsVal) :
    (!truthy v || typeOf v != "number") = !isNonZeroNumber v := by
  cases v <;> simp [truthy, typeOf, isNonZeroNumber]

/-- A non-empty string is truthy. -/
theorem truthy_of_isNonEmptyString (v : JsVal) (hv : isNonEmptyString v = true) :
    truthy v = true := by
  cases v <;> simp_all [truthy, isNonEmptyString]

/-- Two runs of checks in sequence push no error exactly when neither does. -/
theorem checks_append_nil (x y : Except JsError (List String)) :
    (do let a ← x; let b ← y; pure (a ++ b) : Except JsError (List String)) = .ok [] ↔
      x = .ok [] ∧ y = .ok [] := by
  cases x with
  | error e => simp [Bind.bind, Except.bind]
  | ok a =>
    cases y with
    | error e => simp [Bind.bind, Except.bind]
    | ok b => simp [Bind.bind, Except.bind, pure, Except.pure]

theorem criterionErrors_nil_iff (idx : Nat) (criteria : List JsVal) :
    criterionErrors idx criteria = [] ↔ criteria.all isNonEmptyString = true := by
  induction criteria generalizing idx with
  | nil => simp [criterionErrors]
  | cons c rest ih =>
    unfold criterionErrors
    rw [string_guard, List.all_cons, Bool.and_eq_true, ← ih (idx + 1)]
    cases hc : isNonEmptyString c <;> simp

/-- What `validateLessonContent` returns has `valid` true exactly when its
`errors` are empty. -/
theorem validateLessonContent_valid (lessonContent : JsVal) (v : Validation)
    (hv : validateLessonContent lessonContent = .ok v) : v.valid = true ↔ v.errors = [] := by
  unfold validateLessonContent at hv
  cases hc : readProp lessonContent "content" with
  | error e => simp [hc, Bind.bind, Except.bind] at hv
  | ok content =>
    simp only [hc, Bind.bind, Except.bind, pure, Except.pure, Except.ok.injEq] at hv
    subst hv
    simp [List.length_eq_zero]

/-- The lesson documents `validateLessonContent` finds valid. -/
theorem validateLessonContent_ok_iff (lessonContent : JsVal) :
    (∃ errors, validateLessonContent lessonContent = .ok { valid := true, errors := errors }) ↔
      wellFormedLessonContent lessonContent = true := by
  unfold validateLessonContent wellFormedLessonContent readProp
  cases hn : isNullish lessonContent
  · simp only [Bool.false_eq_true, if_false, Bind.bind, Except.bind, pure, Except.pure,
      string_guard]
    cases hmc : getProp lessonContent "mastery_criteria" <;>
      cases hcontent : isNonEmptyString (getProp lessonContent "content") <;>
      simp
    intro _ _
    rw [criterionErrors_nil_iff, List.all_eq_true]
  · have hund : getProp lessonContent "content" = undefined := by
      cases lessonContent <;> simp_all [isNullish, getProp]
    simp [hund, isNonEmptyString, Bind.bind, Except.bind]

/-- A property read on `undefined` or `null`, where it does not throw, gives
`undefined`. -/
theorem getProp_of_isNullish (v : JsVal) (k : String) (hv : isNullish v = true) :
    getProp v k = undefined := by
  cases v <;> simp_all [isNullish, getProp]

theorem lessonErrors_nil_iff (phaseIdx lessonIdx : Nat) (lesson : JsVal) :
    lessonErrors phaseIdx lessonIdx lesson = .ok [] ↔ wellFormedLesson lesson = true := by
  unfold lessonErrors wellFormedLesson readProp
  cases hn : isNullish lesson
  · simp only [Bool.false_eq_true, if_false, Bind.bind, Except.bind, pure, Except.pure,
      string_guard, number_guard]
    cases isNonZeroNumber (getProp lesson "lesson_number") <;>
      cases isNonEmptyString (getProp lesson "title") <;>
      cases isNonEmptyString (getProp lesson "description") <;>
      cases isNonEmptyString (getProp lesson "instructional_seed") <;> simp
  · simp [getProp_of_isNullish lesson _ hn, isNonZeroNumber, Bind.bind, Except.bind]

theorem lessonsErrors_nil_iff (phaseIdx lessonIdx : Nat) (lessons : List JsVal) :
    lessonsErrors phaseIdx lessonIdx lessons = .ok [] ↔
      lessons.all wellFormedLesson = true := by
  induction lessons generalizing lessonIdx with
  | nil => simp [lessonsErrors]
  | cons lesson rest ih =>
    unfold lessonsErrors
    rw [checks_append_nil, lessonErrors_nil_iff, ih, List.all_cons, Bool.and_eq_true]

theorem phaseLessonsErrors_nil_iff (phaseIdx : Nat) (phase : JsVal) :
    phaseLessonsErrors phaseIdx phase = .ok [] ↔
      ∃ lessons, getProp phase "lessons" = arr lessons ∧
        lessons.all wellFormedLesson = true := by
  unfold phaseLessonsErrors
  cases hl : getProp phase "lessons" <;> simp [lessonsErrors_nil_iff]

theorem phaseErrors_nil_iff (phaseIdx : Nat) (phase : JsVal) :
    phaseErrors phaseIdx phase = .ok [] ↔ wellFormedPhase phase = true := by
  unfold phaseErrors wellFormedPhase readProp
  cases hn : isNullish phase
  · simp only [Bool.false_eq_true, if_false, string_guard, number_guard]
    cases hle : phaseLessonsErrors phaseIdx phase with
    | error e =>
      have hnot : ¬ phaseLessonsErrors phaseIdx phase = .ok [] := by rw [hle]; simp
      rw [phaseLessonsErrors_nil_iff] at hnot
      cases hl : getProp phase "lessons" <;> simp_all [Bind.bind, Except.bind]
    | ok more =>
      have hiff := phaseLessonsErrors_nil_iff phaseIdx phase
      rw [hle] at hiff
      simp only [Bind.bind, Except.bind, pure, Except.pure, Except.ok.injEq] at hiff ⊢
      cases isNonZeroNumber (getProp phase "phase_number") <;>
        cases isNonEmptyString (getProp phase "title") <;>
        cases isNonEmptyString (getProp phase "description") <;>
        cases hl : getProp phase "lessons" <;> simp_all
  · simp [getProp_of_isNullish phase _ hn, isNonZeroNumber, Bind.bind, Except.bind]

theorem phasesErrors_nil_iff (phaseIdx : Nat) (phases : List JsVal) :
    phasesErrors phaseIdx phases = .ok [] ↔ phases.all wellFormedPhase = true := by
  induction phases generalizing phaseIdx with
  | nil => simp [phasesErrors]
  | cons phase rest ih =>
    unfold phasesErrors
    rw [checks_append_nil, phaseErrors_nil_iff, ih, List.all_cons, Bool.and_eq_true]

theorem structurePhasesErrors_nil_iff (struct : JsVal) :
    structurePhasesErrors struct = .ok [] ↔
      ∃ phases, getProp struct "phases" = arr phases ∧ phases.all wellFormedPhase = true := by
  unfold structurePhasesErrors
  cases hl : getProp struct "phases" <;> simp [phasesErrors_nil_iff]

/-- What `validateCourseStructure` returns has `valid` true exactly when its
`errors` are empty. -/
theorem validateCourseStructure_valid (struct : JsVal) (v : Validation)
    (hv : validateCourseStructure struct = .ok v) : v.valid = true ↔ v.errors = [] := by
  unfold validateCourseStructure at hv
  cases ht : readProp struct "title" with
  | error e => simp [ht, Bind.bind, Except.bind] at hv
  | ok title =>
    cases hp : structurePhasesErrors struct with
    | error e => simp [ht, hp, Bind.bind, Except.bind] at hv
    | ok more =>
      simp only [ht, hp, Bind.bind, Except.bind, pure, Except.pure, Except.ok.injEq] at hv
      subst hv
      simp [List.length_eq_zero]

/-- The outlines `validateCourseStructure` finds valid. -/
theorem validateCourseStructure_ok_iff (struct : JsVal) :
    (∃ errors, validateCourseStructure struct = .ok { valid := true, errors := errors }) ↔
      wellFormedStructure struct = true := by
  unfold validateCourseStructure wellFormedStructure readProp
  cases hn : isNullish struct
  · simp only [Bool.false_eq_true, if_false, string_guard]
    cases hp : structurePhasesErrors struct with
    | error e =>
      have hnot : ¬ structurePhasesErrors struct = .ok [] := by rw [hp]; simp
      rw [structurePhasesErrors_nil_iff] at hnot
      cases hl : getProp struct "phases" <;> simp_all [Bind.bind, Except.bind]
    | ok more =>
      have hiff := structurePhasesErrors_nil_iff struct
      rw [hp] at hiff
      simp only [Bind.bind, Except.bind, pure, Except.pure, Except.ok.injEq] at hiff ⊢
      cases isNonEmptyString (getProp struct "title") <;>
        cases hl : getProp struct "phases" <;> simp_all
  · simp [getProp_of_isNullish struct _ hn, isNonEmptyString, Bind.bind, Except.bind]

/-! ### C27: the lesson documents `validateLessonContent` accepts -/

/-- C27.  `validateLessonContent` returns `valid = true` if and only if
`content` is a non-empty string and `mastery_criteria` is a list of two to five
entries, each a non-empty string; and in what it returns `valid` is true
exactly when `errors` is empty. -/
theorem validateLessonContent_valid_iff (lessonContent : JsVal) :
    ((∃ errors, validateLessonContent lessonContent = .ok { valid := true, errors := errors }) ↔
      (isNonEmptyString (getProp lessonContent "content") = true ∧
        ∃ criteria, getProp lessonContent "mastery_criteria" = arr criteria ∧
          2 ≤ criteria.length ∧ criteria.length ≤ 5 ∧
          ∀ criterion ∈ criteria, isNonEmptyString criterion = true)) ∧
    (∀ v, validateLessonContent lessonContent = .ok v → (v.valid = true ↔ v.errors = [])) := by
  refine ⟨?_, fun v hv => validateLessonContent_valid lessonContent v hv⟩
  rw [validateLessonContent_ok_iff]
  unfold wellFormedLessonContent
  cases hmc : getProp lessonContent "mastery_criteria" <;>
    simp [List.all_eq_true, and_assoc]

/-- C27, witness: the lesson with two criteria is valid, the lesson with one is
not. -/
theorem validateLessonContent_valid_iff_witness :
    (∃ errors, validateLessonContent twoCriteriaLesson =
      .ok { valid := true, errors := errors }) ∧
    validateLessonContent oneCriterionLesson =
      .ok { valid := false, errors := ["mastery_criteria should have 2-5 items"] } ∧
    ((false = true) ↔ ["mastery_criteria should have 2-5 items"] = []) :=
  ⟨(validateLessonContent_valid_iff twoCriteriaLesson).1.2
      ⟨by decide, _, rfl, by decide, by decide, by decide⟩,
   rfl,
   (validateLessonContent_valid_iff oneCriterionLesson).2 _ rfl⟩

theorem wellFormedLesson_iff (lesson : JsVal) :
    wellFormedLesson lesson = true ↔
      (isNonZeroNumber (getProp lesson "lesson_number") = true ∧
        isNonEmptyString (getProp lesson "title") = true ∧
        isNonEmptyString (getProp lesson "description") = true ∧
        isNonEmptyString (getProp lesson "instructional_seed") = true) := by
  simp [wellFormedLesson, and_assoc]

theorem wellFormedPhase_iff (phase : JsVal) :
    wellFormedPhase phase = true ↔
      (isNonZeroNumber (getProp phase "phase_number") = true ∧
        isNonEmptyString (getProp phase "title") = true ∧
        isNonEmptyString (getProp phase "description") = true ∧
        ∃ lessons, getProp phase "lessons" = arr lessons ∧
          ∀ lesson ∈ lessons, wellFormedLesson lesson = true) := by
  unfold wellFormedPhase
  cases hl : getProp phase "lessons" <;> simp [List.all_eq_true, and_assoc]

theorem wellFormedStructure_iff (struct : JsVal) :
    wellFormedStructure struct = true ↔
      (isNonEmptyString (getProp struct "title") = true ∧
        ∃ phases, getProp struct "phases" = arr phases ∧
          ∀ phase ∈ phases, wellFormedPhase phase = true) := by
  unfold wellFormedStructure
  cases hl : getProp struct "phases" <;> simp [List.all_eq_true]

/-- The lessons of an outline that `validateCourseStructure` finds valid are
well formed. -/
theorem wellFormedLesson_of_valid (struct : JsVal) (errors : List String)
    (hvalid : validateCourseStructure struct = .ok { valid := true, errors := errors })
    (phases : List JsVal) (hphases : getProp struct "phases" = arr phases)
    (phase : JsVal) (hphase : phase ∈ phases)
    (lessons : List JsVal) (hlessons : getProp phase "lessons" = arr lessons)
    (lesson : JsVal) (hlesson : lesson ∈ lessons) : wellFormedLesson lesson = true := by
  have hwf := (validateCourseStructure_ok_iff struct).1 ⟨errors, hvalid⟩
  obtain ⟨_, phases', hp', hall⟩ := (wellFormedStructure_iff struct).1 hwf
  rw [hphases] at hp'
  cases hp'
  obtain ⟨_, _, _, lessons', hl', hall'⟩ := (wellFormedPhase_iff phase).1 (hall phase hphase)
  rw [hlessons] at hl'
  cases hl'
  exact hall' lesson hlesson

/-! ### C26: the outlines `validateCourseStructure` accepts -/

/-- C26.  In what `validateCourseStructure` returns `valid` is true exactly
when `errors` is empty, and it returns `valid = true` if and only if `title` is
a non-empty string, `phases` is a list, every phase has a non-zero number as
`phase_number`, non-empty strings as `title` and `description` and a list as
`lessons`, and every lesson has a non-zero number as `lesson_number` and
non-empty strings as `title`, `description` and `instructional_seed`.  In
particular an outline with a title and no phases is valid, and an outline with
a phase or a lesson numbered 0 is not. -/
theorem validateCourseStructure_valid_iff (struct : JsVal) :
    (∀ v, validateCourseStructure struct = .ok v → (v.valid = true ↔ v.errors = [])) ∧
    ((∃ errors, validateCourseStructure struct = .ok { valid := true, errors := errors }) ↔
      (isNonEmptyString (getProp struct "title") = true ∧
        ∃ phases, getProp struct "phases" = arr phases ∧
          ∀ phase ∈ phases,
            isNonZeroNumber (getProp phase "phase_number") = true ∧
            isNonEmptyString (getProp phase "title") = true ∧
            isNonEmptyString (getProp phase "description") = true ∧
            ∃ lessons, getProp phase "lessons" = arr lessons ∧
              ∀ lesson ∈ lessons,
                isNonZeroNumber (getProp lesson "lesson_number") = true ∧
                isNonEmptyString (getProp lesson "title") = true ∧
                isNonEmptyString (getProp lesson "description") = true ∧
                isNonEmptyString (getProp lesson "instructional_seed") = true)) ∧
    (isNonEmptyString (getProp struct "title") = true → getProp struct "phases" = arr [] →
      validateCourseStructure struct = .ok { valid := true, errors := [] }) ∧
    (∀ phases phase, getProp struct "phases" = arr phases → phase ∈ phases →
      getProp phase "phase_number" = num 0 →
      ¬ ∃ errors, validateCourseStructure struct = .ok { valid := true, errors := errors }) ∧
    (∀ phases phase lessons lesson, getProp struct "phases" = arr phases → phase ∈ phases →
      getProp phase "lessons" = arr lessons → lesson ∈ lessons →
      getProp lesson "lesson_number" = num 0 →
      ¬ ∃ errors, validateCourseStructure struct = .ok { valid := true, errors := errors }) := by
  have hmain : (∃ errors, validateCourseStructure struct =
        .ok { valid := true, errors := errors }) ↔
      (isNonEmptyString (getProp struct "title") = true ∧
        ∃ phases, getProp struct "phases" = arr phases ∧
          ∀ phase ∈ phases,
            isNonZeroNumber (getProp phase "phase_number") = true ∧
            isNonEmptyString (getProp phase "title") = true ∧
            isNonEmptyString (getProp phase "description") = true ∧
            ∃ lessons, getProp phase "lessons" = arr lessons ∧
              ∀ lesson ∈ lessons,
                isNonZeroNumber (getProp lesson "lesson_number") = true ∧
                isNonEmptyString (getProp lesson "title") = true ∧
                isNonEmptyString (getProp lesson "description") = true ∧
                isNonEmptyString (getProp lesson "instructional_seed") = true) := by
    rw [validateCourseStructure_ok_iff, wellFormedStructure_iff]
    simp only [wellFormedPhase_iff, wellFormedLesson_iff]
  refine ⟨fun v hv => validateCourseStructure_valid struct v hv, hmain, ?_, ?_, ?_⟩
  · intro htitle hphases
    obtain ⟨errors, herrors⟩ := hmain.2 ⟨htitle, [], hphases, by simp⟩
    have hnil := (validateCourseStructure_valid struct _ herrors).1 rfl
    simp only at hnil
    rw [herrors, hnil]
  · intro phases phase hphases hphase hzero hvalid
    obtain ⟨_, phases', hp', hall⟩ := hmain.1 hvalid
    rw [hphases] at hp'
    cases hp'
    have hnum := (hall phase hphase).1
    rw [hzero] at hnum
    simp [isNonZeroNumber] at hnum
  · intro phases phase lessons lesson hphases hphase hlessons hlesson hzero hvalid
    obtain ⟨errors, herrors⟩ := hvalid
    have hwf := wellFormedLesson_of_valid struct errors herrors phases hphases phase hphase
      lessons hlessons lesson hlesson
    have hnum := ((wellFormedLesson_iff lesson).1 hwf).1
    rw [hzero] at hnum
    simp [isNonZeroNumber] at hnum

/-- C26, witness: the sample outline and the outline without phases are valid,
the outlines with a phase or a lesson numbered 0 are not. -/
theorem validateCourseStructure_valid_iff_witness :
    validateCourseStructure sampleStructure = .ok { valid := true, errors := [] } ∧
    validateCourseStructure emptyOutline = .ok { valid := true, errors := [] } ∧
    validateCourseStructure phaseZeroOutline =
      .ok { valid := false, errors := ["Phase 0: missing or invalid phase_number"] } ∧
    (¬ ∃ errors, validateCourseStructure phaseZeroOutline =
      .ok { valid := true, errors := errors }) ∧
    validateCourseStructure lessonZeroOutline =
      .ok { valid := false, errors := ["Phase 0, Lesson 0: missing or invalid lesson_number"] } ∧
    (¬ ∃ errors, validateCourseStructure lessonZeroOutline =
      .ok { valid := true, errors := errors }) :=
  ⟨rfl,
   (validateCourseStructure_valid_iff emptyOutline).2.2.1 (by decide) rfl,
   rfl,
   (validateCourseStructure_valid_iff phaseZeroOutline).2.2.2.1 _ _ rfl
     (List.mem_singleton.2 rfl) rfl,
   rfl,
   (validateCourseStructure_valid_iff lessonZeroOutline).2.2.2.2 _ _ _ _ rfl
     (List.mem_singleton.2 rfl) rfl (List.mem_singleton.2 rfl) rfl⟩

/-! ### C30: the lessons of a valid outline and `generateLesson` -/

/-- A well-formed lesson passes the checks `generateLesson` makes on its
lesson. -/
theorem lessonRejection_of_wellFormed (lesson : JsVal) (hwf : wellFormedLesson lesson = true) :
    lessonRejection lesson = none := by
  obtain ⟨_, htitle, hdesc, hseed⟩ := (wellFormedLesson_iff lesson).1 hwf
  have hl : truthy lesson = true := by
    cases lesson <;> simp_all [getProp, isNonEmptyString, truthy]
  unfold lessonRejection
  simp [hl, truthy_of_isNonEmptyString _ htitle, truthy_of_isNonEmptyString _ hdesc,
    truthy_of_isNonEmptyString _ hseed]

/-- How `generateLesson` goes on a brain that has `high_level`: the error of
the lesson checks if there is one, and the key, the searches and the request
otherwise. -/
theorem generateLesson_of_brain {W : Type} (h : Host W) (env : ProcessEnv)
    (brain lesson options : JsVal) (hbrain : isNullish brain = false)
    (hhigh : truthy (getProp
      (if truthy (getProp brain "brain") then getProp brain "brain" else brain)
      "high_level") = true) :
    generateLesson h env brain lesson options =
      match lessonRejection lesson with
      | some e => Js.throw e
      | none => generateLessonChecked h env
          (if truthy (getProp brain "brain") then getProp brain "brain" else brain) lesson
          (optionsOrDefault options) := by
  have hdata : truthy (if truthy (getProp brain "brain") then getProp brain "brain" else brain)
      = true := by
    generalize (if truthy (getProp brain "brain") then getProp brain "brain" else brain) = d
      at hhigh
    cases d <;> simp_all [getProp, truthy]
  funext s
  unfold generateLesson lessonRejection generateLessonChecked readProp
  simp only [hbrain, Bool.false_eq_true, if_false, lift_ok_bind, hdata, hhigh, Bool.not_true,
    Bool.or_self]
  cases h2 : (!truthy lesson || !truthy (getProp lesson "instructional_seed"))
  case true => simp
  case false =>
    cases h3 : (!truthy (getProp lesson "title") || !truthy (getProp lesson "description"))
    case true => simp
    case false => simp

/-- C30.  A lesson of an outline that `validateCourseStructure` finds valid
passes the checks `generateLesson` makes on its lesson: neither "Lesson must
have an instructional_seed property" nor "Lesson must have title and
description" is thrown for it, and with a brain that has `high_level` the call
goes on to the key, the searches and the request. -/
theorem valid_lesson_passes_lesson_checks {W : Type} (h : Host W) (env : ProcessEnv)
    (struct : JsVal) (errors : List String)
    (hvalid : validateCourseStructure struct = .ok { valid := true, errors := errors })
    (phases : List JsVal) (hphases : getProp struct "phases" = arr phases)
    (phase : JsVal) (hphase : phase ∈ phases)
    (lessons : List JsVal) (hlessons : getProp phase "lessons" = arr lessons)
    (lesson : JsVal) (hlesson : lesson ∈ lessons) :
    lessonRejection lesson = none ∧
    ∀ brain options, isNullish brain = false →
      truthy (getProp (if truthy (getProp brain "brain") then getProp brain "brain" else brain)
        "high_level") = true →
      generateLesson h env brain lesson options =
        generateLessonChecked h env
          (if truthy (getProp brain "brain") then getProp brain "brain" else brain) lesson
          (optionsOrDefault options) := by
  have hnone := lessonRejection_of_wellFormed lesson
    (wellFormedLesson_of_valid struct errors hvalid phases hphases phase hphase lessons hlessons
      lesson hlesson)
  refine ⟨hnone, fun brain options hbrain hhigh => ?_⟩
  rw [generateLesson_of_brain h env brain lesson options hbrain hhigh, hnone]

/-- C30, witness: the first lesson of the sample outline. -/
theorem valid_lesson_passes_lesson_checks_witness :
    validateCourseStructure sampleStructure = .ok { valid := true, errors := [] } ∧
    lessonRejection promptLesson = none ∧
    generateLesson lessonHost envWithSearch sampleBrain promptLesson undefined =
      generateLessonChecked lessonHost envWithSearch sampleDocument promptLesson (obj []) :=
  ⟨rfl,
   (valid_lesson_passes_lesson_checks lessonHost envWithSearch sampleStructure [] rfl _ rfl
      coreMechanics (List.Mem.head _) _ rfl promptLesson (List.Mem.head _)).1,
   (valid_lesson_passes_lesson_checks lessonHost envWithSearch sampleStructure [] rfl _ rfl
      coreMechanics (List.Mem.head _) _ rfl promptLesson (List.Mem.head _)).2
      sampleBrain undefined rfl rfl⟩

/-! ## Facts about `updateCourseStructure` and `getCourseStats` -/

/-- A value with a truthy property other than `length` is a record. -/
theorem obj_of_truthy_getProp (v : JsVal) (k : String) (hk : k ≠ "length")
    (hv : truthy (getProp v k) = true) : ∃ kvs, v = obj kvs := by
  cases v <;> simp_all [getProp, truthy]

/-- When `updateCourseStructure` throws. -/
theorem updateCourseStructure_error_iff (now : String) (brain struct : JsVal) :
    (∃ e, (updateCourseStructure now brain struct).1 = .error e) ↔
      (truthy brain = false ∨ truthy (getProp brain "brain") = false ∨
        truthy struct = false ∨ truthy (getProp struct "phases") = false) := by
  unfold updateCourseStructure
  cases truthy brain <;> cases truthy (getProp brain "brain") <;> cases truthy struct <;>
    cases truthy (getProp struct "phases") <;> simp

/-- What `updateCourseStructure` does when it accepts its arguments. -/
theorem updateCourseStructure_of_accepted (now : String) (brain struct : JsVal)
    (hbrain : truthy (getProp brain "brain") = true)
    (hstruct : truthy (getProp struct "phases") = true) :
    ∃ brainFields structFields, brain = obj brainFields ∧ struct = obj structFields ∧
      updateCourseStructure now brain struct =
        (.ok (obj (setField "brain"
            (assign (lookup "brain" brainFields) "course_structure"
              (obj (setField "generated_at" (str now) structFields))) brainFields)),
          obj (setField "brain"
            (assign (lookup "brain" brainFields) "course_structure"
              (obj (setField "generated_at" (str now) structFields))) brainFields)) := by
  obtain ⟨brainFields, rfl⟩ := obj_of_truthy_getProp brain "brain" (by decide) hbrain
  obtain ⟨structFields, rfl⟩ := obj_of_truthy_getProp struct "phases" (by decide) hstruct
  refine ⟨brainFields, structFields, rfl, rfl, ?_⟩
  rw [getProp_obj] at hbrain hstruct
  unfold updateCourseStructure
  simp only [getProp_obj, hbrain, hstruct, show ∀ kvs, truthy (obj kvs) = true from fun _ => rfl,
    Bool.not_true, Bool.or_self, Bool.false_eq_true, if_false, ownProps]
  rfl

/-- A falsy value has no truthy property. -/
theorem getProp_of_falsy (v : JsVal) (k : String) (hv : truthy v = false) :
    truthy (getProp v k) = false := by
  cases v with
  | str s =>
    have hs : s = "" := by simpa [truthy] using hv
    subst hs
    by_cases hk : k = "length" <;> simp [getProp, hk, truthy, utf16Length]
  | _ => simp_all [getProp, truthy]

/-! ### C24: what `updateCourseStructure` changes -/

/-- C24, counterexample.  An outline that carries a `generated_at` of its own
is accepted, and the `course_structure` written does not keep that field's
value: it holds the time of the call.  And a brain whose `brain` is `true` is
accepted and returned as it is: the assignment to a property of a boolean is
ignored, so no `course_structure` is written. -/
theorem updateCourseStructure_overwrites_generated_at :
    getProp datedStructure "generated_at" = str "2025-06-30T12:00:00.000Z" ∧
    (updateCourseStructure "2026-01-01T00:00:00.000Z" sampleBrain datedStructure).1 =
      .ok (obj [("brain", obj
        [("high_level", getProp sampleDocument "high_level"),
         ("course_structure", obj
            [("title", str "AI Tools for PMs"),
             ("phases", arr []),
             ("generated_at", str "2026-01-01T00:00:00.000Z")]),
         ("low_level", obj [])])]) ∧
    (updateCourseStructure "2026-01-01T00:00:00.000Z" flagBrain sampleStructure).1 =
      .ok flagBrain ∧
    getProp (getProp flagBrain "brain") "course_structure" = undefined :=
  ⟨rfl, rfl, rfl, rfl⟩

/-- C24, as amended.  For a brain whose `brain` is a record and an outline with
a truthy `phases`, `updateCourseStructure` returns the brain it was given, now
with a `course_structure` that has every field of the outline other than
`generated_at` with its value, and the time of the call as `generated_at`;
`high_level`, `low_level` and every other field of the brain are what they were
before the call. -/
theorem updateCourseStructure_frame (now : String) (brain struct : JsVal)
    (inner : List (String × JsVal)) (hbrain : getProp brain "brain" = obj inner)
    (hphases : truthy (getProp struct "phases") = true) :
    ∃ updated, updateCourseStructure now brain struct = (.ok updated, updated) ∧
      (∀ k, k ≠ "generated_at" →
        getProp (getProp (getProp updated "brain") "course_structure") k = getProp struct k) ∧
      getProp (getProp (getProp updated "brain") "course_structure") "generated_at" = str now ∧
      getProp (getProp updated "brain") "high_level" =
        getProp (getProp brain "brain") "high_level" ∧
      getProp (getProp updated "brain") "low_level" =
        getProp (getProp brain "brain") "low_level" ∧
      (∀ k, k ≠ "course_structure" →
        getProp (getProp updated "brain") k = getProp (getProp brain "brain") k) ∧
      (∀ k, k ≠ "brain" → getProp updated k = getProp brain k) := by
  obtain ⟨brainFields, structFields, rfl, rfl, hrun⟩ :=
    updateCourseStructure_of_accepted now brain struct (by rw [hbrain]; rfl) hphases
  rw [getProp_obj] at hbrain
  rw [hbrain] at hrun
  refine ⟨_, hrun, ?_, ?_, ?_, ?_, ?_, ?_⟩
  · intro k hk
    simp only [getProp_obj, lookup_setField_same, assign]
    exact lookup_setField_other _ _ _ _ hk
  · simp only [getProp_obj, lookup_setField_same, assign]
  · simp only [getProp_obj, lookup_setField_same, assign, hbrain]
    exact lookup_setField_other _ _ _ _ (by decide)
  · simp only [getProp_obj, lookup_setField_same, assign, hbrain]
    exact lookup_setField_other _ _ _ _ (by decide)
  · intro k hk
    simp only [getProp_obj, lookup_setField_same, assign, hbrain]
    exact lookup_setField_other _ _ _ _ hk
  · intro k hk
    simp only [getProp_obj]
    exact lookup_setField_other _ _ _ _ hk

/-- C24, witness of the amended statement: the sample brain and the sample
outline. -/
theorem updateCourseStructure_frame_witness :
    ∃ updated, updateCourseStructure "2026-01-01T00:00:00.000Z" sampleBrain sampleStructure =
        (.ok updated, updated) ∧
      getProp (getProp (getProp updated "brain") "course_structure") "phases" =
        getProp sampleStructure "phases" ∧
      getProp (getProp (getProp updated "brain") "course_structure") "generated_at" =
        str "2026-01-01T00:00:00.000Z" ∧
      getProp (getProp updated "brain") "high_level" = getProp sampleDocument "high_level" ∧
      getProp (getProp updated "brain") "low_level" = obj [] := by
  obtain ⟨updated, hrun, hfields, htime, hhigh, hlow, _, _⟩ :=
    updateCourseStructure_frame "2026-01-01T00:00:00.000Z" sampleBrain sampleStructure _ rfl rfl
  exact ⟨updated, hrun, hfields "phases" (by decide), htime, hhigh, hlow⟩

/-! ### C28: the statistics of an outline -/

/-- The optional read `v?.k` is the plain read wherever that does not throw,
and `undefined` on `undefined` and `null`. -/
theorem optProp_eq_getProp (v : JsVal) (k : String) : optProp v k = getProp v k := by
  unfold optProp
  cases hn : isNullish v
  · simp
  · simp [getProp_of_isNullish v k hn]

theorem lessonsLength_of_entry (phase : JsVal) (hphase : isPhaseEntry phase = true) :
    lessonsLength phase = .ok (num (lessonCount phase)) := by
  unfold isPhaseEntry at hphase
  simp only [Bool.and_eq_true, Bool.not_eq_true'] at hphase
  obtain ⟨hn, hlessons⟩ := hphase
  unfold lessonsLength lessonCount readProp
  simp only [hn, Bool.false_eq_true, if_false, Bind.bind, Except.bind, pure, Except.pure]
  cases hl : getProp phase "lessons" with
  | arr lessons =>
    cases lessons with
    | nil => simp [isNullish, getProp, truthy]
    | cons l rest =>
      have hne : ((rest.length : Int) + 1 != 0) = true := by
        simp only [bne_iff_ne, ne_eq]
        omega
      simp [isNullish, getProp, truthy, hne]
  | str text =>
    by_cases hzero : utf16Length text = 0
    · simp [isNullish, getProp, truthy, hzero]
    · have hne : ((utf16Length text : Int) != 0) = true := by
        simp only [bne_iff_ne, ne_eq]
        omega
      simp [isNullish, getProp, truthy, hne]
  | obj kvs => rw [hl] at hlessons; simp at hlessons
  | _ => simp [isNullish, getProp, truthy]

theorem sumLessons_of_entries (sum : Int) (phases : List JsVal)
    (hphases : ∀ phase ∈ phases, isPhaseEntry phase = true) :
    sumLessons (num sum) phases = .ok (num (sum + ((phases.map lessonCount).sum : Nat))) := by
  induction phases generalizing sum with
  | nil => simp [sumLessons]
  | cons phase rest ih =>
    unfold sumLessons
    rw [lessonsLength_of_entry phase (hphases phase (List.mem_cons_self _ _))]
    simp only [Bind.bind, Except.bind]
    have hadd : jsAdd (num sum) (num (lessonCount phase)) = num (sum + lessonCount phase) := rfl
    rw [hadd, ih _ (fun p hp => hphases p (List.mem_cons_of_mem _ hp))]
    simp only [List.map_cons, List.sum_cons, Nat.cast_add]
    rw [add_assoc]

theorem phaseStats_of_entries (phases : List JsVal)
    (hphases : ∀ phase ∈ phases, isPhaseEntry phase = true) :
    phaseStats phases = .ok (phases.map phaseEntry) := by
  induction phases with
  | nil => rfl
  | cons phase rest ih =>
    have hentry := hphases phase (List.mem_cons_self _ _)
    have hn : isNullish phase = false := by
      unfold isPhaseEntry at hentry
      simp only [Bool.and_eq_true, Bool.not_eq_true'] at hentry
      exact hentry.1
    unfold phaseStats
    rw [ih (fun p hp => hphases p (List.mem_cons_of_mem _ hp))]
    unfold phaseStat readProp
    rw [lessonsLength_of_entry phase hentry]
    simp [hn, Bind.bind, Except.bind, pure, Except.pure, phaseEntry]

theorem sumLessonCounts_entries (phases : List JsVal) :
    sumLessonCounts (phases.map phaseEntry) = ((phases.map lessonCount).sum : Nat) := by
  induction phases with
  | nil => rfl
  | cons phase rest ih =>
    simp only [List.map_cons, sumLessonCounts, ih, List.sum_cons, Nat.cast_add]
    simp [phaseEntry, getProp_obj, lookup]

/-- C28, counterexample.  A brain whose list of phases holds `null`:
`getCourseStats` throws a `TypeError` and returns nothing.  A brain with a
phase whose `lessons` is the text "soon", not a list: the phase counts 4
lessons, not 0. -/
theorem getCourseStats_throws_on_null_phase :
    getCourseStats brainWithNullPhase = .error (cannotRead null "lessons") ∧
    getCourseStats brainWithTextLessons =
      .ok (obj
        [("title", str "AI Tools for PMs"),
         ("total_phases", num 1),
         ("total_lessons", num 4),
         ("lessons_per_phase", arr
           [obj [("phase", num 1), ("title", str "Core Mechanics"), ("lesson_count", num 4)]]),
         ("generated_at", undefined)]) :=
  ⟨rfl, rfl⟩

/-- C28, as amended.  For a brain whose `course_structure.phases` is a list
whose entries are neither `null` nor `undefined` (and whose `lessons` are not
records), `getCourseStats` returns statistics in which `total_phases` is the
number of phases, `lessons_per_phase` has one entry for each phase in the same
order (with the phase's number, its title and its number of lessons), and
`total_lessons` is the sum of `lesson_count` over `lessons_per_phase`; the
number of lessons of a phase is the length of its `lessons` (of a list, and
also of a text), and 0 for a phase that has none.  For a brain without
`course_structure.phases` (no brain, no `brain`, no `course_structure`, or no
truthy `phases`) it returns the record with `error` 'No course structure
found' and does not throw. -/
theorem getCourseStats_counts (brain : JsVal) :
    (∀ phases, getProp (getProp (getProp brain "brain") "course_structure") "phases" =
        arr phases →
      (∀ phase ∈ phases, isPhaseEntry phase = true) →
      ∃ stats, getCourseStats brain = .ok stats ∧
        getProp stats "total_phases" = num phases.length ∧
        getProp stats "lessons_per_phase" = arr (phases.map phaseEntry) ∧
        getProp stats "total_lessons" = num (sumLessonCounts (phases.map phaseEntry)) ∧
        sumLessonCounts (phases.map phaseEntry) = ((phases.map lessonCount).sum : Nat) ∧
        getProp stats "title" =
          getProp (getProp (getProp brain "brain") "course_structure") "title") ∧
    (truthy (getProp (getProp (getProp brain "brain") "course_structure") "phases") = false →
      getCourseStats brain = .ok (obj [("error", str "No course structure found")])) := by
  constructor
  · intro phases hphases hentries
    refine ⟨obj
      [("title", getProp (getProp (getProp brain "brain") "course_structure") "title"),
       ("total_phases", num phases.length),
       ("total_lessons", num (sumLessonCounts (phases.map phaseEntry))),
       ("lessons_per_phase", arr (phases.map phaseEntry)),
       ("generated_at",
         getProp (getProp (getProp brain "brain") "course_structure") "generated_at")],
      ?_, rfl, rfl, rfl, sumLessonCounts_entries phases, rfl⟩
    unfold getCourseStats
    simp only [optProp_eq_getProp, hphases, arrayMethod,
      show truthy (arr phases) = true from rfl, Bool.not_true, Bool.false_eq_true, if_false,
      Bind.bind, Except.bind, pure, Except.pure]
    rw [sumLessons_of_entries 0 phases hentries, phaseStats_of_entries phases hentries,
      sumLessonCounts_entries]
    simp [getProp]
  · intro hnone
    unfold getCourseStats
    simp [optProp_eq_getProp, hnone]

/-- C28, witness of the amended statement: a brain with two phases, the second without `lessons`; and
a new brain, whose `course_structure` is empty. -/
theorem getCourseStats_counts_witness :
    (∃ stats, getCourseStats brainWithOutline = .ok stats ∧
      getProp stats "total_phases" = num 2 ∧
      getProp stats "lessons_per_phase" = arr
        [obj [("phase", num 1), ("title", str "Core Mechanics"), ("lesson_count", num 2)],
         obj [("phase", num 2), ("title", str "Workflows"), ("lesson_count", num 0)]] ∧
      getProp stats "total_lessons" = num 2) ∧
    getCourseStats sampleBrain = .ok (obj [("error", str "No course structure found")]) := by
  obtain ⟨stats, hstats, hphases, hper, htotal, _, _⟩ :=
    (getCourseStats_counts brainWithOutline).1 _ rfl (by decide)
  exact ⟨⟨stats, hstats, hphases, hper, htotal⟩, (getCourseStats_counts sampleBrain).2 rfl⟩

/-! ## Facts about `generateCourseStructure` -/

/-- The requests `searchWeb` sends: one with a key, none without. -/
theorem searchWeb_sent {W : Type} (h : Host W) (env : ProcessEnv) (query count : JsVal)
    (s : St W) :
    (searchWeb h env query count s).2.sent =
      s.sent ++ (if truthy env.YDC_API_KEY then [searchRequest env query (countOrDefault count)]
        else []) := by
  cases hkey : truthy env.YDC_API_KEY with
  | false => simp [searchWeb, hkey]
  | true =>
    rw [searchWeb_run h env query count s hkey]
    unfold searchWebBody doFetch
    simp only [bind_run, if_true]
    rcases hf : h.fetch (searchRequest env query (countOrDefault count)) s.world with ⟨r, w⟩
    cases r with
    | error e => rfl
    | ok resp =>
      simp only
      cases hok : resp.ok
      · cases ht : resp.text <;> simp [bind_run, hok, ht]
      · cases hj : resp.json with
        | error e => simp [bind_run, hok, hj]
        | ok data =>
          cases hw : resultsWeb data with
          | error e => simp [bind_run, hok, hj, hw]
          | ok web =>
            cases htw : truthy web with
            | false => simp [bind_run, hok, hj, hw, htw]
            | true =>
              cases hitems : arrayMethod "data.results.web" "map" web with
              | error e => simp [bind_run, hok, hj, hw, htw, hitems]
              | ok items =>
                cases hp : pickResults items <;> simp [bind_run, hok, hj, hw, htw, hitems, hp]

/-- The searches of a list of queries always return, and send one request for
each query when there is a search key. -/
theorem searchAll_run {W : Type} (h : Host W) (env : ProcessEnv) (queries : List String)
    (s : St W) :
    ∃ results s1, searchAll h env queries s = (.ok results, s1) ∧
      s1.sent = s.sent ++ (if truthy env.YDC_API_KEY then
        queries.map (fun query => searchRequest env (str query) (num 5)) else []) := by
  induction queries generalizing s with
  | nil => exact ⟨[], s, rfl, by simp⟩
  | cons query rest ih =>
    obtain ⟨results, hresults⟩ := searchWeb_total h env (str query) undefined s
    have hsent := searchWeb_sent h env (str query) undefined s
    rcases hrun : searchWeb h env (str query) undefined s with ⟨r, s1⟩
    rw [hrun] at hresults hsent
    simp only at hresults hsent
    subst hresults
    obtain ⟨more, s2, hmore, hsent2⟩ := ih s1
    refine ⟨results ++ more, s2, ?_, ?_⟩
    · unfold searchAll
      rw [bind_ok hrun, bind_ok hmore]
      rfl
    · rw [hsent2, hsent]
      cases hkey : truthy env.YDC_API_KEY <;> simp [countOrDefault]

/-- An outline that passes the checks of `generateCourseStructure` is returned
as it is, has a truthy `title` and a list as `phases`. -/
theorem checkStructure_ok (parsed struct : JsVal) (hcheck : checkStructure parsed = .ok struct) :
    struct = parsed ∧ truthy (getProp struct "title") = true ∧
      ∃ phases, getProp struct "phases" = arr phases := by
  unfold checkStructure readProp at hcheck
  cases hn : isNullish parsed with
  | true => simp [hn, Bind.bind, Except.bind] at hcheck
  | false =>
    simp only [hn, Bool.false_eq_true, if_false, Bind.bind, Except.bind] at hcheck
    split at hcheck
    · cases hcheck
    · rename_i hcond
      simp only [Bool.or_eq_true, Bool.not_eq_true', not_or, Bool.not_eq_false] at hcond
      split at hcheck
      · rename_i phases hphases
        cases htotal : sumLessons (num 0) phases with
        | error e => simp [htotal] at hcheck
        | ok total =>
          simp only [htotal, pure, Except.pure, Except.ok.injEq] at hcheck
          subst hcheck
          exact ⟨rfl, hcond.1, phases, hphases⟩
      · cases hcheck

/-- A value returned by the `try` block of `generateCourseStructure` passed
its checks. -/
theorem generateCourseStructureBody_ok {W : Type} (h : Host W) (env : ProcessEnv) (year : Nat)
    (apiKey model highLevel : JsVal) (s : St W) (struct : JsVal)
    (hret : (generateCourseStructureBody h env year apiKey model highLevel s).1 = .ok struct) :
    ∃ parsed, checkStructure parsed = .ok struct := by
  unfold generateCourseStructureBody at hret
  obtain ⟨queries, s0, _, hret⟩ := bind_ok_inv hret
  obtain ⟨results, s1, _, hret⟩ := bind_ok_inv hret
  obtain ⟨response, s2, _, hret⟩ := bind_ok_inv hret
  split at hret
  · obtain ⟨errorData, s3, _, hret⟩ := bind_ok_inv hret
    cases hret
  · obtain ⟨data, s3, _, hret⟩ := bind_ok_inv hret
    obtain ⟨choices, s4, _, hret⟩ := bind_ok_inv hret
    split at hret
    · cases hret
    · obtain ⟨parsed, s5, _, hret⟩ := bind_ok_inv hret
      exact ⟨parsed, hret⟩

/-- A value returned by `generateCourseStructure` passed its checks. -/
theorem generateCourseStructure_ok {W : Type} (h : Host W) (env : ProcessEnv) (year : Nat)
    (brain options : JsVal) (s : St W) (struct : JsVal)
    (hret : (generateCourseStructure h env year brain options s).1 = .ok struct) :
    ∃ parsed, checkStructure parsed = .ok struct := by
  unfold generateCourseStructure at hret
  obtain ⟨inner, s1, _, hret⟩ := bind_ok_inv hret
  dsimp only at hret
  generalize (if truthy inner = true then inner else brain) = brainData at hret
  cases h1 : (!truthy brainData || !truthy (getProp brainData "high_level"))
  case true => simp [h1] at hret
  case false =>
    simp only [h1, Bool.false_eq_true, if_false] at hret
    obtain ⟨optionsKey, s2, _, hret⟩ := bind_ok_inv hret
    generalize (if truthy optionsKey = true then optionsKey else env.OPENROUTER_API_KEY) =
      apiKey at hret
    cases h4 : (!truthy apiKey)
    case true => simp [h4] at hret
    case false =>
      simp only [h4, Bool.false_eq_true, if_false] at hret
      obtain ⟨subject, s3, _, hret⟩ := bind_ok_inv hret
      unfold Js.tryCatch at hret
      split at hret
      · rename_i a s4 hbody
        simp only at hret
        cases hret
        exact generateCourseStructureBody_ok h env year _ _ _ s3 struct (by rw [hbody])
      · cases hret

/-- How `generateCourseStructure` goes when it is given the brain document
itself. -/
theorem generateCourseStructure_of_document {W : Type} (h : Host W) (env : ProcessEnv)
    (year : Nat) (b options : JsVal) (hhigh : truthy (getProp b "high_level") = true)
    (hdoc : truthy (getProp b "brain") = false) :
    generateCourseStructure h env year b options =
      generateCourseStructureChecked h env year (getProp b "high_level")
        (optionsOrDefault options) := by
  obtain ⟨kvs, rfl⟩ := obj_of_truthy_getProp b "high_level" (by decide) hhigh
  funext s
  unfold generateCourseStructure generateCourseStructureChecked readProp
  simp only [show isNullish (obj kvs) = false from rfl, Bool.false_eq_true, if_false,
    lift_ok_bind, hdoc, hhigh, show truthy (obj kvs) = true from rfl, Bool.not_true,
    Bool.or_self]

/-- How `generateCourseStructure` goes when it is given the wrapper around a
brain document. -/
theorem generateCourseStructure_of_wrapper {W : Type} (h : Host W) (env : ProcessEnv)
    (year : Nat) (b options : JsVal) (hhigh : truthy (getProp b "high_level") = true) :
    generateCourseStructure h env year (obj [("brain", b)]) options =
      generateCourseStructureChecked h env year (getProp b "high_level")
        (optionsOrDefault options) := by
  obtain ⟨kvs, rfl⟩ := obj_of_truthy_getProp b "high_level" (by decide) hhigh
  have hinner : getProp (obj [("brain", obj kvs)]) "brain" = obj kvs := by
    simp [getProp_obj, lookup]
  funext s
  unfold generateCourseStructure generateCourseStructureChecked readProp
  simp only [show isNullish (obj [("brain", obj kvs)]) = false from rfl, Bool.false_eq_true,
    if_false, lift_ok_bind, hinner, hhigh, show truthy (obj kvs) = true from rfl, if_true,
    Bool.not_true, Bool.or_self]

/-- The requests of `generateCourseStructure` once the brain has passed its
check, when there is a key and the subject can be read: the searches, and then
one request to the generation service, whatever that answers. -/
theorem generateCourseStructureChecked_sent {W : Type} (h : Host W) (env : ProcessEnv)
    (year : Nat) (highLevel options : JsVal) (s : St W)
    (hoptions : isNullish options = false)
    (hkey : truthy (if truthy (getProp options "apiKey") then getProp options "apiKey"
      else env.OPENROUTER_API_KEY) = true)
    (queries : List String) (hqueries : buildStructureQueries year highLevel = .ok queries) :
    ∃ results, (searchAll h env queries s).1 = .ok results ∧
      (generateCourseStructureChecked h env year highLevel options s).2.sent =
        s.sent ++
          (if truthy env.YDC_API_KEY then
            queries.map (fun query => searchRequest env (str query) (num 5)) else []) ++
          [structureRequest h
            (if truthy (getProp options "apiKey") then getProp options "apiKey"
              else env.OPENROUTER_API_KEY)
            (if truthy (getProp options "model") then getProp options "model"
              else str "google/gemini-3-flash-preview")
            highLevel results] := by
  obtain ⟨results, s1, hsearch, hsent⟩ := searchAll_run h env queries s
  refine ⟨results, by rw [hsearch], ?_⟩
  have hsubject : ∃ subject,
      readProp (getProp highLevel "onboarding") "subject" = .ok subject := by
    unfold buildStructureQueries at hqueries
    cases h1 : readProp highLevel "onboarding" with
    | error e => simp [h1, Bind.bind, Except.bind] at hqueries
    | ok onboarding =>
      have hon : onboarding = getProp highLevel "onboarding" := by
        unfold readProp at h1
        split at h1
        · cases h1
        · cases h1; rfl
      subst hon
      cases h2 : readProp (getProp highLevel "onboarding") "subject" with
      | error e => simp [h1, h2, Bind.bind, Except.bind] at hqueries
      | ok subject => exact ⟨subject, rfl⟩
  obtain ⟨subject, hsubject⟩ := hsubject
  unfold generateCourseStructureChecked readProp
  simp only [hoptions, Bool.false_eq_true, if_false, lift_ok_bind, hkey, Bool.not_true]
  rw [← readProp, hsubject]
  simp only [lift_ok_bind]
  unfold Js.tryCatch generateCourseStructureBody
  simp only [hqueries, lift_ok_bind]
  rw [bind_ok hsearch]
  unfold doFetch
  simp only [bind_run]
  rw [← hsent]
  generalize hreq : structureRequest h
    (if truthy (getProp options "apiKey") then getProp options "apiKey"
      else env.OPENROUTER_API_KEY)
    (if truthy (getProp options "model") then getProp options "model"
      else str "google/gemini-3-flash-preview") highLevel results = req
  rcases hf : h.fetch req s1.world with ⟨r, w⟩
  cases r with
  | error e => rfl
  | ok resp =>
    simp only
    cases hok : resp.ok
    · cases ht : resp.text <;> simp [bind_run, hok, ht]
    · cases hj : resp.json with
      | error e => simp [bind_run, hok, hj]
      | ok data =>
        cases hc : readProp data "choices" with
        | error e => simp [bind_run, hok, hj, hc]
        | ok choices =>
          cases hshape : (!truthy choices || !truthy (getIdx choices 0) ||
              !truthy (getProp (getIdx choices 0) "message"))
          · simp only [Bool.or_eq_false_iff, Bool.not_eq_false'] at hshape
            obtain ⟨⟨h1, h2⟩, h3⟩ := hshape
            cases hparse : h.jsonParse
                (getProp (getProp (getIdx choices 0) "message") "content") with
            | error e => simp [bind_run, hok, hj, hc, h1, h2, h3, hparse]
            | ok parsed =>
              cases hcheck : checkStructure parsed <;>
                simp [bind_run, hok, hj, hc, h1, h2, h3, hparse, hcheck]
          · have hor : (truthy choices = false ∨ truthy (getIdx choices 0) = false) ∨
                truthy (getProp (getIdx choices 0) "message") = false := by
              simpa [Bool.or_eq_true] using hshape
            simp [bind_run, hok, hj, hc, hor]

/-! ### C25: the two shapes of the brain -/

set_option maxRecDepth 2000 in
/-- C25, counterexample.  A brain document that has `high_level` and carries a
property `brain` of its own (here a label).  Called with the wrapper around
it, `generateCourseStructure` sends its request and returns the outline;
called with the document itself, it takes the label for the brain data and
throws "Brain must have a high_level property" without sending anything. -/
theorem generateCourseStructure_rejects_labelled_document :
    truthy (getProp labelledDocument "high_level") = true ∧
    (generateCourseStructure structureHost envWithoutSearch 2026
        (obj [("brain", labelledDocument)]) undefined
        (initial [.ok (completion sampleStructureText)] [])).1 = .ok sampleStructure ∧
    (generateCourseStructure structureHost envWithoutSearch 2026
        (obj [("brain", labelledDocument)]) undefined
        (initial [.ok (completion sampleStructureText)] [])).2.sent.length = 1 ∧
    generateCourseStructure structureHost envWithoutSearch 2026 labelledDocument undefined
        (initial [.ok (completion sampleStructureText)] []) =
      (.error ⟨"Error", "Brain must have a high_level property"⟩,
        initial [.ok (completion sampleStructureText)] []) :=
  ⟨rfl, rfl, rfl, rfl⟩

/-- C25, as amended.  Let `b` be a brain document with `high_level` and
without a truthy property `brain` of its own.  `generateCourseStructure`
called with the wrapper around `b` and called with `b` itself are the same
computation: the same requests, the same outcome.  Of `b` only `high_level` is
used: a document with the same `high_level` and another `course_structure` or
`low_level` gives the same computation.  With a key, and with `onboarding` in
`high_level`, the requests sent are the searches and then one request to the
generation service, in which the learner data is `b.high_level`. -/
theorem generateCourseStructure_same_for_both_shapes {W : Type} (h : Host W)
    (env : ProcessEnv) (year : Nat) (b options : JsVal)
    (hhigh : truthy (getProp b "high_level") = true)
    (hdoc : truthy (getProp b "brain") = false) :
    generateCourseStructure h env year (obj [("brain", b)]) options =
      generateCourseStructure h env year b options ∧
    (∀ b', getProp b' "high_level" = getProp b "high_level" →
      truthy (getProp b' "brain") = false →
      generateCourseStructure h env year b' options =
        generateCourseStructure h env year b options) ∧
    (∀ s queries, isNullish (optionsOrDefault options) = false →
      truthy (apiKeyOf env options) = true →
      buildStructureQueries year (getProp b "high_level") = .ok queries →
      ∃ results, (searchAll h env queries s).1 = .ok results ∧
        (generateCourseStructure h env year b options s).2.sent =
          s.sent ++
            (if truthy env.YDC_API_KEY then
              queries.map (fun query => searchRequest env (str query) (num 5)) else []) ++
            [structureRequest h (apiKeyOf env options) (modelOf options)
              (getProp b "high_level") results]) := by
  refine ⟨?_, fun b' hsame hdoc' => ?_, fun s queries hoptions hkey hqueries => ?_⟩
  · rw [generateCourseStructure_of_wrapper h env year b options hhigh,
      generateCourseStructure_of_document h env year b options hhigh hdoc]
  · rw [generateCourseStructure_of_document h env year b' options (by rw [hsame]; exact hhigh)
        hdoc',
      generateCourseStructure_of_document h env year b options hhigh hdoc, hsame]
  · rw [generateCourseStructure_of_document h env year b options hhigh hdoc]
    exact generateCourseStructureChecked_sent h env year (getProp b "high_level")
      (optionsOrDefault options) s hoptions hkey queries hqueries

set_option maxRecDepth 2000 in
/-- C25, witness of the amended statement: the sample brain, with and without its wrapper; the one
request sent carries the `high_level` of the document. -/
theorem generateCourseStructure_same_for_both_shapes_witness :
    generateCourseStructure structureHost envWithoutSearch 2026 sampleBrain undefined =
      generateCourseStructure structureHost envWithoutSearch 2026 sampleDocument undefined ∧
    (generateCourseStructure structureHost envWithoutSearch 2026 sampleDocument undefined
        (initial [.ok (completion sampleStructureText)] [])).1 = .ok sampleStructure ∧
    ∃ results,
      (generateCourseStructure structureHost envWithoutSearch 2026 sampleDocument undefined
        (initial [.ok (completion sampleStructureText)] [])).2.sent =
        [] ++ [] ++
        [structureRequest structureHost (str "sk-test") (str "google/gemini-3-flash-preview")
          (getProp sampleDocument "high_level") results] := by
  have hmain := generateCourseStructure_same_for_both_shapes structureHost envWithoutSearch 2026
    sampleDocument undefined rfl rfl
  refine ⟨hmain.1, rfl, ?_⟩
  obtain ⟨results, _, hsent⟩ := hmain.2.2 (initial [.ok (completion sampleStructureText)] [])
    _ rfl rfl rfl
  exact ⟨results, hsent⟩

/-! ### C29: when `updateCourseStructure` fails -/

/-- C29.  `updateCourseStructure` fails if and only if the brain is missing,
has no truthy `brain` field, the outline is missing, or has no truthy `phases`
field; when it fails, the brain passed in is as it was.  An outline returned
by `generateCourseStructure` is never the reason of a failure: with it the
error 'Invalid course structure' is not thrown, and the call succeeds on every
brain that has a truthy `brain` field. -/
theorem updateCourseStructure_fails_iff {W : Type} (h : Host W) (env : ProcessEnv) (year : Nat)
    (now : String) (brain struct : JsVal) :
    ((∃ e, (updateCourseStructure now brain struct).1 = .error e) ↔
      (isNullish brain = true ∨ truthy (getProp brain "brain") = false ∨
        isNullish struct = true ∨ truthy (getProp struct "phases") = false)) ∧
    ((∃ e, (updateCourseStructure now brain struct).1 = .error e) →
      (updateCourseStructure now brain struct).2 = brain) ∧
    (∀ generatorBrain options s,
      (generateCourseStructure h env year generatorBrain options s).1 = .ok struct →
      (updateCourseStructure now brain struct).1 ≠
          .error ⟨"Error", "Invalid course structure"⟩ ∧
        (truthy (getProp brain "brain") = true →
          ∃ updated, (updateCourseStructure now brain struct).1 = .ok updated)) := by
  refine ⟨?_, ?_, ?_⟩
  · rw [updateCourseStructure_error_iff]
    constructor
    · rintro (hb | hb | hs | hs)
      · exact Or.inr (Or.inl (getProp_of_falsy brain _ hb))
      · exact Or.inr (Or.inl hb)
      · exact Or.inr (Or.inr (Or.inr (getProp_of_falsy struct _ hs)))
      · exact Or.inr (Or.inr (Or.inr hs))
    · rintro (hb | hb | hs | hs)
      · exact Or.inl (by cases brain <;> simp_all [isNullish, truthy])
      · exact Or.inr (Or.inl hb)
      · exact Or.inr (Or.inr (Or.inl (by cases struct <;> simp_all [isNullish, truthy])))
      · exact Or.inr (Or.inr (Or.inr hs))
  · rintro ⟨e, he⟩
    unfold updateCourseStructure at he ⊢
    split
    · rfl
    · split
      · rfl
      · rename_i h1 h2
        simp [h1, h2] at he
  · intro generatorBrain options s hret
    obtain ⟨parsed, hparsed⟩ := generateCourseStructure_ok h env year generatorBrain options s
      struct hret
    obtain ⟨_, _, phases, hphases⟩ := checkStructure_ok parsed struct hparsed
    have htruthy : truthy (getProp struct "phases") = true := by rw [hphases]; rfl
    constructor
    · intro hfail
      cases hb : truthy (getProp brain "brain")
      · have hbad : (updateCourseStructure now brain struct).1 =
            .error ⟨"Error", "Invalid brain object"⟩ := by
          unfold updateCourseStructure
          simp [hb]
        rw [hbad] at hfail
        simp at hfail
      · obtain ⟨_, _, _, _, hrun⟩ :=
          updateCourseStructure_of_accepted now brain struct hb htruthy
        rw [hrun] at hfail
        cases hfail
    · intro hb
      obtain ⟨_, _, _, _, hrun⟩ := updateCourseStructure_of_accepted now brain struct hb htruthy
      exact ⟨_, by rw [hrun]⟩

set_option maxRecDepth 2000 in
/-- C29, witness: the outline `generateCourseStructure` returns for the sample
brain is accepted, and an outline without `phases` leaves the brain as it
was. -/
theorem updateCourseStructure_fails_iff_witness :
    (generateCourseStructure structureHost envWithoutSearch 2026 sampleBrain undefined
        (initial [.ok (completion sampleStructureText)] [])).1 = .ok sampleStructure ∧
    (∃ updated, (updateCourseStructure "2026-01-01T00:00:00.000Z" sampleBrain
        sampleStructure).1 = .ok updated) ∧
    (updateCourseStructure "2026-01-01T00:00:00.000Z" sampleBrain (obj [])).1 =
      .error ⟨"Error", "Invalid course structure"⟩ ∧
    (updateCourseStructure "2026-01-01T00:00:00.000Z" sampleBrain (obj [])).2 = sampleBrain :=
  ⟨rfl,
   ((updateCourseStructure_fails_iff structureHost envWithoutSearch 2026
      "2026-01-01T00:00:00.000Z" sampleBrain sampleStructure).2.2 sampleBrain undefined
      (initial [.ok (completion sampleStructureText)] []) rfl).2 rfl,
   rfl,
   (updateCourseStructure_fails_iff structureHost envWithoutSearch 2026
      "2026-01-01T00:00:00.000Z" sampleBrain (obj [])).2.1 ⟨_, rfl⟩⟩

end MentorAgent
